import Mathlib

/-!
# Chat-session persistence and topic classification

A shallow embedding of `src/models/ChatHistory.js`, `src/routes/text.js` and
`src/routes/users.js`, followed by the properties proved about it.

JavaScript strings are sequences of UTF-16 code units; `length`, `substring`,
`includes`, `trim` and `toLowerCase` are embedded on that representation.
-/

namespace ChatBackend

/-! ## JavaScript strings -/

/-- A JavaScript string: its sequence of UTF-16 code units. -/
abbrev JSString := List Nat

/-- UTF-16 encoding of one code point. -/
def utf16 (c : Char) : List Nat :=
  if c.toNat < 65536 then [c.toNat]
  else [55296 + (c.toNat - 65536) / 1024, 56320 + (c.toNat - 65536) % 1024]

/-- The JavaScript string denoted by a source literal. -/
def lit (s : String) : JSString := s.data.flatMap utf16

/-- Lower-casing of one code unit (`String.prototype.toLowerCase`). The mapping is
exact on every code unit that is, or lower-cases to, a Basic Latin character:
`A`..`Z`, U+0130 (capital I with dot above, which becomes `i` followed by U+0307)
and U+212A (Kelvin sign, which becomes `k`). Every other code unit is kept; its
real lower-case form lies outside Basic Latin, and the program only ever compares
lower-cased text with Basic Latin keywords. -/
def lowerUnit (c : Nat) : List Nat :=
  if 65 ≤ c ∧ c ≤ 90 then [c + 32]
  else if c = 304 then [105, 775]
  else if c = 8490 then [107]
  else [c]

/-- `String.prototype.toLowerCase`. -/
def toLowerCase (s : JSString) : JSString := s.flatMap lowerUnit

/-- Upper-casing of one code unit (`String.prototype.toUpperCase`). Exact on every
code unit whose upper-case form contains a Basic Latin character: `a`..`z`, sharp s
(`SS`), dotless i (`I`), long s (`S`), U+0149, U+01F0, U+1E96..U+1E9A and the Latin
ligatures U+FB00..U+FB06. Every other code unit is kept. -/
def upperUnit (c : Nat) : List Nat :=
  if 97 ≤ c ∧ c ≤ 122 then [c - 32]
  else if c = 223 then [83, 83]
  else if c = 305 then [73]
  else if c = 383 then [83]
  else if c = 329 then [700, 78]
  else if c = 496 then [74, 780]
  else if c = 7830 then [72, 817]
  else if c = 7831 then [84, 776]
  else if c = 7832 then [87, 778]
  else if c = 7833 then [89, 778]
  else if c = 7834 then [65, 702]
  else if c = 64256 then [70, 70]
  else if c = 64257 then [70, 73]
  else if c = 64258 then [70, 76]
  else if c = 64259 then [70, 70, 73]
  else if c = 64260 then [70, 70, 76]
  else if c = 64261 then [83, 84]
  else if c = 64262 then [83, 84]
  else [c]

/-- `String.prototype.toUpperCase`. -/
def toUpperCase (s : JSString) : JSString := s.flatMap upperUnit

/-- `String.prototype.includes`: `term` occurs in `s` as a contiguous run. -/
def includes : JSString → JSString → Bool
  | [], term => term.isEmpty
  | c :: s, term => term.isPrefixOf (c :: s) || includes s term

/-- `Array.prototype.some`. -/
def some {α : Type} (xs : List α) (p : α → Bool) : Bool := xs.any p

/-! ## The four-way topic classifier (`routes/text.js`, `routes/users.js`) -/

/-- Values of the `topic` enums of the schema. -/
inductive Topic where
  | chelsea
  | frontend
  | general
  | mixed
  | assistant
  deriving DecidableEq, Repr

/-- The `chelseaTerms` array of `getMessageTopic` and of the `pre('save')` hook. -/
def chelseaTerms : List JSString :=
  [lit "chelsea", lit "premier league", lit "stamford bridge", lit "pochettino"]

/-- The `frontendTerms` array of `getMessageTopic` and of the `pre('save')` hook. -/
def frontendTerms : List JSString :=
  [lit "react", lit "javascript", lit "tailwind", lit "css", lit "html", lit "gsap"]

/-- The string `'user'`. -/
def userSender : JSString := lit "user"

/-- The string `'assistant'`. -/
def assistantSender : JSString := lit "assistant"

/-- `hasChelsea` of the source, on an already lower-cased text. -/
def hasChelsea (lowerContent : JSString) : Bool :=
  some chelseaTerms (fun term => includes lowerContent term)

/-- `hasFrontend` of the source, on an already lower-cased text. -/
def hasFrontend (lowerContent : JSString) : Bool :=
  some frontendTerms (fun term => includes lowerContent term)

/-- `getMessageTopic(content, sender)`; the copies in `routes/text.js` and
`routes/users.js` are the same text. -/
def getMessageTopic (content sender : JSString) : Topic :=
  if sender = userSender then
    let lowerContent := toLowerCase content
    if hasChelsea lowerContent && hasFrontend lowerContent then Topic.mixed
    else if hasChelsea lowerContent then Topic.chelsea
    else if hasFrontend lowerContent then Topic.frontend
    else Topic.general
  else Topic.assistant

/-! ## More string operations -/

/-- White space and line terminators, the code units `String.prototype.trim` strips. -/
def isWhiteSpace (c : Nat) : Bool :=
  c = 9 || c = 10 || c = 11 || c = 12 || c = 13 || c = 32 || c = 160 || c = 5760 ||
  (8192 ≤ c && c ≤ 8202) || c = 8232 || c = 8233 || c = 8239 || c = 8287 ||
  c = 12288 || c = 65279

/-- `String.prototype.trim`. -/
def trim (s : JSString) : JSString := (s.dropWhile isWhiteSpace).rdropWhile isWhiteSpace

/-- `s.substring(0, n)`. -/
def substring0 (s : JSString) (n : Nat) : JSString := s.take n

/-- `Array.prototype.join(sep)` on an array of strings. -/
def join (xs : List JSString) (sep : JSString) : JSString := sep.intercalate xs

/-- `String.prototype.isWellFormed`: the string holds no unpaired surrogate, that is, every
code unit in `0xD800..0xDBFF` is followed by one in `0xDC00..0xDFFF` and every code unit of
the second range follows one of the first. These are the strings the database driver writes
and reads back unchanged; it writes an unpaired surrogate as U+FFFD. -/
def isWellFormed : JSString → Bool
  | [] => true
  | [c] => !(decide (0xD800 ≤ c) && decide (c ≤ 0xDFFF))
  | c :: d :: rest =>
    if decide (0xD800 ≤ c) && decide (c ≤ 0xDBFF) then
      decide (0xDC00 ≤ d) && decide (d ≤ 0xDFFF) && isWellFormed rest
    else if decide (0xDC00 ≤ c) && decide (c ≤ 0xDFFF) then false
    else isWellFormed (d :: rest)

/-! ## The schemas of `models/ChatHistory.js` -/

/-- The `metadata` sub-object of `messageSchema`. -/
structure Metadata where
  isOutOfScope : Bool
  isError : Bool
  topic : Topic
  deriving DecidableEq, Repr

/-- A message, both as the plain `messageData` object and as the stored sub-document. -/
structure Message where
  content : JSString
  sender : JSString
  timestamp : Nat
  metadata : Metadata
  deriving DecidableEq, Repr

/-- A `ChatHistory` document. `user` and `_id` are object ids; `isNew` is the document's
Mongoose flag, true from construction until the first successful save; `createdAt` and
`updatedAt` come from `timestamps: true`. -/
structure ChatHistory where
  _id : Nat
  user : Option Nat
  sessionId : JSString
  title : JSString
  messages : List Message
  messageCount : Nat
  isPremium : Bool
  topic : Topic
  lastActivity : Nat
  isActive : Bool
  isAuthenticated : Bool
  createdAt : Nat
  updatedAt : Nat
  isNew : Bool
  deriving DecidableEq, Repr

/-- The reasons a schema validator rejects a document. -/
inductive ValidationError where
  | contentRequired
  | contentTooLong
  | senderRequired
  | senderEnum
  | sessionIdRequired
  | titleTooLong
  | topicEnum
  deriving DecidableEq, Repr

/-- Casting a pushed object to a `messageSchema` sub-document: the `trim: true` setter of
`content` runs; the other fields are taken as given. -/
def castMessage (m : Message) : Message := { m with content := trim m.content }

/-- The validators of `messageSchema`: `content` required (a non-empty string) and at most
5000 code units; `sender` required and one of `'user'`, `'assistant'`. The enum of
`metadata.topic` admits every value of `Topic`. -/
def validateMessage (m : Message) : List ValidationError :=
  (if m.content.length = 0 then [ValidationError.contentRequired] else []) ++
  (if m.content.length > 5000 then [ValidationError.contentTooLong] else []) ++
  (if m.sender.length = 0 then [ValidationError.senderRequired] else []) ++
  (if m.sender = userSender ∨ m.sender = assistantSender then []
   else [ValidationError.senderEnum])

/-- The validators of `chatHistorySchema`, run on the whole document: `sessionId` required,
`title` at most 100 code units, `topic` one of the four session topics, and every message
valid. (`messageCount` is a natural number, so `min: 0` always holds.) -/
def validate (doc : ChatHistory) : List ValidationError :=
  (if doc.sessionId.length = 0 then [ValidationError.sessionIdRequired] else []) ++
  (if doc.title.length > 100 then [ValidationError.titleTooLong] else []) ++
  (if doc.topic = Topic.assistant then [ValidationError.topicEnum] else []) ++
  doc.messages.flatMap validateMessage

/-- The fields a caller may hand to the `ChatHistory` constructor. -/
structure ChatHistoryInit where
  user : Option Nat
  sessionId : JSString
  title : Option JSString
  isPremium : Option Bool
  messages : List Message
  isAuthenticated : Option Bool
  deriving DecidableEq, Repr

/-- The constructor `new ChatHistory(init)`: the given fields are cast (`title` and message
contents trimmed), the others take the schema defaults. `_id` is the fresh object id and
`now` the time of construction. -/
def newChatHistory (_id now : Nat) (init : ChatHistoryInit) : ChatHistory :=
  { _id := _id
    user := init.user
    sessionId := init.sessionId
    title := match init.title with
      | Option.some t => trim t
      | Option.none => lit "New Chat"
    messages := init.messages.map castMessage
    messageCount := 0
    isPremium := init.isPremium.getD false
    topic := Topic.general
    lastActivity := now
    isActive := true
    isAuthenticated := init.isAuthenticated.getD false
    createdAt := now
    updatedAt := now
    isNew := true }

/-- `doc.messages.push(messageData)`: the object is cast to a sub-document and appended. -/
def push (doc : ChatHistory) (messageData : Message) : ChatHistory :=
  { doc with messages := doc.messages ++ [castMessage messageData] }

/-- The block "Auto-generate title from first user message if not set" of the
`pre('save')` middleware. `!this.title` holds exactly for the empty string; the assignment
to `title` runs its `trim` setter. -/
def autoTitle (doc : ChatHistory) : ChatHistory :=
  if doc.isNew && decide (doc.messages.length > 0) then
    match doc.messages.find? (fun msg => decide (msg.sender = userSender)) with
    | Option.some firstUserMessage =>
      if doc.title.length = 0 then
        { doc with
          title := trim (substring0 firstUserMessage.content 50 ++
            (if firstUserMessage.content.length > 50 then lit "..." else lit "")) }
      else doc
    | Option.none => doc
  else doc

/-- The lower-cased `allContent` of the `pre('save')` middleware. -/
def allContent (messages : List Message) : JSString :=
  toLowerCase (join (messages.map (fun msg => msg.content)) (lit " "))

/-- The block "Determine overall topic based on all messages" of the `pre('save')`
middleware. -/
def overallTopic (doc : ChatHistory) : ChatHistory :=
  if doc.messages.length > 0 then
    if hasChelsea (allContent doc.messages) && hasFrontend (allContent doc.messages) then
      { doc with topic := Topic.mixed }
    else if hasChelsea (allContent doc.messages) then { doc with topic := Topic.chelsea }
    else if hasFrontend (allContent doc.messages) then { doc with topic := Topic.frontend }
    else { doc with topic := Topic.general }
  else doc

/-- The `pre('save')` middleware, run at time `now`: the counters and flags are recomputed,
then the title block and the topic block run. -/
def preSave (doc : ChatHistory) (now : Nat) : ChatHistory :=
  overallTopic
    (autoTitle
      { doc with
        messageCount := doc.messages.length
        lastActivity := now
        isAuthenticated := doc.user.isSome })

/-! ## The collection and `save` -/

/-- The `ChatHistory` collection: the stored documents in insertion order, and the next
unused object id. -/
structure Store where
  docs : List ChatHistory
  nextId : Nat
  deriving DecidableEq, Repr

/-- The empty collection. -/
def Store.empty : Store := { docs := [], nextId := 0 }

/-- `ChatHistory.findOne(filter)`: the first stored document matching the filter. -/
def findOne (st : Store) (filter : ChatHistory → Bool) : Option ChatHistory :=
  st.docs.find? filter

/-- The document a successful `save()` at time `now` writes: the `pre('save')` middleware
has run, the `timestamps` option has set `updatedAt` (and `createdAt` on the first save),
and the document is no longer new. -/
def committed (doc : ChatHistory) (now : Nat) : ChatHistory :=
  let d := preSave doc now
  { d with
    createdAt := if doc.isNew then now else d.createdAt
    updatedAt := now
    isNew := false }

/-- `doc.save()` at time `now`: validation runs first and rejects with its errors, leaving
the collection as it was; otherwise the `pre('save')` middleware runs and the document is
inserted (when new) or replaces the stored document with its `_id`. The result is the
collection afterwards and the outcome, which on success is the document in memory. The
collection holds the strings as the document has them; that is what the driver writes for
well-formed strings (`isWellFormed`), while it writes an unpaired surrogate as U+FFFD, a
re-encoding this definition leaves out. -/
def save (st : Store) (doc : ChatHistory) (now : Nat) :
    Store × Except (List ValidationError) ChatHistory :=
  match validate doc with
  | [] =>
    let saved := committed doc now
    if doc.isNew then
      ({ docs := st.docs ++ [saved], nextId := max st.nextId (doc._id + 1) }, Except.ok saved)
    else
      ({ st with docs := st.docs.map (fun r => if r._id = saved._id then saved else r) },
        Except.ok saved)
  | e :: es => (st, Except.error (e :: es))

/-- The optional `metadata` argument of `addMessage`. -/
structure MetadataArg where
  isOutOfScope : Option Bool
  isError : Option Bool
  topic : Option Topic
  deriving DecidableEq, Repr

/-- The method `addMessage(content, sender, metadata)`, called at time `now`. -/
def addMessage (st : Store) (doc : ChatHistory) (content sender : JSString)
    (metadata : MetadataArg) (now : Nat) :
    Store × Except (List ValidationError) ChatHistory :=
  let messageData : Message :=
    { content := content
      sender := sender
      timestamp := now
      metadata :=
        { isOutOfScope := metadata.isOutOfScope.getD false
          isError := metadata.isError.getD false
          topic := metadata.topic.getD Topic.general } }
  save st (push doc messageData) now

/-- One call of `addMessage`. -/
structure AppendRequest where
  content : JSString
  sender : JSString
  metadata : MetadataArg
  now : Nat
  deriving DecidableEq, Repr

/-- Calling `addMessage` once per request, in order, each on the document the previous call
saved; the first rejection stops the run. -/
def appendAll (st : Store) (doc : ChatHistory) :
    List AppendRequest → Store × Except (List ValidationError) ChatHistory
  | [] => (st, Except.ok doc)
  | r :: rs =>
    match addMessage st doc r.content r.sender r.metadata r.now with
    | (st1, Except.ok doc1) => appendAll st1 doc1 rs
    | (st1, Except.error e) => (st1, Except.error e)

/-- The stored message an accepted request becomes. -/
def AppendRequest.stored (r : AppendRequest) : Message :=
  { content := trim r.content
    sender := r.sender
    timestamp := r.now
    metadata :=
      { isOutOfScope := r.metadata.isOutOfScope.getD false
        isError := r.metadata.isError.getD false
        topic := r.metadata.topic.getD Topic.general } }

/-! ## `saveMessage` of the two routes -/

/-- `saveMessage(sessionId, content, sender, isOutOfScope, isError)` of `routes/text.js`,
called at time `now`. A rejected save is caught and logged, so only the collection
afterwards is returned. -/
def saveMessage (st : Store) (sessionId content sender : JSString)
    (isOutOfScope isError : Bool) (now : Nat) : Store :=
  let chatSession : ChatHistory :=
    match findOne st (fun d => decide (d.sessionId = sessionId)) with
    | Option.some found => found
    | Option.none =>
      newChatHistory st.nextId now
        { user := Option.none
          sessionId := sessionId
          title := Option.none
          isPremium := Option.some false
          messages := []
          isAuthenticated := Option.some false }
  let messageData : Message :=
    { content := content
      sender := sender
      timestamp := now
      metadata :=
        { isOutOfScope := isOutOfScope
          isError := isError
          topic := getMessageTopic content sender } }
  (save st (push chatSession messageData) now).1

/-- `saveMessage(userId, sessionId, content, sender, isOutOfScope, isError)` of
`routes/users.js`, called at time `now`. -/
def saveMessageUser (st : Store) (userId : Nat) (sessionId content sender : JSString)
    (isOutOfScope isError : Bool) (now : Nat) : Store :=
  let chatSession : ChatHistory :=
    match findOne st
      (fun d => decide (d.user = Option.some userId) && decide (d.sessionId = sessionId)) with
    | Option.some found => found
    | Option.none =>
      newChatHistory st.nextId now
        { user := Option.some userId
          sessionId := sessionId
          title := Option.none
          isPremium := Option.some false
          messages := []
          isAuthenticated := Option.some true }
  let messageData : Message :=
    { content := content
      sender := sender
      timestamp := now
      metadata :=
        { isOutOfScope := isOutOfScope
          isError := isError
          topic := getMessageTopic content sender } }
  (save st (push chatSession messageData) now).1

/-! ## The chat route `POST /message` (`routes/text.js`, `routes/users.js`) -/

/-- Outcome of one database call of `saveMessage`: it goes through, the lookup (`findOne`)
throws, or the write of `save()` is refused by the store. -/
inductive DbFault where
  | ok
  | lookupFails
  | writeFails
  deriving DecidableEq, Repr

/-- `saveMessage` of `routes/text.js` with its `try`/`catch`: whatever is thrown inside is
logged and dropped, and the collection is left as it was. -/
def saveMessageWith (fault : DbFault) (st : Store) (sessionId content sender : JSString)
    (isOutOfScope isError : Bool) (now : Nat) : Store :=
  match fault with
  | DbFault.ok => saveMessage st sessionId content sender isOutOfScope isError now
  | DbFault.lookupFails => st
  | DbFault.writeFails => st

/-- `saveMessage` of `routes/users.js` with its `try`/`catch`. -/
def saveMessageUserWith (userId : Nat) (fault : DbFault) (st : Store)
    (sessionId content sender : JSString) (isOutOfScope isError : Bool) (now : Nat) : Store :=
  match fault with
  | DbFault.ok => saveMessageUser st userId sessionId content sender isOutOfScope isError now
  | DbFault.lookupFails => st
  | DbFault.writeFails => st

/-- The methods of `openaiService` the route calls. -/
inductive Answerer where
  | answerChelseaQuestion
  | answerFrontendQuestion
  | generateResponse
  deriving DecidableEq, Repr

/-- The answer generator as the route sees it: each method returns a text or throws an
error with a message. -/
structure OpenAIService where
  answerChelseaQuestion : JSString → Except JSString JSString
  answerFrontendQuestion : JSString → Except JSString JSString
  generateResponse : JSString → Except JSString JSString

/-- The body of a request: `message` and `sessionId`, each possibly missing. -/
structure Request where
  message : Option JSString
  sessionId : Option JSString
  deriving DecidableEq, Repr

/-- What the route sends: the status and the fields of the JSON body. -/
structure Response where
  status : Nat
  success : Bool
  response : Option JSString
  isOutOfScope : Option Bool
  sessionId : Option JSString
  timestamp : Option Nat
  error : Option JSString
  deriving DecidableEq, Repr

/-- Effect of handling one request: the collection afterwards, the response sent, and the
calls made to the answer generator (method and argument), in order. -/
structure RouteResult where
  store : Store
  response : Response
  calls : List (Answerer × JSString)
  deriving DecidableEq, Repr

/-- The `chelseaTerms` array of the route handler (17 terms). -/
def routeChelseaTerms : List JSString :=
  [lit "chelsea", lit "premier league", lit "stamford bridge", lit "pochettino",
   lit "player", lit "match", lit "transfer", lit "goal", lit "league", lit "football",
   lit "soccer", lit "blues", lit "cfc", lit "mauricio", lit "enzo", lit "palmer",
   lit "caicedo"]

/-- The `frontendTerms` array of the route handler (16 terms). -/
def routeFrontendTerms : List JSString :=
  [lit "react", lit "javascript", lit "tailwind", lit "css", lit "html", lit "gsap",
   lit "frontend", lit "web development", lit "programming", lit "code",
   lit "component", lit "hook", lit "state", lit "props", lit "animation", lit "style"]

/-- `isChelseaRelated` of the route handler. -/
def isChelseaRelated (message : JSString) : Bool :=
  some routeChelseaTerms (fun term => includes (toLowerCase message) term)

/-- `isFrontendRelated` of the route handler. -/
def isFrontendRelated (message : JSString) : Bool :=
  some routeFrontendTerms (fun term => includes (toLowerCase message) term)

/-- The text `outOfScopeResponse`. -/
def outOfScopeResponse : JSString :=
  lit ("I specialize exclusively in Chelsea FC and frontend development topics. " ++
    "Please ask me about:\n\n• Chelsea FC: matches, players, transfers, history\n" ++
    "• Frontend development: React, JavaScript, Tailwind CSS, GSAP\n\n" ++
    "I\x27d be happy to help with questions in these areas!")

/-- The text `errorResponse`. -/
def errorResponse : JSString :=
  lit ("I apologize, but I\x27m currently unable to process your request. " ++
    "This might be due to high demand or temporary service issues. " ++
    "Please try again in a few moments.")

/-- The response `400 Message cannot be empty`. -/
def emptyMessageResponse : Response :=
  { status := 400, success := false, response := Option.none, isOutOfScope := Option.none,
    sessionId := Option.none, timestamp := Option.none,
    error := Option.some (lit "Message cannot be empty") }

/-- The default of `sessionId`, the template string with `Date.now()`. -/
def defaultSessionId (now : Nat) : JSString := lit "session_" ++ lit (toString now)

/-- The choice of the method in the inner `try`: the Chelsea method when a broad Chelsea term
matches, else the frontend method when a broad frontend term matches, else
`generateResponse`. -/
def selectAnswerer (message : JSString) : Answerer :=
  if isChelseaRelated message then Answerer.answerChelseaQuestion
  else if isFrontendRelated message then Answerer.answerFrontendQuestion
  else Answerer.generateResponse

/-- Calling the chosen method of the service. -/
def OpenAIService.call (service : OpenAIService) (answerer : Answerer) (message : JSString) :
    Except JSString JSString :=
  match answerer with
  | Answerer.answerChelseaQuestion => service.answerChelseaQuestion message
  | Answerer.answerFrontendQuestion => service.answerFrontendQuestion message
  | Answerer.generateResponse => service.generateResponse message

/-- The handler of `POST /message`, at time `now`, with the `saveMessage` of its file passed
as `saveMsg` (the two handlers are otherwise the same text). `f1` and `f2` are the outcomes
of the database calls of its first and second `saveMessage`. The outer `catch` is not
reached: `saveMessage` throws nothing and the answer generator is called inside the inner
`try`. -/
def chatRoute
    (saveMsg : DbFault → Store → JSString → JSString → JSString → Bool → Bool → Nat → Store)
    (service : OpenAIService) (f1 f2 : DbFault) (st : Store) (req : Request) (now : Nat) :
    RouteResult :=
  let sessionId := req.sessionId.getD (defaultSessionId now)
  match req.message with
  | Option.none => { store := st, response := emptyMessageResponse, calls := [] }
  | Option.some message =>
    if message.length = 0 ∨ (trim message).length = 0 then
      { store := st, response := emptyMessageResponse, calls := [] }
    else
      let st1 := saveMsg f1 st sessionId message userSender false false now
      if !isChelseaRelated message && !isFrontendRelated message then
        { store := saveMsg f2 st1 sessionId outOfScopeResponse assistantSender true false now
          response :=
            { status := 200, success := true, response := Option.some outOfScopeResponse,
              isOutOfScope := Option.some true, sessionId := Option.some sessionId,
              timestamp := Option.none, error := Option.none }
          calls := [] }
      else
        match service.call (selectAnswerer message) message with
        | Except.ok response =>
          { store := saveMsg f2 st1 sessionId response assistantSender false false now
            response :=
              { status := 200, success := true, response := Option.some response,
                isOutOfScope := Option.some false, sessionId := Option.some sessionId,
                timestamp := Option.some now, error := Option.none }
            calls := [(selectAnswerer message, message)] }
        | Except.error _ =>
          { store := saveMsg f2 st1 sessionId errorResponse assistantSender false true now
            response :=
              { status := 500, success := false, response := Option.none,
                isOutOfScope := Option.none, sessionId := Option.none,
                timestamp := Option.none, error := Option.some errorResponse }
            calls := [(selectAnswerer message, message)] }

/-- The public handler `router.post('/message', ...)` of `routes/text.js`. -/
def postMessage (service : OpenAIService) (f1 f2 : DbFault) (st : Store) (req : Request)
    (now : Nat) : RouteResult :=
  chatRoute saveMessageWith service f1 f2 st req now

/-- The protected handler `router.post('/message', auth, ...)` of `routes/users.js`, for the
authenticated user `userId`. -/
def postMessageUser (userId : Nat) (service : OpenAIService) (f1 f2 : DbFault) (st : Store)
    (req : Request) (now : Nat) : RouteResult :=
  chatRoute (saveMessageUserWith userId) service f1 f2 st req now

/-- Every stored document has been written by a successful save: it is not new and passes
the schema validators. -/
def Store.wellFormed (st : Store) : Prop :=
  ∀ d ∈ st.docs, d.isNew = false ∧ validate d = []

/-! ## Deleting sessions and users (`routes/users.js`, `routes/admin.js`) -/

/-- A response whose JSON body has `success` and a `message` or an `error`. -/
structure PlainResponse where
  status : Nat
  success : Bool
  message : Option JSString
  error : Option JSString
  deriving DecidableEq, Repr

/-- `ChatHistory.findOneAndDelete(filter)`: the first stored document matching the filter is
removed and returned; without a match nothing changes and the result is `null`. -/
def findOneAndDelete (st : Store) (filter : ChatHistory → Bool) : Store × Option ChatHistory :=
  match st.docs.find? filter with
  | Option.none => (st, Option.none)
  | Option.some d => ({ st with docs := st.docs.eraseP filter }, Option.some d)

/-- The handler `router.delete('/history/:sessionId', auth, ...)` of `routes/users.js` for
the authenticated user `userId`. A database call that throws is caught and answered with 500,
the collection being left as it was. -/
def deleteHistory (userId : Nat) (fault : DbFault) (st : Store) (sessionId : JSString) :
    Store × PlainResponse :=
  match fault with
  | DbFault.ok =>
    match findOneAndDelete st
      (fun d => decide (d.user = Option.some userId) && decide (d.sessionId = sessionId)) with
    | (st1, Option.none) =>
      (st1, { status := 404, success := false, message := Option.none,
              error := Option.some (lit "Chat session not found") })
    | (st1, Option.some _) =>
      (st1, { status := 200, success := true,
              message := Option.some (lit "Chat session deleted successfully"),
              error := Option.none })
  | DbFault.lookupFails =>
    (st, { status := 500, success := false, message := Option.none,
           error := Option.some (lit "Failed to delete chat session") })
  | DbFault.writeFails =>
    (st, { status := 500, success := false, message := Option.none,
           error := Option.some (lit "Failed to delete chat session") })

/-- Modelled from the spec: a stored `User` document. The file `models/users.js` is not among
the sources; the spec treats the owning identity as an opaque key, and the route below reads
only `_id`. -/
structure UserRecord where
  _id : Nat
  email : JSString
  deriving DecidableEq, Repr

/-- The two collections the admin route touches. -/
structure Database where
  users : List UserRecord
  chats : Store
  deriving DecidableEq, Repr

/-- The handler `router.delete('/users/:userId', ...)` of `routes/admin.js`, called by the
admin `adminId`. Its database calls are numbered 0 (`User.findById`), 1
(`ChatHistory.deleteMany`) and 2 (`User.findByIdAndDelete`); `failAt = some k` makes call `k`
throw, which the `catch` answers with 500, the effects of the earlier calls staying. -/
def adminDeleteUser (adminId : Nat) (failAt : Option Nat) (db : Database) (userId : Nat) :
    Database × PlainResponse :=
  if userId = adminId then
    (db, { status := 400, success := false, message := Option.none,
           error := Option.some (lit "Cannot delete your own account") })
  else if failAt = Option.some 0 then
    (db, { status := 500, success := false, message := Option.none,
           error := Option.some (lit "Failed to delete user") })
  else
    match db.users.find? (fun u => decide (u._id = userId)) with
    | Option.none =>
      (db, { status := 404, success := false, message := Option.none,
             error := Option.some (lit "User not found") })
    | Option.some _ =>
      if failAt = Option.some 1 then
        (db, { status := 500, success := false, message := Option.none,
               error := Option.some (lit "Failed to delete user") })
      else if failAt = Option.some 2 then
        ({ db with
           chats := { db.chats with
             docs := db.chats.docs.filter (fun d => !decide (d.user = Option.some userId)) } },
         { status := 500, success := false, message := Option.none,
           error := Option.some (lit "Failed to delete user") })
      else
        ({ users := db.users.eraseP (fun u => decide (u._id = userId)),
           chats := { db.chats with
             docs := db.chats.docs.filter (fun d => !decide (d.user = Option.some userId)) } },
         { status := 200, success := true,
           message := Option.some (lit "User and their chat history deleted successfully"),
           error := Option.none })

/-! ## `GitHubEmailFetcher.getBestEmail` (`utils/githubEmailFetcher.js`) -/

/-- One entry of the list GitHub returns for `/user/emails`. -/
structure EmailEntry where
  email : JSString
  primary : Bool
  verified : Bool
  deriving DecidableEq, Repr

/-- The part of the GitHub profile `getBestEmail` reads. -/
structure GithubProfile where
  username : JSString
  deriving DecidableEq, Repr

/-- `GitHubEmailFetcher.getBestEmail(emails, githubProfile)`; `emails` is `null` when the
fetch failed. -/
def getBestEmail (emails : Option (List EmailEntry)) (githubProfile : GithubProfile) :
    JSString :=
  match emails with
  | Option.none => githubProfile.username ++ lit "@users.noreply.github.com"
  | Option.some [] => githubProfile.username ++ lit "@users.noreply.github.com"
  | Option.some (first :: rest) =>
    match (first :: rest).find? (fun e => e.primary && e.verified) with
    | Option.some primaryVerified => primaryVerified.email
    | Option.none =>
      match (first :: rest).find? (fun e => e.verified) with
      | Option.some verified => verified.email
      | Option.none =>
        match (first :: rest).find? (fun e => e.primary) with
        | Option.some primary => primary.email
        | Option.none => first.email

/-! ## The two previews (`models/ChatHistory.js`, `routes/users.js`) -/

/-- The virtual `preview` of `chatHistorySchema`. -/
def preview (doc : ChatHistory) : JSString :=
  if doc.messages.length = 0 then lit "No messages yet"
  else
    match doc.messages[doc.messages.length - 1]? with
    | Option.none => lit "No message content"
    | Option.some lastMessage =>
      if lastMessage.content.length = 0 then lit "No message content"
      else
        substring0 lastMessage.content 100 ++
          (if lastMessage.content.length > 100 then lit "..." else lit "")

/-- The `preview` that `GET /history` of `routes/users.js` adds to each chat. The index
`length - 1` exists when `length > 0`, so the last branch is not reached. -/
def historyPreview (chat : ChatHistory) : JSString :=
  if chat.messages.length > 0 then
    match chat.messages[chat.messages.length - 1]? with
    | Option.some lastMessage =>
      substring0 lastMessage.content 100 ++
        (if lastMessage.content.length > 100 then lit "..." else lit "")
    | Option.none => lit ""
  else lit "No messages yet"

/-! ## Facts about the string operations -/

theorem includes_iff (s term : JSString) : includes s term = true ↔ term <:+: s := by
  induction s with
  | nil => simp [includes, List.isEmpty_iff]
  | cons c s ih => simp [includes, ih, List.infix_cons_iff]

theorem hasChelsea_iff (s : JSString) :
    hasChelsea s = true ↔ ∃ k ∈ chelseaTerms, includes s k = true := by
  simp [hasChelsea, some]

theorem hasFrontend_iff (s : JSString) :
    hasFrontend s = true ↔ ∃ k ∈ frontendTerms, includes s k = true := by
  simp [hasFrontend, some]

theorem hasChelsea_eq_false_iff (s : JSString) :
    hasChelsea s = false ↔ ∀ k ∈ chelseaTerms, includes s k = false := by
  simp [hasChelsea, some]

theorem hasFrontend_eq_false_iff (s : JSString) :
    hasFrontend s = false ↔ ∀ k ∈ frontendTerms, includes s k = false := by
  simp [hasFrontend, some]

theorem getMessageTopic_user (content : JSString) :
    getMessageTopic content userSender =
      if hasChelsea (toLowerCase content) && hasFrontend (toLowerCase content) then Topic.mixed
      else if hasChelsea (toLowerCase content) then Topic.chelsea
      else if hasFrontend (toLowerCase content) then Topic.frontend
      else Topic.general := by
  simp [getMessageTopic]

theorem toLowerCase_append (a b : JSString) :
    toLowerCase (a ++ b) = toLowerCase a ++ toLowerCase b := by
  simp [toLowerCase]

theorem lowerUnit_of_not_special (c : Nat) (h1 : ¬ (65 ≤ c ∧ c ≤ 90)) (h2 : c ≠ 304)
    (h3 : c ≠ 8490) : lowerUnit c = [c] := by
  unfold lowerUnit
  rw [if_neg h1, if_neg h2, if_neg h3]

theorem toLowerCase_singleton (c : Nat) : toLowerCase [c] = lowerUnit c := by
  simp [toLowerCase]

theorem lowerUnit_idem (c : Nat) : toLowerCase (lowerUnit c) = lowerUnit c := by
  by_cases h1 : 65 ≤ c ∧ c ≤ 90
  · have e : lowerUnit c = [c + 32] := by unfold lowerUnit; rw [if_pos h1]
    rw [e, toLowerCase_singleton]
    exact lowerUnit_of_not_special _ (by omega) (by omega) (by omega)
  · by_cases h2 : c = 304
    · subst h2; decide
    · by_cases h3 : c = 8490
      · subst h3; decide
      · rw [lowerUnit_of_not_special c h1 h2 h3, toLowerCase_singleton,
          lowerUnit_of_not_special c h1 h2 h3]

theorem toLowerCase_idem (s : JSString) : toLowerCase (toLowerCase s) = toLowerCase s := by
  induction s with
  | nil => rfl
  | cons c s ih =>
    have h : toLowerCase (c :: s) = lowerUnit c ++ toLowerCase s := by simp [toLowerCase]
    rw [h, toLowerCase_append, ih, lowerUnit_idem]

theorem lower_upperUnit_ascii (c : Nat) (hc : c < 128) :
    toLowerCase (upperUnit c) = lowerUnit c := by
  unfold upperUnit
  by_cases h1 : 97 ≤ c ∧ c ≤ 122
  · have h2 : 65 ≤ c - 32 ∧ c - 32 ≤ 90 := by omega
    have h3 : ¬ (65 ≤ c ∧ c ≤ 90) := by omega
    have h4 : c ≠ 304 := by omega
    have h5 : c ≠ 8490 := by omega
    have h6 : c - 32 + 32 = c := by omega
    simp [toLowerCase, lowerUnit, h1, h2, h3, h4, h5, h6]
  · have e : (if 97 ≤ c ∧ c ≤ 122 then [c - 32] else
        if c = 223 then [83, 83] else if c = 305 then [73] else if c = 383 then [83] else
        if c = 329 then [700, 78] else if c = 496 then [74, 780] else
        if c = 7830 then [72, 817] else if c = 7831 then [84, 776] else
        if c = 7832 then [87, 778] else if c = 7833 then [89, 778] else
        if c = 7834 then [65, 702] else if c = 64256 then [70, 70] else
        if c = 64257 then [70, 73] else if c = 64258 then [70, 76] else
        if c = 64259 then [70, 70, 73] else if c = 64260 then [70, 70, 76] else
        if c = 64261 then [83, 84] else if c = 64262 then [83, 84] else [c]) = [c] := by
      rw [if_neg h1]
      repeat (first | rfl | rw [if_neg (by omega)])
    rw [e]
    simp [toLowerCase]

theorem lower_upper_ascii (s : JSString) (hs : ∀ c ∈ s, c < 128) :
    toLowerCase (toUpperCase s) = toLowerCase s := by
  induction s with
  | nil => rfl
  | cons c s ih =>
    have h1 : toUpperCase (c :: s) = upperUnit c ++ toUpperCase s := by simp [toUpperCase]
    have h2 : toLowerCase (c :: s) = lowerUnit c ++ toLowerCase s := by simp [toLowerCase]
    rw [h1, toLowerCase_append, h2, lower_upperUnit_ascii c (hs c (List.mem_cons_self c s)),
      ih (fun x hx => hs x (List.mem_cons_of_mem c hx))]

theorem infix_toLowerCase {k s : JSString} (h : k <:+: s) :
    toLowerCase k <:+: toLowerCase s := by
  obtain ⟨a, b, rfl⟩ := h
  rw [toLowerCase_append, toLowerCase_append]
  exact ⟨toLowerCase a, toLowerCase b, rfl⟩

theorem lowerUnit_whiteSpace (w : Nat) (h : isWhiteSpace w = true) : lowerUnit w = [w] := by
  apply lowerUnit_of_not_special
  · intro h1
    have : isWhiteSpace w = false := by
      unfold isWhiteSpace
      simp only [Bool.or_eq_false_iff, Bool.and_eq_false_iff, decide_eq_false_iff_not]
      omega
    rw [this] at h; cases h
  · intro h1; subst h1; revert h; decide
  · intro h1; subst h1; revert h; decide

theorem toLowerCase_whiteSpace (ws : JSString) (h : ∀ x ∈ ws, isWhiteSpace x = true) :
    toLowerCase ws = ws := by
  induction ws with
  | nil => rfl
  | cons w ws ih =>
    have e : toLowerCase (w :: ws) = lowerUnit w ++ toLowerCase ws := by simp [toLowerCase]
    rw [e, lowerUnit_whiteSpace w (h w (List.mem_cons_self w ws)),
      ih (fun x hx => h x (List.mem_cons_of_mem w hx))]
    rfl

theorem rdropWhile_split (p : Nat → Bool) (l : List Nat) :
    ∃ t, l = l.rdropWhile p ++ t ∧ ∀ x ∈ t, p x = true := by
  induction l using List.reverseRecOn with
  | nil => exact ⟨[], by simp, by simp⟩
  | append_singleton l a ih =>
    by_cases ha : p a = true
    · obtain ⟨t, h1, h2⟩ := ih
      refine ⟨t ++ [a], ?_, ?_⟩
      · rw [List.rdropWhile_concat_pos _ _ _ ha, ← List.append_assoc, ← h1]
      · intro x hx
        rcases List.mem_append.1 hx with h | h
        · exact h2 x h
        · rw [List.mem_singleton.1 h]; exact ha
    · exact ⟨[], by rw [List.rdropWhile_concat_neg _ _ _ ha]; simp, by simp⟩

theorem trim_split (s : JSString) :
    ∃ a b, s = a ++ (trim s ++ b) ∧ (∀ x ∈ a, isWhiteSpace x = true) ∧
      ∀ x ∈ b, isWhiteSpace x = true := by
  obtain ⟨b, h1, h2⟩ := rdropWhile_split isWhiteSpace (s.dropWhile isWhiteSpace)
  refine ⟨s.takeWhile isWhiteSpace, b, ?_, fun x hx => List.mem_takeWhile_imp hx, h2⟩
  unfold trim
  rw [← h1, List.takeWhile_append_dropWhile]

theorem infix_strip_left (ws s k : JSString) (hws : ∀ x ∈ ws, isWhiteSpace x = true)
    (hk : ∀ x ∈ k.head?, isWhiteSpace x = false) (hne : k ≠ [])
    (h : k <:+: ws ++ s) : k <:+: s := by
  induction ws with
  | nil => simpa using h
  | cons w ws ih =>
    rw [List.cons_append, List.infix_cons_iff] at h
    rcases h with h | h
    · exfalso
      cases k with
      | nil => exact hne rfl
      | cons x k =>
        have e : x = w := (List.cons_prefix_cons.1 h).1
        have h1 := hk x (by simp)
        have h2 := hws w (List.mem_cons_self w ws)
        rw [e, h2] at h1
        cases h1
    · exact ih (fun x hx => hws x (List.mem_cons_of_mem w hx)) h

theorem infix_strip_right (ws s k : JSString) (hws : ∀ x ∈ ws, isWhiteSpace x = true)
    (hk : ∀ x ∈ k.getLast?, isWhiteSpace x = false) (hne : k ≠ [])
    (h : k <:+: s ++ ws) : k <:+: s := by
  have h1 : k.reverse <:+: ws.reverse ++ s.reverse := by
    rw [← List.reverse_append]
    exact List.reverse_infix.2 h
  have h2 := infix_strip_left ws.reverse s.reverse k.reverse
    (fun x hx => hws x (List.mem_reverse.1 hx))
    (by rw [List.head?_reverse]; exact hk)
    (by simpa using hne) h1
  exact List.reverse_infix.1 h2

theorem infix_lower_trim (c k : JSString) (hne : k ≠ [])
    (hh : ∀ x ∈ k.head?, isWhiteSpace x = false)
    (hl : ∀ x ∈ k.getLast?, isWhiteSpace x = false)
    (h : k <:+: toLowerCase c) : k <:+: toLowerCase (trim c) := by
  obtain ⟨a, b, e, ha, hb⟩ := trim_split c
  rw [e, toLowerCase_append, toLowerCase_append, toLowerCase_whiteSpace a ha,
    toLowerCase_whiteSpace b hb] at h
  exact infix_strip_right b _ k hb hl hne (infix_strip_left a _ k ha hh hne h)

theorem join_cons_cons (x y : JSString) (r : List JSString) (sep : JSString) :
    join (x :: y :: r) sep = x ++ (sep ++ join (y :: r) sep) := by
  simp [join, List.intercalate, List.intersperse]

theorem infix_join_of_mem (cs : List JSString) (sep c : JSString) (h : c ∈ cs) :
    c <:+: join cs sep := by
  induction cs with
  | nil => cases h
  | cons x r ih =>
    cases r with
    | nil =>
      have e : c = x := by simpa using h
      subst e
      have : join [c] sep = c := by simp [join, List.intercalate, List.intersperse]
      rw [this]
    | cons y r =>
      rw [join_cons_cons]
      rcases List.mem_cons.1 h with h | h
      · subst h
        exact ⟨[], sep ++ join (y :: r) sep, by simp⟩
      · exact (ih h).trans ⟨x ++ sep, [], by simp⟩

theorem infix_allContent (msgs : List Message) (m : Message) (k : JSString) (hm : m ∈ msgs)
    (h : k <:+: toLowerCase m.content) : k <:+: allContent msgs := by
  unfold allContent
  exact h.trans (infix_toLowerCase
    (infix_join_of_mem _ _ _ (List.mem_map_of_mem (fun msg => msg.content) hm)))

theorem frontendTerms_shape :
    ∀ k ∈ frontendTerms, k ≠ [] ∧ (∀ x ∈ k.head?, isWhiteSpace x = false) ∧
      ∀ x ∈ k.getLast?, isWhiteSpace x = false := by
  decide

theorem chelseaTerms_shape :
    ∀ k ∈ chelseaTerms, k ≠ [] ∧ (∀ x ∈ k.head?, isWhiteSpace x = false) ∧
      ∀ x ∈ k.getLast?, isWhiteSpace x = false := by
  decide

theorem trim_ne_nil_of_infix (c k : JSString) (hne : k ≠ [])
    (h : k <:+: toLowerCase (trim c)) : (trim c).length ≠ 0 := by
  intro e
  have e1 : trim c = [] := List.length_eq_zero.1 e
  rw [e1] at h
  have : k = [] := List.eq_nil_of_infix_nil h
  exact hne this

theorem topic_frontend_of (text : JSString)
    (hf : ∃ k ∈ frontendTerms, includes (toLowerCase text) k = true)
    (hc : ∀ k ∈ chelseaTerms, includes (toLowerCase text) k = false) :
    getMessageTopic text userSender = Topic.frontend := by
  have h1 := (hasChelsea_eq_false_iff _).2 hc
  have h2 := (hasFrontend_iff _).2 hf
  simp [getMessageTopic_user, h1, h2]

/-! ## Facts about validation and `save` -/

theorem validateMessage_eq_nil (m : Message) (h0 : m.content.length ≠ 0)
    (h1 : m.content.length ≤ 5000) (h2 : m.sender = userSender ∨ m.sender = assistantSender) :
    validateMessage m = [] := by
  have h3 : m.sender.length ≠ 0 := by
    rcases h2 with h | h <;> rw [h] <;> decide
  have h4 : ¬ m.content.length > 5000 := by omega
  simp [validateMessage, h0, h4, h3, h2]

theorem validateMessage_content (m : Message)
    (h : m.content.length = 0 ∨ m.content.length > 5000) :
    ValidationError.contentRequired ∈ validateMessage m ∨
      ValidationError.contentTooLong ∈ validateMessage m := by
  rcases h with h | h
  · left; simp [validateMessage, h]
  · right; simp [validateMessage, h]

theorem validate_eq_nil (doc : ChatHistory) (h1 : doc.sessionId.length ≠ 0)
    (h2 : doc.title.length ≤ 100) (h3 : doc.topic ≠ Topic.assistant)
    (h4 : ∀ m ∈ doc.messages, validateMessage m = []) : validate doc = [] := by
  have h5 : ¬ doc.title.length > 100 := by omega
  simp only [validate, h1, h5, h3, if_false, List.nil_append]
  simpa using h4

theorem validate_eq_nil_inv (doc : ChatHistory) (h : validate doc = []) :
    doc.sessionId.length ≠ 0 ∧ doc.title.length ≤ 100 ∧ doc.topic ≠ Topic.assistant ∧
      ∀ m ∈ doc.messages, validateMessage m = [] := by
  unfold validate at h
  simp only [List.append_eq_nil, List.flatMap_eq_nil_iff] at h
  obtain ⟨⟨⟨a, b⟩, c⟩, d⟩ := h
  refine ⟨?_, ?_, ?_, d⟩
  · intro e; rw [if_pos e] at a; cases a
  · by_contra e
    rw [if_pos (by omega)] at b; cases b
  · intro e; rw [if_pos e] at c; cases c

theorem mem_validate_of_message (doc : ChatHistory) (m : Message) (e : ValidationError)
    (hm : m ∈ doc.messages) (he : e ∈ validateMessage m) : e ∈ validate doc := by
  unfold validate
  exact List.mem_append_right _ (List.mem_flatMap.2 ⟨m, hm, he⟩)

theorem save_of_valid (st : Store) (doc : ChatHistory) (now : Nat) (h : validate doc = []) :
    save st doc now =
      (if doc.isNew then
          { docs := st.docs ++ [committed doc now], nextId := max st.nextId (doc._id + 1) }
        else
          { st with
            docs := st.docs.map
              (fun r => if r._id = (committed doc now)._id then committed doc now else r) },
        Except.ok (committed doc now)) := by
  unfold save
  rw [h]
  by_cases hn : doc.isNew = true <;> simp [hn]

theorem save_of_invalid (st : Store) (doc : ChatHistory) (now : Nat) (e : ValidationError)
    (h : e ∈ validate doc) : save st doc now = (st, Except.error (validate doc)) := by
  unfold save
  cases hv : validate doc with
  | nil => rw [hv] at h; cases h
  | cons a as => rfl

/-! ## Facts about the `pre('save')` middleware -/

theorem autoTitle_frame (doc : ChatHistory) :
    (autoTitle doc).messages = doc.messages ∧ (autoTitle doc).messageCount = doc.messageCount ∧
    (autoTitle doc)._id = doc._id ∧ (autoTitle doc).sessionId = doc.sessionId ∧
    (autoTitle doc).user = doc.user ∧ (autoTitle doc).isNew = doc.isNew ∧
    (autoTitle doc).topic = doc.topic ∧
    (autoTitle doc).isAuthenticated = doc.isAuthenticated := by
  unfold autoTitle
  split
  · split
    · split <;> exact ⟨rfl, rfl, rfl, rfl, rfl, rfl, rfl, rfl⟩
    · exact ⟨rfl, rfl, rfl, rfl, rfl, rfl, rfl, rfl⟩
  · exact ⟨rfl, rfl, rfl, rfl, rfl, rfl, rfl, rfl⟩

theorem overallTopic_frame (doc : ChatHistory) :
    (overallTopic doc).messages = doc.messages ∧
    (overallTopic doc).messageCount = doc.messageCount ∧
    (overallTopic doc)._id = doc._id ∧ (overallTopic doc).sessionId = doc.sessionId ∧
    (overallTopic doc).user = doc.user ∧ (overallTopic doc).isNew = doc.isNew ∧
    (overallTopic doc).title = doc.title ∧
    (overallTopic doc).isAuthenticated = doc.isAuthenticated := by
  unfold overallTopic
  split
  · split
    · exact ⟨rfl, rfl, rfl, rfl, rfl, rfl, rfl, rfl⟩
    · split
      · exact ⟨rfl, rfl, rfl, rfl, rfl, rfl, rfl, rfl⟩
      · split <;> exact ⟨rfl, rfl, rfl, rfl, rfl, rfl, rfl, rfl⟩
  · exact ⟨rfl, rfl, rfl, rfl, rfl, rfl, rfl, rfl⟩

theorem overallTopic_topic (doc : ChatHistory) (h : doc.messages ≠ []) :
    (overallTopic doc).topic =
      if hasChelsea (allContent doc.messages) && hasFrontend (allContent doc.messages) then
        Topic.mixed
      else if hasChelsea (allContent doc.messages) then Topic.chelsea
      else if hasFrontend (allContent doc.messages) then Topic.frontend
      else Topic.general := by
  have hl : doc.messages.length > 0 := List.length_pos.2 h
  unfold overallTopic
  rw [if_pos hl]
  split
  · rfl
  · split
    · rfl
    · split <;> rfl

theorem overallTopic_topic_ne (doc : ChatHistory) (h : doc.topic ≠ Topic.assistant) :
    (overallTopic doc).topic ≠ Topic.assistant := by
  unfold overallTopic
  split
  · split
    · exact fun e => Topic.noConfusion e
    · split
      · exact fun e => Topic.noConfusion e
      · split <;> exact fun e => Topic.noConfusion e
  · exact h

theorem length_trim_le (s : JSString) : (trim s).length ≤ s.length := by
  unfold trim
  have h1 := (List.rdropWhile_prefix isWhiteSpace (l := s.dropWhile isWhiteSpace)).length_le
  have h2 := (List.dropWhile_suffix isWhiteSpace (l := s)).length_le
  omega

theorem autoTitle_title_length (doc : ChatHistory) (h : doc.title.length ≤ 100) :
    (autoTitle doc).title.length ≤ 100 := by
  unfold autoTitle
  split
  · split
    · rename_i m _
      split
      · refine le_trans (length_trim_le _) ?_
        have h1 : (substring0 m.content 50).length ≤ 50 := by
          unfold substring0; rw [List.length_take]; exact Nat.min_le_left _ _
        have h2 : (if m.content.length > 50 then lit "..." else lit "").length ≤ 3 := by
          split <;> decide
        rw [List.length_append]
        omega
      · exact h
    · exact h
  · exact h

theorem autoTitle_title_of_not_new (doc : ChatHistory) (h : doc.isNew = false) :
    (autoTitle doc).title = doc.title := by
  unfold autoTitle
  rw [h]
  rfl

theorem autoTitle_title_of_nonempty (doc : ChatHistory) (h : doc.title.length ≠ 0) :
    (autoTitle doc).title = doc.title := by
  unfold autoTitle
  split
  · split
    · rfl
    · rfl
  · rfl

theorem preSave_messages (doc : ChatHistory) (now : Nat) :
    (preSave doc now).messages = doc.messages := by
  unfold preSave
  rw [(overallTopic_frame _).1, (autoTitle_frame _).1]

theorem preSave_messageCount (doc : ChatHistory) (now : Nat) :
    (preSave doc now).messageCount = doc.messages.length := by
  unfold preSave
  rw [(overallTopic_frame _).2.1, (autoTitle_frame _).2.1]

theorem preSave_id (doc : ChatHistory) (now : Nat) :
    (preSave doc now)._id = doc._id ∧ (preSave doc now).sessionId = doc.sessionId ∧
      (preSave doc now).user = doc.user ∧ (preSave doc now).isNew = doc.isNew := by
  unfold preSave
  have h1 := overallTopic_frame (autoTitle
    { doc with
      messageCount := doc.messages.length
      lastActivity := now
      isAuthenticated := doc.user.isSome })
  have h2 := autoTitle_frame
    { doc with
      messageCount := doc.messages.length
      lastActivity := now
      isAuthenticated := doc.user.isSome }
  refine ⟨?_, ?_, ?_, ?_⟩
  · rw [h1.2.2.1, h2.2.2.1]
  · rw [h1.2.2.2.1, h2.2.2.2.1]
  · rw [h1.2.2.2.2.1, h2.2.2.2.2.1]
  · rw [h1.2.2.2.2.2.1, h2.2.2.2.2.2.1]

theorem preSave_title_length (doc : ChatHistory) (now : Nat) (h : doc.title.length ≤ 100) :
    (preSave doc now).title.length ≤ 100 := by
  unfold preSave
  rw [(overallTopic_frame _).2.2.2.2.2.2.1]
  exact autoTitle_title_length _ h

theorem preSave_title_of_not_new (doc : ChatHistory) (now : Nat) (h : doc.isNew = false) :
    (preSave doc now).title = doc.title := by
  unfold preSave
  rw [(overallTopic_frame _).2.2.2.2.2.2.1]
  exact autoTitle_title_of_not_new _ h

theorem preSave_title_of_nonempty (doc : ChatHistory) (now : Nat)
    (h : doc.title.length ≠ 0) : (preSave doc now).title = doc.title := by
  unfold preSave
  rw [(overallTopic_frame _).2.2.2.2.2.2.1]
  exact autoTitle_title_of_nonempty _ h

theorem preSave_topic_ne (doc : ChatHistory) (now : Nat) (h : doc.topic ≠ Topic.assistant) :
    (preSave doc now).topic ≠ Topic.assistant := by
  unfold preSave
  apply overallTopic_topic_ne
  rw [(autoTitle_frame _).2.2.2.2.2.2.1]
  exact h

theorem preSave_topic (doc : ChatHistory) (now : Nat) (h : doc.messages ≠ []) :
    (preSave doc now).topic =
      if hasChelsea (allContent doc.messages) && hasFrontend (allContent doc.messages) then
        Topic.mixed
      else if hasChelsea (allContent doc.messages) then Topic.chelsea
      else if hasFrontend (allContent doc.messages) then Topic.frontend
      else Topic.general := by
  unfold preSave
  have hm := (autoTitle_frame
    { doc with
      messageCount := doc.messages.length
      lastActivity := now
      isAuthenticated := doc.user.isSome }).1
  rw [overallTopic_topic _ (by rw [hm]; exact h), hm]

/-! ## Facts about `addMessage` and the collection -/

theorem committed_fields (doc : ChatHistory) (now : Nat) :
    (committed doc now).messages = doc.messages ∧
    (committed doc now).messageCount = doc.messages.length ∧
    (committed doc now)._id = doc._id ∧
    (committed doc now).sessionId = doc.sessionId ∧
    (committed doc now).isNew = false ∧
    (committed doc now).title = (preSave doc now).title ∧
    (committed doc now).topic = (preSave doc now).topic :=
  ⟨preSave_messages doc now, preSave_messageCount doc now, (preSave_id doc now).1,
    (preSave_id doc now).2.1, rfl, rfl, rfl⟩

theorem validate_committed (doc : ChatHistory) (now : Nat) (h : validate doc = []) :
    validate (committed doc now) = [] := by
  obtain ⟨h1, h2, h3, h4⟩ := validate_eq_nil_inv doc h
  have hc := committed_fields doc now
  apply validate_eq_nil
  · rw [hc.2.2.2.1]; exact h1
  · rw [hc.2.2.2.2.2.1]; exact preSave_title_length doc now h2
  · rw [hc.2.2.2.2.2.2]; exact preSave_topic_ne doc now h3
  · rw [hc.1]; exact h4

theorem validate_push (doc : ChatHistory) (m : Message) (h : validate doc = [])
    (hm : validateMessage (castMessage m) = []) : validate (push doc m) = [] := by
  obtain ⟨h1, h2, h3, h4⟩ := validate_eq_nil_inv doc h
  apply validate_eq_nil (push doc m) h1 h2 h3
  intro x hx
  rcases List.mem_append.1 hx with hx | hx
  · exact h4 x hx
  · rw [List.mem_singleton.1 hx]; exact hm

theorem find_after_insert (docs : List ChatHistory) (d : ChatHistory)
    (h : ∀ x ∈ docs, x._id ≠ d._id) :
    (docs ++ [d]).find? (fun x => decide (x._id = d._id)) = Option.some d := by
  induction docs with
  | nil => simp
  | cons a docs ih =>
    have ha : a._id ≠ d._id := h a (List.mem_cons_self a docs)
    rw [List.cons_append, List.find?_cons_of_neg _ (by simpa using ha)]
    exact ih (fun x hx => h x (List.mem_cons_of_mem a hx))

theorem find_after_update (docs : List ChatHistory) (d x : ChatHistory)
    (h : docs.find? (fun y => decide (y._id = d._id)) = Option.some x) :
    (docs.map (fun r => if r._id = d._id then d else r)).find?
      (fun y => decide (y._id = d._id)) = Option.some d := by
  induction docs with
  | nil => cases h
  | cons a docs ih =>
    by_cases ha : a._id = d._id
    · simp [ha]
    · rw [List.find?_cons_of_neg _ (by simpa using ha)] at h
      rw [List.map_cons, if_neg ha, List.find?_cons_of_neg _ (by simpa using ha)]
      exact ih h

theorem addMessage_eq_save (st : Store) (doc : ChatHistory) (r : AppendRequest) :
    ∃ m : Message, castMessage m = r.stored ∧
      addMessage st doc r.content r.sender r.metadata r.now = save st (push doc m) r.now :=
  ⟨{ content := r.content, sender := r.sender, timestamp := r.now,
      metadata :=
        { isOutOfScope := r.metadata.isOutOfScope.getD false
          isError := r.metadata.isError.getD false
          topic := r.metadata.topic.getD Topic.general } }, rfl, rfl⟩

theorem addMessage_stored (st : Store) (doc : ChatHistory) (r : AppendRequest)
    (hd : validate doc = []) (hr : validateMessage r.stored = []) :
    ∃ st1 d, addMessage st doc r.content r.sender r.metadata r.now = (st1, Except.ok d) ∧
      d.messages = doc.messages ++ [r.stored] ∧ d.messageCount = d.messages.length ∧
      d._id = doc._id ∧ d.isNew = false ∧ validate d = [] ∧
      d.title = (preSave { doc with messages := doc.messages ++ [r.stored] } r.now).title ∧
      d.topic = (preSave { doc with messages := doc.messages ++ [r.stored] } r.now).topic ∧
      (doc.isNew = true → st1.docs = st.docs ++ [d]) ∧
      (doc.isNew = false →
        st1.docs = st.docs.map (fun x => if x._id = d._id then d else x)) := by
  obtain ⟨m, hm, e⟩ := addMessage_eq_save st doc r
  have hp : push doc m = { doc with messages := doc.messages ++ [r.stored] } := by
    unfold push; rw [hm]
  rw [hp] at e
  have hv : validate { doc with messages := doc.messages ++ [r.stored] } = [] := by
    rw [← hp]; exact validate_push doc m hd (by rw [hm]; exact hr)
  have hc := committed_fields { doc with messages := doc.messages ++ [r.stored] } r.now
  rw [save_of_valid st _ r.now hv] at e
  refine ⟨_, _, e, hc.1, ?_, hc.2.2.1, hc.2.2.2.2.1, validate_committed _ _ hv,
    hc.2.2.2.2.2.1, hc.2.2.2.2.2.2, ?_, ?_⟩
  · rw [hc.2.1, hc.1]
  · intro hn
    have : ({ doc with messages := doc.messages ++ [r.stored] } : ChatHistory).isNew = true :=
      hn
    rw [if_pos this]
  · intro hn
    have : ¬ ({ doc with messages := doc.messages ++ [r.stored] } : ChatHistory).isNew = true := by
      intro e2
      have e3 : doc.isNew = true := e2
      rw [hn] at e3
      cases e3
    rw [if_neg this]

theorem appendAll_stored (reqs : List AppendRequest) :
    ∀ (st : Store) (doc : ChatHistory), validate doc = [] →
      (∀ r ∈ reqs, validateMessage r.stored = []) →
      (doc.isNew = true → ∀ x ∈ st.docs, x._id ≠ doc._id) →
      (doc.isNew = false →
        ∃ x, st.docs.find? (fun y => decide (y._id = doc._id)) = Option.some x) →
      ∃ st1 d, appendAll st doc reqs = (st1, Except.ok d) ∧
        d.messages = doc.messages ++ reqs.map AppendRequest.stored ∧ d._id = doc._id ∧
        (reqs ≠ [] → d.messageCount = d.messages.length ∧
          st1.docs.find? (fun y => decide (y._id = doc._id)) = Option.some d) := by
  induction reqs with
  | nil =>
    intro st doc _ _ _ _
    exact ⟨st, doc, rfl, by simp, rfl, fun h => absurd rfl h⟩
  | cons r rs ih =>
    intro st doc hd hr hnew hold
    obtain ⟨st1, d1, e1, hm, hcnt, hid, hnn, hvd, _, _, hins, hupd⟩ :=
      addMessage_stored st doc r hd (hr r (List.mem_cons_self r rs))
    have hfind : st1.docs.find? (fun y => decide (y._id = d1._id)) = Option.some d1 := by
      cases hn : doc.isNew with
      | true =>
        rw [hins hn]
        exact find_after_insert st.docs d1 (fun x hx => by rw [hid]; exact hnew hn x hx)
      | false =>
        rw [hupd hn]
        obtain ⟨x, hx⟩ := hold hn
        rw [← hid] at hx
        exact find_after_update st.docs d1 x hx
    obtain ⟨st2, d2, e2, hm2, hid2, hrest⟩ := ih st1 d1 hvd
      (fun x hx => hr x (List.mem_cons_of_mem r hx))
      (fun h => by rw [hnn] at h; cases h) (fun _ => ⟨d1, hfind⟩)
    refine ⟨st2, d2, ?_, ?_, hid2.trans hid, fun _ => ?_⟩
    · show (match addMessage st doc r.content r.sender r.metadata r.now with
        | (st1, Except.ok doc1) => appendAll st1 doc1 rs
        | (st1, Except.error e) => (st1, Except.error e)) = (st2, Except.ok d2)
      rw [e1]
      exact e2
    · rw [hm2, hm, List.map_cons, List.append_assoc]
      rfl
    · cases rs with
      | nil =>
        have e3 : (st2, (Except.ok d2 : Except (List ValidationError) ChatHistory)) =
            (st1, Except.ok d1) := e2.symm.trans rfl
        have e4 : st2 = st1 := congrArg Prod.fst e3
        have e5 : d2 = d1 := by
          have := congrArg Prod.snd e3
          exact Except.ok.inj this
        rw [e4, e5, ← hid]
        exact ⟨hcnt, hfind⟩
      | cons r2 rs2 =>
        have := hrest (List.cons_ne_nil r2 rs2)
        rw [hid] at this
        exact this

theorem trim_padded (n : Nat) :
    trim (List.replicate (n + 1) 97 ++ [32]) = List.replicate (n + 1) 97 := by
  have h97 : ¬ isWhiteSpace 97 = true := by decide
  have h32 : isWhiteSpace 32 = true := by decide
  unfold trim
  have e1 : List.dropWhile isWhiteSpace (List.replicate (n + 1) 97 ++ [32]) =
      List.replicate (n + 1) 97 ++ [32] := by
    rw [List.replicate_succ, List.cons_append, List.dropWhile_cons_of_neg h97]
  rw [e1, List.rdropWhile_concat_pos _ _ _ h32, List.replicate_succ',
    List.rdropWhile_concat_neg _ _ _ h97]

theorem addMessage_fresh_session (c : JSString) (h0 : (trim c).length ≠ 0)
    (h1 : (trim c).length ≤ 5000) :
    ((addMessage Store.empty
        (newChatHistory 0 0
          { user := Option.none, sessionId := lit "s1", title := Option.none,
            isPremium := Option.none, messages := [], isAuthenticated := Option.none })
        c userSender
        { isOutOfScope := Option.none, isError := Option.none, topic := Option.none } 1)
      |>.2.toOption.map (fun d => d.messages.map (fun m => m.content.length))) =
      Option.some [(trim c).length] ∧
    ((addMessage Store.empty
        (newChatHistory 0 0
          { user := Option.none, sessionId := lit "s1", title := Option.none,
            isPremium := Option.none, messages := [], isAuthenticated := Option.none })
        c userSender
        { isOutOfScope := Option.none, isError := Option.none, topic := Option.none } 1)
      |>.1.docs.map (fun d => d.messages.map (fun m => m.content.length))) =
      [[(trim c).length]] := by
  have hr : validateMessage (AppendRequest.stored
      { content := c, sender := userSender,
        metadata := { isOutOfScope := Option.none, isError := Option.none, topic := Option.none },
        now := 1 }) = [] :=
    validateMessage_eq_nil _ h0 h1 (Or.inl rfl)
  obtain ⟨st1, d, e, hm, _, _, _, _, _, _, hins, _⟩ := addMessage_stored Store.empty
    (newChatHistory 0 0
      { user := Option.none, sessionId := lit "s1", title := Option.none,
        isPremium := Option.none, messages := [], isAuthenticated := Option.none })
    { content := c, sender := userSender,
      metadata := { isOutOfScope := Option.none, isError := Option.none, topic := Option.none },
      now := 1 } (by decide) hr
  have hlen : d.messages.map (fun m => m.content.length) = [(trim c).length] := by
    rw [hm]
    rfl
  have e1 : addMessage Store.empty
        (newChatHistory 0 0
          { user := Option.none, sessionId := lit "s1", title := Option.none,
            isPremium := Option.none, messages := [], isAuthenticated := Option.none })
        c userSender
        { isOutOfScope := Option.none, isError := Option.none, topic := Option.none } 1 =
      (st1, Except.ok d) := e
  rw [e1]
  refine ⟨?_, ?_⟩
  · show Option.some (d.messages.map (fun m => m.content.length)) = _
    rw [hlen]
  · show st1.docs.map (fun d => d.messages.map (fun m => m.content.length)) = _
    rw [hins rfl]
    show [d.messages.map (fun m => m.content.length)] = _
    rw [hlen]

theorem foldl_push_frame (ms : List Message) :
    ∀ doc : ChatHistory, (ms.foldl push doc).isNew = doc.isNew ∧
      (ms.foldl push doc).title = doc.title ∧ (ms.foldl push doc)._id = doc._id := by
  induction ms with
  | nil => intro doc; exact ⟨rfl, rfl, rfl⟩
  | cons m ms ih =>
    intro doc
    rw [List.foldl_cons]
    exact ih (push doc m)

/-! ## Facts about `saveMessage` -/

theorem committed_auth (doc : ChatHistory) (now : Nat) :
    (committed doc now).isAuthenticated = doc.user.isSome ∧
      (committed doc now).user = doc.user := by
  refine ⟨?_, (preSave_id doc now).2.2.1⟩
  show (preSave doc now).isAuthenticated = doc.user.isSome
  unfold preSave
  rw [(overallTopic_frame _).2.2.2.2.2.2.2, (autoTitle_frame _).2.2.2.2.2.2.2]

theorem save_wellFormed (st : Store) (doc : ChatHistory) (now : Nat) (h : st.wellFormed) :
    (save st doc now).1.wellFormed := by
  cases hv : validate doc with
  | nil =>
    have hc : (committed doc now).isNew = false ∧ validate (committed doc now) = [] :=
      ⟨(committed_fields doc now).2.2.2.2.1, validate_committed doc now hv⟩
    rw [save_of_valid st doc now hv]
    intro d hd
    by_cases hn : doc.isNew = true
    · rw [if_pos hn] at hd
      rcases List.mem_append.1 hd with hd | hd
      · exact h d hd
      · rw [List.mem_singleton.1 hd]; exact hc
    · rw [if_neg hn] at hd
      obtain ⟨r, hr, e⟩ := List.mem_map.1 hd
      by_cases hid : r._id = (committed doc now)._id
      · rw [if_pos hid] at e; rw [← e]; exact hc
      · rw [if_neg hid] at e; rw [← e]; exact h r hr
  | cons a as =>
    rw [save_of_invalid st doc now a (by rw [hv]; exact List.mem_cons_self a as)]
    exact h

theorem save_push_mem (st : Store) (doc : ChatHistory) (m : Message) (now : Nat)
    (hd : validate doc = []) (hm : validateMessage (castMessage m) = [])
    (hin : doc.isNew = false → doc ∈ st.docs) :
    committed (push doc m) now ∈ (save st (push doc m) now).1.docs := by
  rw [save_of_valid st _ now (validate_push doc m hd hm)]
  cases hn : doc.isNew with
  | true =>
    have : (push doc m).isNew = true := hn
    rw [if_pos this]
    exact List.mem_append_right _ (List.mem_singleton_self _)
  | false =>
    have : ¬ (push doc m).isNew = true := by
      intro e
      have e2 : doc.isNew = true := e
      rw [hn] at e2
      cases e2
    rw [if_neg this]
    refine List.mem_map.2 ⟨doc, hin hn, ?_⟩
    have hid : doc._id = (committed (push doc m) now)._id :=
      ((committed_fields (push doc m) now).2.2.1).symm
    rw [if_pos hid]

theorem committed_push_fields (doc : ChatHistory) (m : Message) (now : Nat) :
    (committed (push doc m) now).messages = doc.messages ++ [castMessage m] ∧
    (committed (push doc m) now).sessionId = doc.sessionId ∧
    (committed (push doc m) now).user = doc.user ∧
    (committed (push doc m) now).messages.getLast? = Option.some (castMessage m) := by
  have h := committed_fields (push doc m) now
  have h1 : (committed (push doc m) now).messages = doc.messages ++ [castMessage m] := h.1
  refine ⟨h1, h.2.2.2.1, (committed_auth (push doc m) now).2, ?_⟩
  rw [h1, List.getLast?_append]
  rfl

theorem save_push_invalid (st : Store) (doc : ChatHistory) (m : Message) (now : Nat)
    (h : (castMessage m).content.length = 0 ∨ (castMessage m).content.length > 5000) :
    (save st (push doc m) now).1 = st := by
  have hmem : castMessage m ∈ (push doc m).messages := by
    unfold push
    exact List.mem_append_right _ (List.mem_singleton_self _)
  rcases validateMessage_content (castMessage m) h with hb | hb
  · rw [save_of_invalid st _ now _ (mem_validate_of_message _ _ _ hmem hb)]
  · rw [save_of_invalid st _ now _ (mem_validate_of_message _ _ _ hmem hb)]

theorem validate_newChatHistory (_id now : Nat) (user : Option Nat) (sid : JSString)
    (auth : Bool) (h : sid.length ≠ 0) :
    validate (newChatHistory _id now
      { user := user, sessionId := sid, title := Option.none, isPremium := Option.some false,
        messages := [], isAuthenticated := Option.some auth }) = [] := by
  apply validate_eq_nil
  · exact h
  · show (lit "New Chat").length ≤ 100
    decide
  · exact fun e => Topic.noConfusion e
  · intro m hm
    cases hm

theorem saveMessage_session (st : Store) (sid c sender : JSString) (oos err : Bool)
    (now : Nat) :
    ∃ doc, saveMessage st sid c sender oos err now =
        (save st (push doc
          { content := c, sender := sender, timestamp := now,
            metadata := { isOutOfScope := oos, isError := err,
                          topic := getMessageTopic c sender } }) now).1 ∧
      ((findOne st (fun d => decide (d.sessionId = sid)) = Option.some doc) ∨
       (findOne st (fun d => decide (d.sessionId = sid)) = Option.none ∧
        doc = newChatHistory st.nextId now
          { user := Option.none, sessionId := sid, title := Option.none,
            isPremium := Option.some false, messages := [],
            isAuthenticated := Option.some false })) := by
  cases h : findOne st (fun d => decide (d.sessionId = sid)) with
  | none =>
    refine ⟨_, ?_, Or.inr ⟨rfl, rfl⟩⟩
    unfold saveMessage
    simp only [h]
  | some found =>
    refine ⟨found, ?_, Or.inl rfl⟩
    unfold saveMessage
    simp only [h]

theorem saveMessageUser_session (st : Store) (userId : Nat) (sid c sender : JSString)
    (oos err : Bool) (now : Nat) :
    ∃ doc, saveMessageUser st userId sid c sender oos err now =
        (save st (push doc
          { content := c, sender := sender, timestamp := now,
            metadata := { isOutOfScope := oos, isError := err,
                          topic := getMessageTopic c sender } }) now).1 ∧
      ((findOne st (fun d => decide (d.user = Option.some userId) &&
          decide (d.sessionId = sid)) = Option.some doc) ∨
       (findOne st (fun d => decide (d.user = Option.some userId) &&
          decide (d.sessionId = sid)) = Option.none ∧
        doc = newChatHistory st.nextId now
          { user := Option.some userId, sessionId := sid, title := Option.none,
            isPremium := Option.some false, messages := [],
            isAuthenticated := Option.some true })) := by
  cases h : findOne st (fun d => decide (d.user = Option.some userId) &&
      decide (d.sessionId = sid)) with
  | none =>
    refine ⟨_, ?_, Or.inr ⟨rfl, rfl⟩⟩
    unfold saveMessageUser
    simp only [h]
  | some found =>
    refine ⟨found, ?_, Or.inl rfl⟩
    unfold saveMessageUser
    simp only [h]

theorem saveMessage_wellFormed (st : Store) (sid c sender : JSString) (oos err : Bool)
    (now : Nat) (h : st.wellFormed) : (saveMessage st sid c sender oos err now).wellFormed := by
  obtain ⟨doc, e, _⟩ := saveMessage_session st sid c sender oos err now
  rw [e]
  exact save_wellFormed st _ now h

theorem saveMessageUser_wellFormed (st : Store) (userId : Nat) (sid c sender : JSString)
    (oos err : Bool) (now : Nat) (h : st.wellFormed) :
    (saveMessageUser st userId sid c sender oos err now).wellFormed := by
  obtain ⟨doc, e, _⟩ := saveMessageUser_session st userId sid c sender oos err now
  rw [e]
  exact save_wellFormed st _ now h

theorem saveMessageWith_wellFormed (f : DbFault) (st : Store) (sid c sender : JSString)
    (oos err : Bool) (now : Nat) (h : st.wellFormed) :
    (saveMessageWith f st sid c sender oos err now).wellFormed := by
  cases f
  · exact saveMessage_wellFormed st sid c sender oos err now h
  · exact h
  · exact h

theorem saveMessageUserWith_wellFormed (userId : Nat) (f : DbFault) (st : Store)
    (sid c sender : JSString) (oos err : Bool) (now : Nat) (h : st.wellFormed) :
    (saveMessageUserWith userId f st sid c sender oos err now).wellFormed := by
  cases f
  · exact saveMessageUser_wellFormed st userId sid c sender oos err now h
  · exact h
  · exact h

theorem saveMessage_appends (st : Store) (sid c sender : JSString) (oos err : Bool)
    (now : Nat) (hst : st.wellFormed) (hsid : sid.length ≠ 0) (h0 : (trim c).length ≠ 0)
    (h1 : (trim c).length ≤ 5000) (hs : sender = userSender ∨ sender = assistantSender) :
    ∃ d ∈ (saveMessage st sid c sender oos err now).docs, d.sessionId = sid ∧
      d.messages.getLast? = Option.some
        { content := trim c, sender := sender, timestamp := now,
          metadata := { isOutOfScope := oos, isError := err,
                        topic := getMessageTopic c sender } } := by
  obtain ⟨doc, e, hdoc⟩ := saveMessage_session st sid c sender oos err now
  have hm : validateMessage (castMessage
      { content := c, sender := sender, timestamp := now,
        metadata := { isOutOfScope := oos, isError := err,
                      topic := getMessageTopic c sender } }) = [] :=
    validateMessage_eq_nil _ h0 h1 hs
  have hf := committed_push_fields doc
    { content := c, sender := sender, timestamp := now,
      metadata := { isOutOfScope := oos, isError := err,
                    topic := getMessageTopic c sender } } now
  rw [e]
  rcases hdoc with hfound | ⟨_, hnew⟩
  · have hmem : doc ∈ st.docs := List.mem_of_find?_eq_some hfound
    have hsid2 : doc.sessionId = sid := by
      have := List.find?_some hfound
      simpa using this
    refine ⟨_, save_push_mem st doc _ now (hst doc hmem).2 hm (fun _ => hmem), ?_, hf.2.2.2⟩
    rw [hf.2.1, hsid2]
  · have hv : validate doc = [] := by
      rw [hnew]; exact validate_newChatHistory _ _ _ _ _ hsid
    have hn : doc.isNew = true := by rw [hnew]; rfl
    refine ⟨_, save_push_mem st doc _ now hv hm (fun h => ?_), ?_, hf.2.2.2⟩
    · rw [hn] at h; cases h
    · rw [hf.2.1, hnew]; rfl

theorem saveMessageUser_appends (st : Store) (userId : Nat) (sid c sender : JSString)
    (oos err : Bool) (now : Nat) (hst : st.wellFormed) (hsid : sid.length ≠ 0)
    (h0 : (trim c).length ≠ 0) (h1 : (trim c).length ≤ 5000)
    (hs : sender = userSender ∨ sender = assistantSender) :
    ∃ d ∈ (saveMessageUser st userId sid c sender oos err now).docs, d.sessionId = sid ∧
      d.user = Option.some userId ∧
      d.messages.getLast? = Option.some
        { content := trim c, sender := sender, timestamp := now,
          metadata := { isOutOfScope := oos, isError := err,
                        topic := getMessageTopic c sender } } := by
  obtain ⟨doc, e, hdoc⟩ := saveMessageUser_session st userId sid c sender oos err now
  have hm : validateMessage (castMessage
      { content := c, sender := sender, timestamp := now,
        metadata := { isOutOfScope := oos, isError := err,
                      topic := getMessageTopic c sender } }) = [] :=
    validateMessage_eq_nil _ h0 h1 hs
  have hf := committed_push_fields doc
    { content := c, sender := sender, timestamp := now,
      metadata := { isOutOfScope := oos, isError := err,
                    topic := getMessageTopic c sender } } now
  rw [e]
  rcases hdoc with hfound | ⟨_, hnew⟩
  · have hmem : doc ∈ st.docs := List.mem_of_find?_eq_some hfound
    have hkey : doc.user = Option.some userId ∧ doc.sessionId = sid := by
      have := List.find?_some hfound
      simpa using this
    refine ⟨_, save_push_mem st doc _ now (hst doc hmem).2 hm (fun _ => hmem), ?_, ?_,
      hf.2.2.2⟩
    · rw [hf.2.1, hkey.2]
    · rw [hf.2.2.1, hkey.1]
  · have hv : validate doc = [] := by
      rw [hnew]; exact validate_newChatHistory _ _ _ _ _ hsid
    have hn : doc.isNew = true := by rw [hnew]; rfl
    refine ⟨_, save_push_mem st doc _ now hv hm (fun h => ?_), ?_, ?_, hf.2.2.2⟩
    · rw [hn] at h; cases h
    · rw [hf.2.1, hnew]; rfl
    · rw [hf.2.2.1, hnew]; rfl

theorem saveMessage_rejects (st : Store) (sid c sender : JSString) (oos err : Bool)
    (now : Nat) (h : (trim c).length = 0 ∨ (trim c).length > 5000) :
    saveMessage st sid c sender oos err now = st := by
  obtain ⟨doc, e, _⟩ := saveMessage_session st sid c sender oos err now
  rw [e]
  exact save_push_invalid st doc _ now h

theorem saveMessageUser_rejects (st : Store) (userId : Nat) (sid c sender : JSString)
    (oos err : Bool) (now : Nat) (h : (trim c).length = 0 ∨ (trim c).length > 5000) :
    saveMessageUser st userId sid c sender oos err now = st := by
  obtain ⟨doc, e, _⟩ := saveMessageUser_session st userId sid c sender oos err now
  rw [e]
  exact save_push_invalid st doc _ now h

theorem saveMessageWith_rejects (f : DbFault) (st : Store) (sid c sender : JSString)
    (oos err : Bool) (now : Nat) (h : (trim c).length = 0 ∨ (trim c).length > 5000) :
    saveMessageWith f st sid c sender oos err now = st := by
  cases f
  · exact saveMessage_rejects st sid c sender oos err now h
  · rfl
  · rfl

theorem saveMessageUserWith_rejects (userId : Nat) (f : DbFault) (st : Store)
    (sid c sender : JSString) (oos err : Bool) (now : Nat)
    (h : (trim c).length = 0 ∨ (trim c).length > 5000) :
    saveMessageUserWith userId f st sid c sender oos err now = st := by
  cases f
  · exact saveMessageUser_rejects st userId sid c sender oos err now h
  · rfl
  · rfl

theorem saveMessage_inserts (st : Store) (sid c sender : JSString) (oos err : Bool)
    (now : Nat) (hnone : findOne st (fun d => decide (d.sessionId = sid)) = Option.none)
    (hsid : sid.length ≠ 0) (h0 : (trim c).length ≠ 0) (h1 : (trim c).length ≤ 5000)
    (hs : sender = userSender ∨ sender = assistantSender) :
    saveMessage st sid c sender oos err now =
      { docs := st.docs ++ [committed (push
          (newChatHistory st.nextId now
            { user := Option.none, sessionId := sid, title := Option.none,
              isPremium := Option.some false, messages := [],
              isAuthenticated := Option.some false })
          { content := c, sender := sender, timestamp := now,
            metadata := { isOutOfScope := oos, isError := err,
                          topic := getMessageTopic c sender } }) now],
        nextId := st.nextId + 1 } := by
  obtain ⟨doc, e, hdoc⟩ := saveMessage_session st sid c sender oos err now
  rcases hdoc with hfound | ⟨_, hnew⟩
  · rw [hnone] at hfound; cases hfound
  · have hm : validateMessage (castMessage
        { content := c, sender := sender, timestamp := now,
          metadata := { isOutOfScope := oos, isError := err,
                        topic := getMessageTopic c sender } }) = [] :=
      validateMessage_eq_nil _ h0 h1 hs
    rw [e, hnew, save_of_valid st _ now (validate_push _ _
      (validate_newChatHistory _ _ _ _ _ hsid) hm)]
    show ({ docs := _, nextId := max st.nextId (st.nextId + 1) } : Store) = _
    rw [Nat.max_eq_right (Nat.le_succ st.nextId)]

theorem saveMessageUser_inserts (st : Store) (userId : Nat) (sid c sender : JSString)
    (oos err : Bool) (now : Nat)
    (hnone : findOne st (fun d => decide (d.user = Option.some userId) &&
      decide (d.sessionId = sid)) = Option.none)
    (hsid : sid.length ≠ 0) (h0 : (trim c).length ≠ 0) (h1 : (trim c).length ≤ 5000)
    (hs : sender = userSender ∨ sender = assistantSender) :
    saveMessageUser st userId sid c sender oos err now =
      { docs := st.docs ++ [committed (push
          (newChatHistory st.nextId now
            { user := Option.some userId, sessionId := sid, title := Option.none,
              isPremium := Option.some false, messages := [],
              isAuthenticated := Option.some true })
          { content := c, sender := sender, timestamp := now,
            metadata := { isOutOfScope := oos, isError := err,
                          topic := getMessageTopic c sender } }) now],
        nextId := st.nextId + 1 } := by
  obtain ⟨doc, e, hdoc⟩ := saveMessageUser_session st userId sid c sender oos err now
  rcases hdoc with hfound | ⟨_, hnew⟩
  · rw [hnone] at hfound; cases hfound
  · have hm : validateMessage (castMessage
        { content := c, sender := sender, timestamp := now,
          metadata := { isOutOfScope := oos, isError := err,
                        topic := getMessageTopic c sender } }) = [] :=
      validateMessage_eq_nil _ h0 h1 hs
    rw [e, hnew, save_of_valid st _ now (validate_push _ _
      (validate_newChatHistory _ _ _ _ _ hsid) hm)]
    show ({ docs := _, nextId := max st.nextId (st.nextId + 1) } : Store) = _
    rw [Nat.max_eq_right (Nat.le_succ st.nextId)]

/-! ## Facts about the chat route -/

theorem chatRoute_blank
    (saveMsg : DbFault → Store → JSString → JSString → JSString → Bool → Bool → Nat → Store)
    (service : OpenAIService) (f1 f2 : DbFault) (st : Store) (req : Request) (now : Nat)
    (h : req.message = Option.none ∨
      ∃ m, req.message = Option.some m ∧ (m.length = 0 ∨ (trim m).length = 0)) :
    chatRoute saveMsg service f1 f2 st req now =
      { store := st, response := emptyMessageResponse, calls := [] } := by
  unfold chatRoute
  rcases h with h | ⟨m, h, hb⟩
  · rw [h]
  · rw [h]
    exact if_pos hb

theorem chatRoute_declined
    (saveMsg : DbFault → Store → JSString → JSString → JSString → Bool → Bool → Nat → Store)
    (service : OpenAIService) (f1 f2 : DbFault) (st : Store) (req : Request) (now : Nat)
    (m : JSString) (hm : req.message = Option.some m)
    (hb : ¬ (m.length = 0 ∨ (trim m).length = 0))
    (hc : isChelseaRelated m = false) (hf : isFrontendRelated m = false) :
    chatRoute saveMsg service f1 f2 st req now =
      { store := saveMsg f2
          (saveMsg f1 st (req.sessionId.getD (defaultSessionId now)) m userSender false false
            now)
          (req.sessionId.getD (defaultSessionId now)) outOfScopeResponse assistantSender
          true false now
        response :=
          { status := 200, success := true, response := Option.some outOfScopeResponse,
            isOutOfScope := Option.some true,
            sessionId := Option.some (req.sessionId.getD (defaultSessionId now)),
            timestamp := Option.none, error := Option.none }
        calls := [] } := by
  unfold chatRoute
  rw [hm]
  simp only [if_neg hb, hc, hf]
  rfl

theorem chatRoute_answered
    (saveMsg : DbFault → Store → JSString → JSString → JSString → Bool → Bool → Nat → Store)
    (service : OpenAIService) (f1 f2 : DbFault) (st : Store) (req : Request) (now : Nat)
    (m answer : JSString) (hm : req.message = Option.some m)
    (hb : ¬ (m.length = 0 ∨ (trim m).length = 0))
    (hs : (isChelseaRelated m || isFrontendRelated m) = true)
    (ha : service.call (selectAnswerer m) m = Except.ok answer) :
    chatRoute saveMsg service f1 f2 st req now =
      { store := saveMsg f2
          (saveMsg f1 st (req.sessionId.getD (defaultSessionId now)) m userSender false false
            now)
          (req.sessionId.getD (defaultSessionId now)) answer assistantSender false false now
        response :=
          { status := 200, success := true, response := Option.some answer,
            isOutOfScope := Option.some false,
            sessionId := Option.some (req.sessionId.getD (defaultSessionId now)),
            timestamp := Option.some now, error := Option.none }
        calls := [(selectAnswerer m, m)] } := by
  have hg : ¬ ((!isChelseaRelated m && !isFrontendRelated m) = true) := by
    cases h1 : isChelseaRelated m <;> cases h2 : isFrontendRelated m <;>
      simp [h1, h2] at hs ⊢
  unfold chatRoute
  rw [hm]
  simp only [if_neg hb, if_neg hg, ha]

theorem chatRoute_failed
    (saveMsg : DbFault → Store → JSString → JSString → JSString → Bool → Bool → Nat → Store)
    (service : OpenAIService) (f1 f2 : DbFault) (st : Store) (req : Request) (now : Nat)
    (m e : JSString) (hm : req.message = Option.some m)
    (hb : ¬ (m.length = 0 ∨ (trim m).length = 0))
    (hs : (isChelseaRelated m || isFrontendRelated m) = true)
    (ha : service.call (selectAnswerer m) m = Except.error e) :
    chatRoute saveMsg service f1 f2 st req now =
      { store := saveMsg f2
          (saveMsg f1 st (req.sessionId.getD (defaultSessionId now)) m userSender false false
            now)
          (req.sessionId.getD (defaultSessionId now)) errorResponse assistantSender false true
          now
        response :=
          { status := 500, success := false, response := Option.none,
            isOutOfScope := Option.none, sessionId := Option.none,
            timestamp := Option.none, error := Option.some errorResponse }
        calls := [(selectAnswerer m, m)] } := by
  have hg : ¬ ((!isChelseaRelated m && !isFrontendRelated m) = true) := by
    cases h1 : isChelseaRelated m <;> cases h2 : isFrontendRelated m <;>
      simp [h1, h2] at hs ⊢
  unfold chatRoute
  rw [hm]
  simp only [if_neg hb, if_neg hg, ha]

theorem gate_cases (m : JSString) :
    (isChelseaRelated m = false ∧ isFrontendRelated m = false) ∨
      (isChelseaRelated m || isFrontendRelated m) = true := by
  cases isChelseaRelated m <;> cases isFrontendRelated m <;> simp

theorem chatRoute_response_calls
    (saveMsg saveMsg2 :
      DbFault → Store → JSString → JSString → JSString → Bool → Bool → Nat → Store)
    (service : OpenAIService) (f1 f2 g1 g2 : DbFault) (st st2 : Store) (req : Request)
    (now : Nat) :
    (chatRoute saveMsg service f1 f2 st req now).response =
      (chatRoute saveMsg2 service g1 g2 st2 req now).response ∧
    (chatRoute saveMsg service f1 f2 st req now).calls =
      (chatRoute saveMsg2 service g1 g2 st2 req now).calls := by
  cases hm : req.message with
  | none =>
    rw [chatRoute_blank saveMsg service f1 f2 st req now (Or.inl hm),
      chatRoute_blank saveMsg2 service g1 g2 st2 req now (Or.inl hm)]
    exact ⟨rfl, rfl⟩
  | some m =>
    by_cases hb : m.length = 0 ∨ (trim m).length = 0
    · rw [chatRoute_blank saveMsg service f1 f2 st req now (Or.inr ⟨m, hm, hb⟩),
        chatRoute_blank saveMsg2 service g1 g2 st2 req now (Or.inr ⟨m, hm, hb⟩)]
      exact ⟨rfl, rfl⟩
    · rcases gate_cases m with ⟨hc, hf⟩ | hs
      · rw [chatRoute_declined saveMsg service f1 f2 st req now m hm hb hc hf,
          chatRoute_declined saveMsg2 service g1 g2 st2 req now m hm hb hc hf]
        exact ⟨rfl, rfl⟩
      · cases ha : service.call (selectAnswerer m) m with
        | ok answer =>
          rw [chatRoute_answered saveMsg service f1 f2 st req now m answer hm hb hs ha,
            chatRoute_answered saveMsg2 service g1 g2 st2 req now m answer hm hb hs ha]
          exact ⟨rfl, rfl⟩
        | error e =>
          rw [chatRoute_failed saveMsg service f1 f2 st req now m e hm hb hs ha,
            chatRoute_failed saveMsg2 service g1 g2 st2 req now m e hm hb hs ha]
          exact ⟨rfl, rfl⟩

theorem not_blank_of_trim (m : JSString) (h : (trim m).length ≠ 0) :
    ¬ (m.length = 0 ∨ (trim m).length = 0) := by
  have := length_trim_le m
  omega

theorem trim_whiteSpace (m : JSString) (h : ∀ c ∈ m, isWhiteSpace c = true) : trim m = [] := by
  unfold trim
  rw [List.dropWhile_eq_nil_iff.2 h]
  rfl

set_option maxRecDepth 100000 in
theorem outOfScopeResponse_valid :
    trim outOfScopeResponse = outOfScopeResponse ∧ (trim outOfScopeResponse).length ≠ 0 ∧
      (trim outOfScopeResponse).length ≤ 5000 := by
  decide

set_option maxRecDepth 100000 in
theorem errorResponse_valid :
    trim errorResponse = errorResponse ∧ (trim errorResponse).length ≠ 0 ∧
      (trim errorResponse).length ≤ 5000 := by
  decide

theorem getMessageTopic_assistant (c : JSString) :
    getMessageTopic c assistantSender = Topic.assistant := by
  unfold getMessageTopic
  rw [if_neg (by decide)]

theorem isChelseaRelated_eq_false_iff (m : JSString) :
    isChelseaRelated m = false ↔
      ∀ k ∈ routeChelseaTerms, includes (toLowerCase m) k = false := by
  simp [isChelseaRelated, some]

theorem isFrontendRelated_eq_false_iff (m : JSString) :
    isFrontendRelated m = false ↔
      ∀ k ∈ routeFrontendTerms, includes (toLowerCase m) k = false := by
  simp [isFrontendRelated, some]

theorem reply_appended (f1 : DbFault) (st : Store) (sid m reply : JSString) (oos err : Bool)
    (now : Nat) (hst : st.wellFormed) (hsid : sid.length ≠ 0)
    (hr : trim reply = reply ∧ (trim reply).length ≠ 0 ∧ (trim reply).length ≤ 5000) :
    ∃ d ∈ (saveMessageWith DbFault.ok
        (saveMessageWith f1 st sid m userSender false false now) sid reply assistantSender
        oos err now).docs,
      d.sessionId = sid ∧
      d.messages.getLast? = Option.some
        { content := reply, sender := assistantSender, timestamp := now,
          metadata := { isOutOfScope := oos, isError := err, topic := Topic.assistant } } := by
  have h := saveMessage_appends (saveMessageWith f1 st sid m userSender false false now) sid
    reply assistantSender oos err now
    (saveMessageWith_wellFormed f1 st sid m userSender false false now hst) hsid hr.2.1 hr.2.2
    (Or.inr rfl)
  rw [hr.1, getMessageTopic_assistant] at h
  exact h

theorem reply_appended_user (userId : Nat) (f1 : DbFault) (st : Store) (sid m reply : JSString)
    (oos err : Bool) (now : Nat) (hst : st.wellFormed) (hsid : sid.length ≠ 0)
    (hr : trim reply = reply ∧ (trim reply).length ≠ 0 ∧ (trim reply).length ≤ 5000) :
    ∃ d ∈ (saveMessageUserWith userId DbFault.ok
        (saveMessageUserWith userId f1 st sid m userSender false false now) sid reply
        assistantSender oos err now).docs,
      d.sessionId = sid ∧ d.user = Option.some userId ∧
      d.messages.getLast? = Option.some
        { content := reply, sender := assistantSender, timestamp := now,
          metadata := { isOutOfScope := oos, isError := err, topic := Topic.assistant } } := by
  have h := saveMessageUser_appends
    (saveMessageUserWith userId f1 st sid m userSender false false now) userId sid
    reply assistantSender oos err now
    (saveMessageUserWith_wellFormed userId f1 st sid m userSender false false now hst) hsid
    hr.2.1 hr.2.2 (Or.inr rfl)
  rw [hr.1, getMessageTopic_assistant] at h
  exact h

theorem chatRoute_long
    (saveMsg : DbFault → Store → JSString → JSString → JSString → Bool → Bool → Nat → Store)
    (hrej : ∀ f st sid c sender oos err now, (trim c).length > 5000 →
      saveMsg f st sid c sender oos err now = st)
    (service : OpenAIService) (f1 f2 : DbFault) (st : Store) (req : Request) (now : Nat)
    (m : JSString) (hm : req.message = Option.some m) (hlong : (trim m).length > 5000) :
    saveMsg f1 st (req.sessionId.getD (defaultSessionId now)) m userSender false false now =
      st ∧
    (∃ reply oos err, (chatRoute saveMsg service f1 f2 st req now).store =
      saveMsg f2 st (req.sessionId.getD (defaultSessionId now)) reply assistantSender oos err
        now) ∧
    ((chatRoute saveMsg service f1 f2 st req now).response.status = 200 ∨
      (chatRoute saveMsg service f1 f2 st req now).response.status = 500) ∧
    ((isChelseaRelated m || isFrontendRelated m) = true →
      (chatRoute saveMsg service f1 f2 st req now).calls = [(selectAnswerer m, m)]) ∧
    ((isChelseaRelated m = false ∧ isFrontendRelated m = false) →
      (chatRoute saveMsg service f1 f2 st req now).calls = [] ∧
      (chatRoute saveMsg service f1 f2 st req now).response.status = 200 ∧
      (chatRoute saveMsg service f1 f2 st req now).response.success = true) := by
  have hb : ¬ (m.length = 0 ∨ (trim m).length = 0) := not_blank_of_trim m (by omega)
  have h1 := hrej f1 st (req.sessionId.getD (defaultSessionId now)) m userSender false false
    now hlong
  refine ⟨h1, ?_⟩
  rcases gate_cases m with ⟨hc, hf⟩ | hs
  · have e := chatRoute_declined saveMsg service f1 f2 st req now m hm hb hc hf
    rw [h1] at e
    rw [e]
    refine ⟨⟨_, _, _, rfl⟩, Or.inl rfl, fun hs => ?_, fun _ => ⟨rfl, rfl, rfl⟩⟩
    rw [hc, hf] at hs
    cases hs
  · cases ha : service.call (selectAnswerer m) m with
    | ok answer =>
      have e := chatRoute_answered saveMsg service f1 f2 st req now m answer hm hb hs ha
      rw [h1] at e
      rw [e]
      refine ⟨⟨_, _, _, rfl⟩, Or.inl rfl, fun _ => rfl, fun h => ?_⟩
      rw [h.1, h.2] at hs
      cases hs
    | error er =>
      have e := chatRoute_failed saveMsg service f1 f2 st req now m er hm hb hs ha
      rw [h1] at e
      rw [e]
      refine ⟨⟨_, _, _, rfl⟩, Or.inr rfl, fun _ => rfl, fun h => ?_⟩
      rw [h.1, h.2] at hs
      cases hs

theorem trim_css_padded (n : Nat) :
    trim (lit "css" ++ List.replicate (n + 1) 97) = lit "css" ++ List.replicate (n + 1) 97 := by
  have h97 : ¬ isWhiteSpace 97 = true := by decide
  have h99 : ¬ isWhiteSpace 99 = true := by decide
  have e0 : lit "css" = [99, 115, 115] := by decide
  unfold trim
  rw [e0, List.cons_append, List.dropWhile_cons_of_neg h99, List.replicate_succ',
    ← List.cons_append, ← List.append_assoc, List.rdropWhile_concat_neg _ _ _ h97]

theorem isFrontendRelated_css (r : JSString) : isFrontendRelated (lit "css" ++ r) = true := by
  have h1 : lit "css" <:+: toLowerCase (lit "css" ++ r) := by
    rw [toLowerCase_append]
    have e : toLowerCase (lit "css") = lit "css" := by decide
    rw [e]
    exact ⟨[], toLowerCase r, rfl⟩
  unfold isFrontendRelated some
  rw [List.any_eq_true]
  exact ⟨lit "css", by decide, (includes_iff _ _).2 h1⟩

theorem long_request_answered (m : JSString) (hlong : (trim m).length > 5000)
    (hfe : isFrontendRelated m = true) :
    (postMessage
      { answerChelseaQuestion := fun _ => Except.ok (lit "Use flexbox."),
        answerFrontendQuestion := fun _ => Except.ok (lit "Use flexbox."),
        generateResponse := fun _ => Except.ok (lit "Use flexbox.") }
      DbFault.ok DbFault.ok Store.empty
      { message := Option.some m, sessionId := Option.some (lit "s1") } 1).response.status =
      200 ∧
    (postMessage
      { answerChelseaQuestion := fun _ => Except.ok (lit "Use flexbox."),
        answerFrontendQuestion := fun _ => Except.ok (lit "Use flexbox."),
        generateResponse := fun _ => Except.ok (lit "Use flexbox.") }
      DbFault.ok DbFault.ok Store.empty
      { message := Option.some m, sessionId := Option.some (lit "s1") } 1).response.success =
      true ∧
    (postMessage
      { answerChelseaQuestion := fun _ => Except.ok (lit "Use flexbox."),
        answerFrontendQuestion := fun _ => Except.ok (lit "Use flexbox."),
        generateResponse := fun _ => Except.ok (lit "Use flexbox.") }
      DbFault.ok DbFault.ok Store.empty
      { message := Option.some m, sessionId := Option.some (lit "s1") } 1).calls.length = 1 ∧
    ((postMessage
      { answerChelseaQuestion := fun _ => Except.ok (lit "Use flexbox."),
        answerFrontendQuestion := fun _ => Except.ok (lit "Use flexbox."),
        generateResponse := fun _ => Except.ok (lit "Use flexbox.") }
      DbFault.ok DbFault.ok Store.empty
      { message := Option.some m, sessionId := Option.some (lit "s1") } 1).store.docs.map
      (fun d => d.messages.map (fun x => x.content))) = [[lit "Use flexbox."]] := by
  have hb : ¬ (m.length = 0 ∨ (trim m).length = 0) := not_blank_of_trim m (by omega)
  have hs : (isChelseaRelated m || isFrontendRelated m) = true := by
    rw [hfe, Bool.or_true]
  have ha : OpenAIService.call
      { answerChelseaQuestion := fun _ => Except.ok (lit "Use flexbox."),
        answerFrontendQuestion := fun _ => Except.ok (lit "Use flexbox."),
        generateResponse := fun _ => Except.ok (lit "Use flexbox.") }
      (selectAnswerer m) m = Except.ok (lit "Use flexbox.") := by
    generalize selectAnswerer m = a
    cases a <;> rfl
  unfold postMessage
  rw [chatRoute_answered saveMessageWith _ DbFault.ok DbFault.ok Store.empty
    { message := Option.some m, sessionId := Option.some (lit "s1") } 1 m (lit "Use flexbox.")
    rfl hb hs ha]
  refine ⟨rfl, rfl, rfl, ?_⟩
  show ((saveMessageWith DbFault.ok
    (saveMessageWith DbFault.ok Store.empty (lit "s1") m userSender false false 1) (lit "s1")
    (lit "Use flexbox.") assistantSender false false 1).docs.map
      (fun d => d.messages.map (fun x => x.content))) = [[lit "Use flexbox."]]
  rw [saveMessageWith_rejects DbFault.ok Store.empty (lit "s1") m userSender false false 1
    (Or.inr hlong)]
  decide

theorem narrow_sublist_broad :
    (∀ k ∈ chelseaTerms, k ∈ routeChelseaTerms) ∧
      ∀ k ∈ frontendTerms, k ∈ routeFrontendTerms := by
  decide

theorem isChelseaRelated_of_hasChelsea (m : JSString)
    (h : hasChelsea (toLowerCase m) = true) : isChelseaRelated m = true := by
  obtain ⟨k, hk, hin⟩ := (hasChelsea_iff _).1 h
  unfold isChelseaRelated some
  rw [List.any_eq_true]
  exact ⟨k, narrow_sublist_broad.1 k hk, hin⟩

theorem isFrontendRelated_of_hasFrontend (m : JSString)
    (h : hasFrontend (toLowerCase m) = true) : isFrontendRelated m = true := by
  obtain ⟨k, hk, hin⟩ := (hasFrontend_iff _).1 h
  unfold isFrontendRelated some
  rw [List.any_eq_true]
  exact ⟨k, narrow_sublist_broad.2 k hk, hin⟩

theorem topic_chain (b1 b2 : Bool) :
    ((if (b1 && b2) = true then Topic.mixed else if b1 = true then Topic.chelsea
        else if b2 = true then Topic.frontend else Topic.general) = Topic.mixed ↔
      b1 = true ∧ b2 = true) ∧
    ((if (b1 && b2) = true then Topic.mixed else if b1 = true then Topic.chelsea
        else if b2 = true then Topic.frontend else Topic.general) = Topic.chelsea ↔
      b1 = true ∧ b2 = false) ∧
    ((if (b1 && b2) = true then Topic.mixed else if b1 = true then Topic.chelsea
        else if b2 = true then Topic.frontend else Topic.general) = Topic.frontend ↔
      b1 = false ∧ b2 = true) ∧
    ((if (b1 && b2) = true then Topic.mixed else if b1 = true then Topic.chelsea
        else if b2 = true then Topic.frontend else Topic.general) = Topic.general ↔
      b1 = false ∧ b2 = false) := by
  cases b1 <;> cases b2 <;> decide

theorem chatRoute_calls_inScope
    (saveMsg : DbFault → Store → JSString → JSString → JSString → Bool → Bool → Nat → Store)
    (service : OpenAIService) (f1 f2 : DbFault) (st : Store) (req : Request) (now : Nat)
    (m : JSString) (hm : req.message = Option.some m)
    (hb : ¬ (m.length = 0 ∨ (trim m).length = 0))
    (hs : (isChelseaRelated m || isFrontendRelated m) = true) :
    (chatRoute saveMsg service f1 f2 st req now).calls = [(selectAnswerer m, m)] := by
  cases ha : service.call (selectAnswerer m) m with
  | ok answer => rw [chatRoute_answered saveMsg service f1 f2 st req now m answer hm hb hs ha]
  | error e => rw [chatRoute_failed saveMsg service f1 f2 st req now m e hm hb hs ha]

theorem selectAnswerer_cases (m : JSString) :
    (isChelseaRelated m = true → selectAnswerer m = Answerer.answerChelseaQuestion) ∧
    (selectAnswerer m = Answerer.answerFrontendQuestion ↔
      isChelseaRelated m = false ∧ isFrontendRelated m = true) ∧
    (selectAnswerer m = Answerer.generateResponse ↔
      isChelseaRelated m = false ∧ isFrontendRelated m = false) := by
  unfold selectAnswerer
  cases isChelseaRelated m <;> cases isFrontendRelated m <;> decide

theorem getMessageTopic_trim (c sender : JSString) :
    getMessageTopic (trim c) sender = getMessageTopic c sender := by
  have key : ∀ k : JSString, k ≠ [] → (∀ x ∈ k.head?, isWhiteSpace x = false) →
      (∀ x ∈ k.getLast?, isWhiteSpace x = false) →
      includes (toLowerCase (trim c)) k = includes (toLowerCase c) k := by
    intro k h0 h1 h2
    rw [Bool.eq_iff_iff, includes_iff, includes_iff]
    constructor
    · intro h
      obtain ⟨a, b, e, _, _⟩ := trim_split c
      have hsub : trim c <:+: c := ⟨a, b, by rw [List.append_assoc]; exact e.symm⟩
      exact h.trans (infix_toLowerCase hsub)
    · exact infix_lower_trim c k h0 h1 h2
  have hC : hasChelsea (toLowerCase (trim c)) = hasChelsea (toLowerCase c) := by
    rw [Bool.eq_iff_iff, hasChelsea_iff, hasChelsea_iff]
    constructor
    · rintro ⟨k, hk, h⟩
      obtain ⟨k0, k1, k2⟩ := chelseaTerms_shape k hk
      exact ⟨k, hk, by rw [← key k k0 k1 k2]; exact h⟩
    · rintro ⟨k, hk, h⟩
      obtain ⟨k0, k1, k2⟩ := chelseaTerms_shape k hk
      exact ⟨k, hk, by rw [key k k0 k1 k2]; exact h⟩
  have hF : hasFrontend (toLowerCase (trim c)) = hasFrontend (toLowerCase c) := by
    rw [Bool.eq_iff_iff, hasFrontend_iff, hasFrontend_iff]
    constructor
    · rintro ⟨k, hk, h⟩
      obtain ⟨k0, k1, k2⟩ := frontendTerms_shape k hk
      exact ⟨k, hk, by rw [← key k k0 k1 k2]; exact h⟩
    · rintro ⟨k, hk, h⟩
      obtain ⟨k0, k1, k2⟩ := frontendTerms_shape k hk
      exact ⟨k, hk, by rw [key k k0 k1 k2]; exact h⟩
  unfold getMessageTopic
  simp only [hC, hF]

theorem getMessageTopic_not_user (c sender : JSString) (h : sender ≠ userSender) :
    getMessageTopic c sender = Topic.assistant := by
  unfold getMessageTopic
  rw [if_neg h]

theorem getMessageTopic_user_ne_assistant (c : JSString) :
    getMessageTopic c userSender ≠ Topic.assistant := by
  rw [getMessageTopic_user]
  cases hasChelsea (toLowerCase c) <;> cases hasFrontend (toLowerCase c) <;> decide

theorem join_append_singleton (cs : List JSString) (c sep : JSString) (h : cs ≠ []) :
    join (cs ++ [c]) sep = join cs sep ++ (sep ++ c) := by
  induction cs with
  | nil => exact absurd rfl h
  | cons x r ih =>
    cases r with
    | nil =>
      have e1 : join [x] sep = x := by simp [join, List.intercalate, List.intersperse]
      have e2 : join [c] sep = c := by simp [join, List.intercalate, List.intersperse]
      show join (x :: [c]) sep = _
      rw [join_cons_cons, e1, e2]
    | cons y r =>
      show join (x :: (y :: (r ++ [c]))) sep = _
      rw [join_cons_cons, join_cons_cons]
      have := ih (List.cons_ne_nil y r)
      rw [List.cons_append] at this
      rw [this]
      simp only [List.append_assoc]

theorem infix_allContent_append (msgs : List Message) (m : Message) (k : JSString)
    (hk : k ≠ []) (h : k <:+: allContent msgs) : k <:+: allContent (msgs ++ [m]) := by
  cases msgs with
  | nil =>
    have e : allContent [] = [] := rfl
    rw [e] at h
    exact absurd (List.eq_nil_of_infix_nil h) hk
  | cons a r =>
    unfold allContent at h ⊢
    rw [List.map_append, List.map_singleton,
      join_append_singleton _ _ _ (by simp), toLowerCase_append]
    exact h.trans ⟨[], toLowerCase (lit " " ++ m.content), by simp⟩

theorem hasChelsea_append (msgs : List Message) (m : Message)
    (h : hasChelsea (allContent msgs) = true) :
    hasChelsea (allContent (msgs ++ [m])) = true := by
  obtain ⟨k, hk, hin⟩ := (hasChelsea_iff _).1 h
  exact (hasChelsea_iff _).2 ⟨k, hk, (includes_iff _ _).2
    (infix_allContent_append msgs m k (chelseaTerms_shape k hk).1 ((includes_iff _ _).1 hin))⟩

theorem hasFrontend_append (msgs : List Message) (m : Message)
    (h : hasFrontend (allContent msgs) = true) :
    hasFrontend (allContent (msgs ++ [m])) = true := by
  obtain ⟨k, hk, hin⟩ := (hasFrontend_iff _).1 h
  exact (hasFrontend_iff _).2 ⟨k, hk, (includes_iff _ _).2
    (infix_allContent_append msgs m k (frontendTerms_shape k hk).1 ((includes_iff _ _).1 hin))⟩

theorem save_ok_eq (st st1 : Store) (doc d : ChatHistory) (now : Nat)
    (h : save st doc now = (st1, Except.ok d)) : d = committed doc now := by
  cases hv : validate doc with
  | cons a as =>
    rw [save_of_invalid st doc now a (by rw [hv]; exact List.mem_cons_self a as)] at h
    cases (Prod.mk.inj h).2
  | nil =>
    rw [save_of_valid st doc now hv] at h
    exact (Except.ok.inj (Prod.mk.inj h).2).symm

theorem committed_topic_current (doc : ChatHistory) (now : Nat) (h : doc.messages ≠ []) :
    (committed doc now).messages ≠ [] ∧
      (committed doc now).topic = (preSave (committed doc now) 0).topic := by
  have hc := committed_fields doc now
  have hne : (committed doc now).messages ≠ [] := by rw [hc.1]; exact h
  refine ⟨hne, ?_⟩
  rw [hc.2.2.2.2.2.2, preSave_topic doc now h, preSave_topic _ 0 hne, hc.1]

theorem appendAll_topic_invariant (reqs : List AppendRequest) :
    ∀ (st st1 : Store) (doc d1 : ChatHistory), doc.messages ≠ [] →
      doc.topic = (preSave doc 0).topic →
      appendAll st doc reqs = (st1, Except.ok d1) →
      d1.messages ≠ [] ∧ d1.topic = (preSave d1 0).topic ∧
      (hasChelsea (allContent doc.messages) = true →
        hasChelsea (allContent d1.messages) = true) ∧
      (hasFrontend (allContent doc.messages) = true →
        hasFrontend (allContent d1.messages) = true) := by
  induction reqs with
  | nil =>
    intro st st1 doc d1 hne ht h
    have e : (st, (Except.ok doc : Except (List ValidationError) ChatHistory)) =
        (st1, Except.ok d1) := h
    have e2 : doc = d1 := Except.ok.inj (Prod.mk.inj e).2
    rw [← e2]
    exact ⟨hne, ht, fun h => h, fun h => h⟩
  | cons r rs ih =>
    intro st st1 doc d1 hne ht h
    have hstep : (match addMessage st doc r.content r.sender r.metadata r.now with
        | (st2, Except.ok doc2) => appendAll st2 doc2 rs
        | (st2, Except.error e) => (st2, Except.error e)) = (st1, Except.ok d1) := h
    obtain ⟨m, hm, e⟩ := addMessage_eq_save st doc r
    cases hres : addMessage st doc r.content r.sender r.metadata r.now with
    | mk st2 res =>
      cases res with
      | error er =>
        rw [hres] at hstep
        cases (Prod.mk.inj hstep).2
      | ok d2 =>
        rw [hres] at hstep
        have hd2 : d2 = committed (push doc m) r.now :=
          save_ok_eq st st2 _ d2 r.now (e.symm.trans hres)
        have hpm : (push doc m).messages = doc.messages ++ [r.stored] := by
          unfold push; rw [hm]
        have hpne : (push doc m).messages ≠ [] := by rw [hpm]; simp
        have hcur := committed_topic_current (push doc m) r.now hpne
        rw [← hd2] at hcur
        have hmsgs : d2.messages = doc.messages ++ [r.stored] := by
          rw [hd2, (committed_fields _ _).1, hpm]
        obtain ⟨g1, g2, g3, g4⟩ := ih st2 st1 d2 d1 hcur.1 hcur.2 hstep
        refine ⟨g1, g2, fun hc => g3 ?_, fun hf => g4 ?_⟩
        · rw [hmsgs]; exact hasChelsea_append _ _ hc
        · rw [hmsgs]; exact hasFrontend_append _ _ hf

theorem eraseP_find_none {α : Type} (p : α → Bool) (l : List α)
    (h : (l.filter p).length ≤ 1) : (l.eraseP p).find? p = Option.none := by
  induction l with
  | nil => rfl
  | cons a l ih =>
    by_cases ha : p a = true
    · rw [List.eraseP_cons_of_pos ha]
      rw [List.filter_cons_of_pos ha, List.length_cons] at h
      have h0 : l.filter p = [] := List.length_eq_zero.1 (by omega)
      rw [List.find?_eq_none]
      intro x hx hpx
      have : x ∈ l.filter p := List.mem_filter.2 ⟨hx, hpx⟩
      rw [h0] at this
      cases this
    · rw [List.eraseP_cons_of_neg ha, List.find?_cons_of_neg _ ha]
      rw [List.filter_cons_of_neg ha] at h
      exact ih h

theorem eraseP_filter_not {α : Type} (p : α → Bool) (l : List α) :
    (l.eraseP p).filter (fun x => !p x) = l.filter (fun x => !p x) := by
  induction l with
  | nil => rfl
  | cons a l ih =>
    by_cases ha : p a = true
    · rw [List.eraseP_cons_of_pos ha, List.filter_cons_of_neg (by simp [ha])]
    · rw [List.eraseP_cons_of_neg ha]
      simp [List.filter_cons, ha, ih]

theorem eraseP_id_gone (l : List UserRecord) (i : Nat) (h : (l.map (fun u => u._id)).Nodup) :
    ∀ u ∈ l.eraseP (fun u => decide (u._id = i)), u._id ≠ i := by
  induction l with
  | nil => intro u hu; cases hu
  | cons a l ih =>
    rw [List.map_cons, List.nodup_cons] at h
    by_cases ha : a._id = i
    · rw [List.eraseP_cons_of_pos (by simpa using ha)]
      intro u hu e
      apply h.1
      rw [ha, ← e]
      exact List.mem_map_of_mem (fun u => u._id) hu
    · rw [List.eraseP_cons_of_neg (by simpa using ha)]
      intro u hu
      rcases List.mem_cons.1 hu with hu | hu
      · rw [hu]; exact ha
      · exact ih h.2 u hu

theorem adminDeleteUser_success (adminId : Nat) (failAt : Option Nat) (db : Database)
    (userId : Nat) (h : (adminDeleteUser adminId failAt db userId).2.success = true) :
    userId ≠ adminId ∧
    (∃ u, db.users.find? (fun u => decide (u._id = userId)) = Option.some u) ∧
    (adminDeleteUser adminId failAt db userId).1 =
      { users := db.users.eraseP (fun u => decide (u._id = userId)),
        chats := { db.chats with
          docs := db.chats.docs.filter (fun d => !decide (d.user = Option.some userId)) } } ∧
    (adminDeleteUser adminId failAt db userId).2 =
      { status := 200, success := true,
        message := Option.some (lit "User and their chat history deleted successfully"),
        error := Option.none } := by
  unfold adminDeleteUser at h ⊢
  by_cases h1 : userId = adminId
  · rw [if_pos h1] at h; cases h
  · rw [if_neg h1] at h ⊢
    by_cases h2 : failAt = Option.some 0
    · rw [if_pos h2] at h; cases h
    · rw [if_neg h2] at h ⊢
      cases hu : db.users.find? (fun u => decide (u._id = userId)) with
      | none =>
        simp only [hu] at h
        cases h
      | some u =>
        simp only [hu] at h ⊢
        by_cases h3 : failAt = Option.some 1
        · rw [if_pos h3] at h; cases h
        · rw [if_neg h3] at h ⊢
          by_cases h4 : failAt = Option.some 2
          · rw [if_pos h4] at h; cases h
          · rw [if_neg h4]
            exact ⟨h1, ⟨u, rfl⟩, rfl, rfl⟩

theorem adminDeleteUser_ok (adminId : Nat) (db : Database) (userId : Nat)
    (h1 : userId ≠ adminId) (h2 : ∃ u ∈ db.users, u._id = userId) :
    (adminDeleteUser adminId Option.none db userId).2.success = true := by
  obtain ⟨u, hu, hid⟩ := h2
  have hsome : (db.users.find? (fun u => decide (u._id = userId))).isSome = true :=
    List.find?_isSome.2 ⟨u, hu, by simpa using hid⟩
  obtain ⟨v, hv⟩ := Option.isSome_iff_exists.1 hsome
  unfold adminDeleteUser
  rw [if_neg h1, if_neg (by decide)]
  simp only [hv]
  rw [if_neg (by decide), if_neg (by decide)]

theorem find_map_replace (l : List ChatHistory) (p : ChatHistory → Bool)
    (saved doc : ChatHistory) (hps : p saved = true) (hfind : l.find? p = Option.some doc)
    (hid : doc._id = saved._id) :
    (l.map (fun r => if r._id = saved._id then saved else r)).find? p = Option.some saved := by
  induction l with
  | nil => cases hfind
  | cons a l ih =>
    rw [List.map_cons]
    by_cases ha : a._id = saved._id
    · rw [if_pos ha, List.find?_cons_of_pos _ hps]
    · rw [if_neg ha]
      by_cases hpa : p a = true
      · rw [List.find?_cons_of_pos _ hpa] at hfind
        have : a = doc := Option.some.inj hfind
        rw [this] at ha
        exact absurd hid ha
      · rw [List.find?_cons_of_neg _ hpa] at hfind
        rw [List.find?_cons_of_neg _ hpa]
        exact ih hfind

theorem save_push_lookup (st : Store) (doc : ChatHistory) (m : Message) (now : Nat)
    (p : ChatHistory → Bool)
    (hp : ∀ a b : ChatHistory, a.sessionId = b.sessionId → a.user = b.user → p a = p b)
    (hd : validate doc = []) (hm : validateMessage (castMessage m) = [])
    (hcase : (st.docs.find? p = Option.some doc ∧ doc.isNew = false) ∨
      (st.docs.find? p = Option.none ∧ doc.isNew = true ∧ p doc = true)) :
    (save st (push doc m) now).1.docs.find? p = Option.some (committed (push doc m) now) := by
  have hf := committed_push_fields doc m now
  have hpe : p (committed (push doc m) now) = p doc := hp _ _ hf.2.1 hf.2.2.1
  rw [save_of_valid st _ now (validate_push doc m hd hm)]
  rcases hcase with ⟨hfind, hn⟩ | ⟨hfind, hn, hpd⟩
  · have hnn : ¬ (push doc m).isNew = true := by
      intro e
      have e2 : doc.isNew = true := e
      rw [hn] at e2
      cases e2
    rw [if_neg hnn]
    have hpd : p doc = true := List.find?_some hfind
    exact find_map_replace st.docs p _ doc (hpe.trans hpd) hfind
      ((committed_fields (push doc m) now).2.2.1).symm
  · have hnn : (push doc m).isNew = true := hn
    rw [if_pos hnn]
    show (st.docs ++ [committed (push doc m) now]).find? p = _
    rw [List.find?_append, hfind, List.find?_cons_of_pos _ (hpe.trans hpd)]
    rfl

theorem saveMessage_lookup (st : Store) (sid c sender : JSString) (oos err : Bool)
    (now : Nat) (hst : st.wellFormed) (hsid : sid.length ≠ 0) (h0 : (trim c).length ≠ 0)
    (h1 : (trim c).length ≤ 5000) (hs : sender = userSender ∨ sender = assistantSender) :
    (findOne (saveMessage st sid c sender oos err now)
        (fun d => decide (d.sessionId = sid))).map (fun d => d.messages) =
      Option.some
        (((findOne st (fun d => decide (d.sessionId = sid))).map (fun d => d.messages)).getD []
          ++ [{ content := trim c, sender := sender, timestamp := now,
                metadata := { isOutOfScope := oos, isError := err,
                              topic := getMessageTopic c sender } }]) := by
  obtain ⟨doc, e, hdoc⟩ := saveMessage_session st sid c sender oos err now
  have hm : validateMessage (castMessage
      { content := c, sender := sender, timestamp := now,
        metadata := { isOutOfScope := oos, isError := err,
                      topic := getMessageTopic c sender } }) = [] :=
    validateMessage_eq_nil _ h0 h1 hs
  have hp : ∀ a b : ChatHistory, a.sessionId = b.sessionId → a.user = b.user →
      (fun d : ChatHistory => decide (d.sessionId = sid)) a =
        (fun d : ChatHistory => decide (d.sessionId = sid)) b := by
    intro a b h _
    show decide (a.sessionId = sid) = decide (b.sessionId = sid)
    rw [h]
  have hf := committed_push_fields doc
    { content := c, sender := sender, timestamp := now,
      metadata := { isOutOfScope := oos, isError := err,
                    topic := getMessageTopic c sender } } now
  rw [e]
  unfold findOne
  rcases hdoc with hfound | ⟨hnone, hnew⟩
  · have hmem : doc ∈ st.docs := List.mem_of_find?_eq_some hfound
    have hfound2 : st.docs.find? (fun d => decide (d.sessionId = sid)) = Option.some doc :=
      hfound
    rw [save_push_lookup st doc _ now _ hp (hst doc hmem).2 hm
      (Or.inl ⟨hfound2, (hst doc hmem).1⟩), hfound2]
    exact congrArg Option.some (hf.1.trans rfl)
  · have hnone2 : st.docs.find? (fun d => decide (d.sessionId = sid)) = Option.none := hnone
    have hv : validate doc = [] := by
      rw [hnew]; exact validate_newChatHistory _ _ _ _ _ hsid
    have hpd : (fun d : ChatHistory => decide (d.sessionId = sid)) doc = true := by
      rw [hnew]
      show decide (sid = sid) = true
      exact decide_eq_true rfl
    have hn : doc.isNew = true := by rw [hnew]; rfl
    have hmsgs : doc.messages = [] := by rw [hnew]; rfl
    rw [save_push_lookup st doc _ now _ hp hv hm (Or.inr ⟨hnone2, hn, hpd⟩), hnone2]
    exact congrArg Option.some (hf.1.trans (by rw [hmsgs]; rfl))

theorem saveMessageUser_lookup (st : Store) (userId : Nat) (sid c sender : JSString)
    (oos err : Bool) (now : Nat) (hst : st.wellFormed) (hsid : sid.length ≠ 0)
    (h0 : (trim c).length ≠ 0) (h1 : (trim c).length ≤ 5000)
    (hs : sender = userSender ∨ sender = assistantSender) :
    (findOne (saveMessageUser st userId sid c sender oos err now)
        (fun d => decide (d.user = Option.some userId) && decide (d.sessionId = sid))).map
        (fun d => d.messages) =
      Option.some
        (((findOne st (fun d => decide (d.user = Option.some userId) &&
            decide (d.sessionId = sid))).map (fun d => d.messages)).getD []
          ++ [{ content := trim c, sender := sender, timestamp := now,
                metadata := { isOutOfScope := oos, isError := err,
                              topic := getMessageTopic c sender } }]) := by
  obtain ⟨doc, e, hdoc⟩ := saveMessageUser_session st userId sid c sender oos err now
  have hm : validateMessage (castMessage
      { content := c, sender := sender, timestamp := now,
        metadata := { isOutOfScope := oos, isError := err,
                      topic := getMessageTopic c sender } }) = [] :=
    validateMessage_eq_nil _ h0 h1 hs
  have hp : ∀ a b : ChatHistory, a.sessionId = b.sessionId → a.user = b.user →
      (fun d : ChatHistory =>
        decide (d.user = Option.some userId) && decide (d.sessionId = sid)) a =
      (fun d : ChatHistory =>
        decide (d.user = Option.some userId) && decide (d.sessionId = sid)) b := by
    intro a b h h2
    show (decide (a.user = Option.some userId) && decide (a.sessionId = sid)) =
      (decide (b.user = Option.some userId) && decide (b.sessionId = sid))
    rw [h, h2]
  have hf := committed_push_fields doc
    { content := c, sender := sender, timestamp := now,
      metadata := { isOutOfScope := oos, isError := err,
                    topic := getMessageTopic c sender } } now
  rw [e]
  unfold findOne
  rcases hdoc with hfound | ⟨hnone, hnew⟩
  · have hmem : doc ∈ st.docs := List.mem_of_find?_eq_some hfound
    have hfound2 : st.docs.find? (fun d => decide (d.user = Option.some userId) &&
        decide (d.sessionId = sid)) = Option.some doc := hfound
    rw [save_push_lookup st doc _ now _ hp (hst doc hmem).2 hm
      (Or.inl ⟨hfound2, (hst doc hmem).1⟩), hfound2]
    exact congrArg Option.some (hf.1.trans rfl)
  · have hnone2 : st.docs.find? (fun d => decide (d.user = Option.some userId) &&
        decide (d.sessionId = sid)) = Option.none := hnone
    have hv : validate doc = [] := by
      rw [hnew]; exact validate_newChatHistory _ _ _ _ _ hsid
    have hpd : (fun d : ChatHistory =>
        decide (d.user = Option.some userId) && decide (d.sessionId = sid)) doc = true := by
      rw [hnew]
      show (decide (Option.some userId = Option.some userId) && decide (sid = sid)) = true
      rw [decide_eq_true rfl, decide_eq_true rfl]
      rfl
    have hn : doc.isNew = true := by rw [hnew]; rfl
    have hmsgs : doc.messages = [] := by rw [hnew]; rfl
    rw [save_push_lookup st doc _ now _ hp hv hm (Or.inr ⟨hnone2, hn, hpd⟩), hnone2]
    exact congrArg Option.some (hf.1.trans (by rw [hmsgs]; rfl))

theorem chatRoute_two_messages
    (saveMsg : DbFault → Store → JSString → JSString → JSString → Bool → Bool → Nat → Store)
    (filt : JSString → ChatHistory → Bool)
    (hsave : ∀ (st : Store) (sid c sender : JSString) (oos err : Bool) (now : Nat),
      st.wellFormed → sid.length ≠ 0 → (trim c).length ≠ 0 → (trim c).length ≤ 5000 →
      (sender = userSender ∨ sender = assistantSender) →
      (saveMsg DbFault.ok st sid c sender oos err now).wellFormed ∧
      (findOne (saveMsg DbFault.ok st sid c sender oos err now) (filt sid)).map
          (fun d => d.messages) =
        Option.some
          (((findOne st (filt sid)).map (fun d => d.messages)).getD []
            ++ [{ content := trim c, sender := sender, timestamp := now,
                  metadata := { isOutOfScope := oos, isError := err,
                                topic := getMessageTopic c sender } }]))
    (service : OpenAIService) (st : Store) (req : Request) (now : Nat) (m : JSString)
    (hst : st.wellFormed) (hm : req.message = Option.some m)
    (h0 : (trim m).length ≠ 0) (h1 : (trim m).length ≤ 5000)
    (hsid : (req.sessionId.getD (defaultSessionId now)).length ≠ 0)
    (hans : ∀ a, service.call (selectAnswerer m) m = Except.ok a →
      (trim a).length ≠ 0 ∧ (trim a).length ≤ 5000) :
    ∃ reply oos err,
      ((isChelseaRelated m = false ∧ isFrontendRelated m = false ∧
          reply = outOfScopeResponse ∧ oos = true ∧ err = false) ∨
        ((isChelseaRelated m || isFrontendRelated m) = true ∧
          service.call (selectAnswerer m) m = Except.ok reply ∧ oos = false ∧ err = false) ∨
        ((isChelseaRelated m || isFrontendRelated m) = true ∧
          (∃ e, service.call (selectAnswerer m) m = Except.error e) ∧
          reply = errorResponse ∧ oos = false ∧ err = true)) ∧
      (findOne (chatRoute saveMsg service DbFault.ok DbFault.ok st req now).store
          (filt (req.sessionId.getD (defaultSessionId now)))).map (fun d => d.messages) =
        Option.some
          (((findOne st (filt (req.sessionId.getD (defaultSessionId now)))).map
              (fun d => d.messages)).getD []
            ++ [{ content := trim m, sender := userSender, timestamp := now,
                  metadata := { isOutOfScope := false, isError := false,
                                topic := getMessageTopic m userSender } },
                { content := trim reply, sender := assistantSender, timestamp := now,
                  metadata := { isOutOfScope := oos, isError := err,
                                topic := Topic.assistant } }]) := by
  have hnb := not_blank_of_trim m h0
  obtain ⟨hw1, hl1⟩ := hsave st (req.sessionId.getD (defaultSessionId now)) m userSender
    false false now hst hsid h0 h1 (Or.inl rfl)
  have step : ∀ (reply : JSString) (oos err : Bool), (trim reply).length ≠ 0 →
      (trim reply).length ≤ 5000 →
      (findOne (saveMsg DbFault.ok
          (saveMsg DbFault.ok st (req.sessionId.getD (defaultSessionId now)) m userSender
            false false now)
          (req.sessionId.getD (defaultSessionId now)) reply assistantSender oos err now)
          (filt (req.sessionId.getD (defaultSessionId now)))).map (fun d => d.messages) =
        Option.some
          (((findOne st (filt (req.sessionId.getD (defaultSessionId now)))).map
              (fun d => d.messages)).getD []
            ++ [{ content := trim m, sender := userSender, timestamp := now,
                  metadata := { isOutOfScope := false, isError := false,
                                topic := getMessageTopic m userSender } },
                { content := trim reply, sender := assistantSender, timestamp := now,
                  metadata := { isOutOfScope := oos, isError := err,
                                topic := Topic.assistant } }]) := by
    intro reply oos err hr0 hr1
    have h2 := (hsave _ (req.sessionId.getD (defaultSessionId now)) reply assistantSender
      oos err now hw1 hsid hr0 hr1 (Or.inr rfl)).2
    rw [h2, hl1, getMessageTopic_assistant]
    simp only [Option.getD_some, List.append_assoc, List.singleton_append]
  rcases gate_cases m with ⟨hc, hf⟩ | hs
  · refine ⟨outOfScopeResponse, true, false, Or.inl ⟨hc, hf, rfl, rfl, rfl⟩, ?_⟩
    rw [chatRoute_declined saveMsg service DbFault.ok DbFault.ok st req now m hm hnb hc hf]
    have := step outOfScopeResponse true false outOfScopeResponse_valid.2.1
      outOfScopeResponse_valid.2.2
    exact this
  · cases ha : service.call (selectAnswerer m) m with
    | ok answer =>
      refine ⟨answer, false, false, Or.inr (Or.inl ⟨hs, rfl, rfl, rfl⟩), ?_⟩
      rw [chatRoute_answered saveMsg service DbFault.ok DbFault.ok st req now m answer hm hnb
        hs ha]
      exact step answer false false (hans answer ha).1 (hans answer ha).2
    | error e =>
      refine ⟨errorResponse, false, true, Or.inr (Or.inr ⟨hs, ⟨e, rfl⟩, rfl, rfl, rfl⟩), ?_⟩
      rw [chatRoute_failed saveMsg service DbFault.ok DbFault.ok st req now m e hm hnb hs ha]
      exact step errorResponse false true errorResponse_valid.2.1 errorResponse_valid.2.2

/-! ## The four-way classifier -/

/-- C1: a text whose lower-cased form contains a keyword of the narrow Chelsea set and no
keyword of the narrow frontend set is classified `chelsea`. -/
theorem getMessageTopic_chelsea (text : JSString)
    (hc : ∃ k ∈ chelseaTerms, includes (toLowerCase text) k = true)
    (hf : ∀ k ∈ frontendTerms, includes (toLowerCase text) k = false) :
    getMessageTopic text userSender = Topic.chelsea := by
  have h1 := (hasChelsea_iff _).2 hc
  have h2 := (hasFrontend_eq_false_iff _).2 hf
  simp [getMessageTopic_user, h1, h2]

theorem getMessageTopic_chelsea_witness :
    (∃ k ∈ chelseaTerms, includes (toLowerCase (lit "Up the CHELSEA!")) k = true) ∧
    (∀ k ∈ frontendTerms, includes (toLowerCase (lit "Up the CHELSEA!")) k = false) ∧
    getMessageTopic (lit "Up the CHELSEA!") userSender = Topic.chelsea :=
  ⟨by decide, by decide, getMessageTopic_chelsea (lit "Up the CHELSEA!") (by decide) (by decide)⟩

/-- C2: a text whose lower-cased form contains a keyword of the narrow Chelsea set and a
keyword of the narrow frontend set is classified `mixed`; the hypotheses do not mention
positions, so the order of the occurrences is irrelevant. -/
theorem getMessageTopic_mixed (text : JSString)
    (hc : ∃ k ∈ chelseaTerms, includes (toLowerCase text) k = true)
    (hf : ∃ k ∈ frontendTerms, includes (toLowerCase text) k = true) :
    getMessageTopic text userSender = Topic.mixed := by
  have h1 := (hasChelsea_iff _).2 hc
  have h2 := (hasFrontend_iff _).2 hf
  simp [getMessageTopic_user, h1, h2]

theorem getMessageTopic_mixed_witness :
    (getMessageTopic (lit "React at Stamford Bridge") userSender = Topic.mixed) ∧
    (getMessageTopic (lit "Stamford Bridge in React") userSender = Topic.mixed) :=
  ⟨getMessageTopic_mixed (lit "React at Stamford Bridge") (by decide) (by decide),
   getMessageTopic_mixed (lit "Stamford Bridge in React") (by decide) (by decide)⟩

/-- C3: a text matching a narrow frontend keyword and no narrow Chelsea keyword is classified
`frontend`; the result is `general` exactly when no keyword of either narrow set matches;
and the result is always one of `chelsea`, `frontend`, `general`, `mixed`. -/
theorem getMessageTopic_frontend_general (text : JSString) :
    ((∃ k ∈ frontendTerms, includes (toLowerCase text) k = true) →
      (∀ k ∈ chelseaTerms, includes (toLowerCase text) k = false) →
      getMessageTopic text userSender = Topic.frontend) ∧
    (getMessageTopic text userSender = Topic.general ↔
      ∀ k ∈ chelseaTerms ++ frontendTerms, includes (toLowerCase text) k = false) ∧
    (getMessageTopic text userSender = Topic.chelsea ∨
      getMessageTopic text userSender = Topic.frontend ∨
      getMessageTopic text userSender = Topic.general ∨
      getMessageTopic text userSender = Topic.mixed) := by
  have e1 := hasChelsea_eq_false_iff (toLowerCase text)
  have e2 := hasFrontend_eq_false_iff (toLowerCase text)
  have e3 := hasFrontend_iff (toLowerCase text)
  rw [getMessageTopic_user]
  cases hC : hasChelsea (toLowerCase text) <;> cases hF : hasFrontend (toLowerCase text)
  · refine ⟨fun hf _ => ?_, ?_, ?_⟩
    · rw [e3.2 hf] at hF; cases hF
    · simp only [Bool.and_self, Bool.false_eq_true, if_false, true_iff]
      intro k hk
      rcases List.mem_append.1 hk with h | h
      · exact e1.1 hC k h
      · exact e2.1 hF k h
    · simp
  · refine ⟨fun _ _ => by simp, ?_, by simp⟩
    simp only [Bool.false_and, Bool.false_eq_true, if_false, if_true]
    refine ⟨fun h => Topic.noConfusion h, fun h => ?_⟩
    rw [e2.2 (fun k hk => h k (List.mem_append_right _ hk))] at hF
    cases hF
  · refine ⟨fun _ hc => ?_, ?_, by simp⟩
    · rw [e1.2 hc] at hC; cases hC
    · simp only [Bool.and_false, Bool.false_eq_true, if_false, if_true]
      refine ⟨fun h => Topic.noConfusion h, fun h => ?_⟩
      rw [e1.2 (fun k hk => h k (List.mem_append_left _ hk))] at hC
      cases hC
  · refine ⟨fun _ hc => ?_, ?_, by simp⟩
    · rw [e1.2 hc] at hC; cases hC
    · simp only [Bool.and_self, if_true]
      refine ⟨fun h => Topic.noConfusion h, fun h => ?_⟩
      rw [e1.2 (fun k hk => h k (List.mem_append_left _ hk))] at hC
      cases hC

theorem getMessageTopic_frontend_general_witness :
    getMessageTopic (lit "CSS grid") userSender = Topic.frontend :=
  (getMessageTopic_frontend_general (lit "CSS grid")).1 (by decide) (by decide)

/-- C4 as stated fails: upper-casing sharp s gives `SS`, so the text `cß` is classified
`general` while its upper-case form `CSS` is classified `frontend`. -/
theorem getMessageTopic_upper_differs :
    toUpperCase (lit "cß") = lit "CSS" ∧
    getMessageTopic (lit "cß") userSender = Topic.general ∧
    getMessageTopic (toUpperCase (lit "cß")) userSender = Topic.frontend ∧
    getMessageTopic (lit "cß") userSender ≠
      getMessageTopic (toUpperCase (lit "cß")) userSender := by
  decide

/-- C4, amended: lower-casing a text never changes its classification; upper-casing does not
change it when the text consists of Basic Latin code units; and matching is by plain
substring, so a text containing `reaction` (in any letter case) and no Chelsea keyword is
classified `frontend`. -/
theorem getMessageTopic_case_insensitive (t : JSString) :
    getMessageTopic (toLowerCase t) userSender = getMessageTopic t userSender ∧
    ((∀ c ∈ t, c < 128) →
      getMessageTopic (toUpperCase t) userSender = getMessageTopic t userSender) ∧
    ((includes t (lit "reaction") = true ∨
        includes (toLowerCase t) (lit "reaction") = true) →
      (∀ k ∈ chelseaTerms, includes (toLowerCase t) k = false) →
      getMessageTopic t userSender = Topic.frontend) := by
  refine ⟨?_, fun h => ?_, fun hr hc => ?_⟩
  · rw [getMessageTopic_user, getMessageTopic_user, toLowerCase_idem]
  · rw [getMessageTopic_user, getMessageTopic_user, lower_upper_ascii t h]
  · have h1 : lit "reaction" <:+: toLowerCase t := by
      rcases hr with hr | hr
      · have := infix_toLowerCase ((includes_iff _ _).1 hr)
        have e : toLowerCase (lit "reaction") = lit "reaction" := by decide
        rwa [e] at this
      · exact (includes_iff _ _).1 hr
    have h2 : lit "react" <:+: lit "reaction" := ⟨[], lit "ion", by decide⟩
    have h3 : ∃ k ∈ frontendTerms, includes (toLowerCase t) k = true :=
      ⟨lit "react", by decide, (includes_iff _ _).2 (h2.trans h1)⟩
    exact topic_frontend_of t h3 hc

theorem getMessageTopic_case_insensitive_witness :
    getMessageTopic (toUpperCase (lit "My Reaction")) userSender =
      getMessageTopic (lit "My Reaction") userSender ∧
    getMessageTopic (lit "My Reaction") userSender = Topic.frontend :=
  ⟨(getMessageTopic_case_insensitive (lit "My Reaction")).2.1 (by decide),
   (getMessageTopic_case_insensitive (lit "My Reaction")).2.2 (Or.inr (by decide))
     (by decide)⟩

/-! ## Appending messages and saving -/

/-- C5 as stated fails: a content of 5001 code units that ends in a space is trimmed to
5000 code units by the schema, so `addMessage` accepts it and the message is stored. -/
theorem addMessage_accepts_padded_content :
    (List.replicate 5000 97 ++ [32]).length = 5001 ∧
    ((addMessage Store.empty
        (newChatHistory 0 0
          { user := Option.none, sessionId := lit "s1", title := Option.none,
            isPremium := Option.none, messages := [], isAuthenticated := Option.none })
        (List.replicate 5000 97 ++ [32]) userSender
        { isOutOfScope := Option.none, isError := Option.none, topic := Option.none } 1)
      |>.2.toOption.map (fun d => d.messages.map (fun m => m.content.length))) =
      Option.some [5000] ∧
    ((addMessage Store.empty
        (newChatHistory 0 0
          { user := Option.none, sessionId := lit "s1", title := Option.none,
            isPremium := Option.none, messages := [], isAuthenticated := Option.none })
        (List.replicate 5000 97 ++ [32]) userSender
        { isOutOfScope := Option.none, isError := Option.none, topic := Option.none } 1)
      |>.1.docs.map (fun d => d.messages.map (fun m => m.content.length))) = [[5000]] := by
  have ht : trim (List.replicate 5000 97 ++ [32]) = List.replicate 5000 97 := trim_padded 4999
  have hl : (trim (List.replicate 5000 97 ++ [32])).length = 5000 := by
    rw [ht, List.length_replicate]
  have key := addMessage_fresh_session (List.replicate 5000 97 ++ [32])
    (by rw [hl]; exact Nat.succ_ne_zero 4999) (by rw [hl])
  rw [hl] at key
  refine ⟨?_, key.1, key.2⟩
  rw [List.length_append, List.length_replicate]
  rfl

/-- C5, amended: `addMessage` is rejected with a validation error on `content`, and the
collection is left as it was, for every content that is empty, that is empty after trimming,
or that is longer than 5000 code units after trimming. -/
theorem addMessage_rejects_bad_content (st : Store) (doc : ChatHistory)
    (content sender : JSString) (metadata : MetadataArg) (now : Nat)
    (h : content.length = 0 ∨ (trim content).length = 0 ∨ (trim content).length > 5000) :
    ∃ errs, addMessage st doc content sender metadata now = (st, Except.error errs) ∧
      (ValidationError.contentRequired ∈ errs ∨ ValidationError.contentTooLong ∈ errs) := by
  have h1 : (trim content).length = 0 ∨ (trim content).length > 5000 := by
    rcases h with h | h | h
    · left
      have := length_trim_le content
      omega
    · exact Or.inl h
    · exact Or.inr h
  obtain ⟨m, hm, e⟩ := addMessage_eq_save st doc
    { content := content, sender := sender, metadata := metadata, now := now }
  have hmem : castMessage m ∈ (push doc m).messages := by
    unfold push
    exact List.mem_append_right _ (List.mem_singleton_self _)
  have hbad := validateMessage_content (castMessage m) (by rw [hm]; exact h1)
  refine ⟨validate (push doc m), ?_, ?_⟩
  · rcases hbad with hb | hb
    · exact e.trans (save_of_invalid st _ now _ (mem_validate_of_message _ _ _ hmem hb))
    · exact e.trans (save_of_invalid st _ now _ (mem_validate_of_message _ _ _ hmem hb))
  · rcases hbad with hb | hb
    · exact Or.inl (mem_validate_of_message _ _ _ hmem hb)
    · exact Or.inr (mem_validate_of_message _ _ _ hmem hb)

theorem addMessage_rejects_bad_content_witness :
    ∃ errs, addMessage Store.empty
        (newChatHistory 0 0
          { user := Option.none, sessionId := lit "s1", title := Option.none,
            isPremium := Option.none, messages := [], isAuthenticated := Option.none })
        (lit "   ") userSender
        { isOutOfScope := Option.none, isError := Option.none, topic := Option.none } 1 =
        (Store.empty, Except.error errs) ∧
      (ValidationError.contentRequired ∈ errs ∨ ValidationError.contentTooLong ∈ errs) :=
  addMessage_rejects_bad_content Store.empty _ (lit "   ") userSender _ 1
    (Or.inr (Or.inl (by decide)))

/-- C6 as stated fails: the message with content `' hello '` is valid, and after appending it
to a new session and saving, the session has one message whose content is `'hello'`, in
memory and in the collection: the schema's `trim` has changed the appended message. -/
theorem appendAll_trims_content :
    ∃ st1 d, appendAll Store.empty
        (newChatHistory 0 0
          { user := Option.none, sessionId := lit "s1", title := Option.none,
            isPremium := Option.none, messages := [], isAuthenticated := Option.none })
        [{ content := lit " hello ", sender := userSender,
           metadata := { isOutOfScope := Option.none, isError := Option.none,
                         topic := Option.none }, now := 1 }] =
        (st1, Except.ok d) ∧
      validateMessage
        { content := lit " hello ", sender := userSender, timestamp := 1,
          metadata := { isOutOfScope := false, isError := false, topic := Topic.general } } =
        [] ∧
      d.messageCount = 1 ∧
      d.messages.map (fun msg => msg.content) = [lit "hello"] ∧
      d.messages.map (fun msg => msg.content) ≠ [lit " hello "] ∧
      st1.docs.map (fun x => x.messages.map (fun msg => msg.content)) = [[lit "hello"]] :=
  ⟨_, _, rfl, by decide, by decide, by decide, by decide, by decide⟩

/-- C6, amended: appending any number of messages the schema accepts to a newly constructed
session (empty message list, non-empty `sessionId`, title within bounds, an `_id` not yet in
the collection), each append followed by its save, succeeds; the resulting session has
`messageCount` equal to the number of appends and holds one message per append, in the order
of the appends, each being the appended message as the schema casts it, that is with its
content trimmed; and after at least one append whose contents are all well-formed strings,
the session stored under that `_id` has the same count and the same messages. -/
theorem appendAll_count_and_order (st : Store) (_id now : Nat) (init : ChatHistoryInit)
    (reqs : List AppendRequest)
    (hmsgs : init.messages = []) (hsid : init.sessionId.length ≠ 0)
    (htitle : ∀ t, init.title = Option.some t → (trim t).length ≤ 100)
    (hfresh : ∀ x ∈ st.docs, x._id ≠ _id)
    (hvalid : ∀ r ∈ reqs, validateMessage r.stored = []) :
    ∃ st1 d, appendAll st (newChatHistory _id now init) reqs = (st1, Except.ok d) ∧
      d.messageCount = reqs.length ∧
      d.messages = reqs.map AppendRequest.stored ∧
      (reqs ≠ [] → (∀ r ∈ reqs, isWellFormed r.content = true) →
        ∃ x, st1.docs.find? (fun y => decide (y._id = _id)) = Option.some x ∧
          x.messageCount = reqs.length ∧
          x.messages = reqs.map AppendRequest.stored) := by
  have hv : validate (newChatHistory _id now init) = [] := by
    apply validate_eq_nil
    · exact hsid
    · show (match init.title with
        | Option.some t => trim t
        | Option.none => lit "New Chat").length ≤ 100
      cases ht : init.title with
      | none => decide
      | some t => exact htitle t ht
    · exact fun e => Topic.noConfusion e
    · show ∀ m ∈ init.messages.map castMessage, validateMessage m = []
      rw [hmsgs]
      intro m hm
      cases hm
  have hnil : (newChatHistory _id now init).messages = [] := by
    show init.messages.map castMessage = []
    rw [hmsgs]; rfl
  obtain ⟨st1, d, e, hm, _, hrest⟩ := appendAll_stored reqs st (newChatHistory _id now init)
    hv hvalid (fun _ => hfresh) (fun h => Bool.noConfusion h)
  rw [hnil, List.nil_append] at hm
  have hcount : d.messageCount = reqs.length := by
    cases reqs with
    | nil =>
      have e2 : (st1, (Except.ok d : Except (List ValidationError) ChatHistory)) =
          (st, Except.ok (newChatHistory _id now init)) := e.symm.trans rfl
      have e3 : d = newChatHistory _id now init := Except.ok.inj (congrArg Prod.snd e2)
      rw [e3]
      rfl
    | cons r rs =>
      rw [(hrest (List.cons_ne_nil r rs)).1, hm, List.length_map]
  exact ⟨st1, d, e, hcount, hm, fun hne _ => ⟨d, (hrest hne).2, hcount, hm⟩⟩

theorem appendAll_count_and_order_witness :
    ∃ st1 d, appendAll Store.empty
        (newChatHistory 0 0
          { user := Option.none, sessionId := lit "s1", title := Option.none,
            isPremium := Option.none, messages := [], isAuthenticated := Option.none })
        [{ content := lit " hello ", sender := userSender,
           metadata := { isOutOfScope := Option.none, isError := Option.none,
                         topic := Option.none }, now := 1 },
         { content := lit "hi there", sender := assistantSender,
           metadata := { isOutOfScope := Option.none, isError := Option.none,
                         topic := Option.some Topic.assistant }, now := 2 }] =
        (st1, Except.ok d) ∧
      d.messageCount = 2 ∧
      d.messages =
        [{ content := lit "hello", sender := userSender, timestamp := 1,
           metadata := { isOutOfScope := false, isError := false, topic := Topic.general } },
         { content := lit "hi there", sender := assistantSender, timestamp := 2,
           metadata := { isOutOfScope := false, isError := false,
                         topic := Topic.assistant } }] ∧
      ∃ x, st1.docs.find? (fun y => decide (y._id = 0)) = Option.some x ∧
        x.messageCount = 2 ∧
        x.messages =
          [{ content := lit "hello", sender := userSender, timestamp := 1,
             metadata := { isOutOfScope := false, isError := false,
                           topic := Topic.general } },
           { content := lit "hi there", sender := assistantSender, timestamp := 2,
             metadata := { isOutOfScope := false, isError := false,
                           topic := Topic.assistant } }] := by
  obtain ⟨st1, d, e, h1, h2, h3⟩ := appendAll_count_and_order Store.empty 0 0
    { user := Option.none, sessionId := lit "s1", title := Option.none,
      isPremium := Option.none, messages := [], isAuthenticated := Option.none }
    [{ content := lit " hello ", sender := userSender,
       metadata := { isOutOfScope := Option.none, isError := Option.none,
                     topic := Option.none }, now := 1 },
     { content := lit "hi there", sender := assistantSender,
       metadata := { isOutOfScope := Option.none, isError := Option.none,
                     topic := Option.some Topic.assistant }, now := 2 }]
    rfl (by decide) (by intro t ht; cases ht) (by intro x hx; cases hx) (by decide)
  obtain ⟨x, hx, hc, hxm⟩ := h3 (by decide) (by decide)
  refine ⟨st1, d, e, h1, ?_, x, hx, hc, ?_⟩
  · rw [h2]
    decide
  · rw [hxm]
    decide

/-- C7, the code at a failing input: a session constructed without a title takes the schema
default `'New Chat'`, which is not falsy, so the first save of a session whose first message
is the user message `hello` keeps `'New Chat'` instead of deriving `hello`. Only a session
constructed with an explicitly empty title gets the derived title. -/
theorem first_save_keeps_default_title :
    ((saveMessage Store.empty (lit "s1") (lit "hello") userSender false false 1).docs.map
      (fun d => d.title)) = [lit "New Chat"] ∧
    ((save Store.empty
        (push
          (newChatHistory 0 0
            { user := Option.none, sessionId := lit "s1", title := Option.some (lit ""),
              isPremium := Option.none, messages := [], isAuthenticated := Option.none })
          { content := lit "hello", sender := userSender, timestamp := 1,
            metadata := { isOutOfScope := false, isError := false, topic := Topic.general } })
        1).1.docs.map (fun d => d.title)) = [lit "hello"] := by
  decide

/-- C8: for a session that has been saved before (`isNew = false`), a later save, after any
messages have been pushed, leaves the title unchanged: the `pre('save')` middleware keeps
it, a successful save writes a document with the old title in place of the stored one, and
a rejected save leaves the collection as it was. -/
theorem save_keeps_title (st : Store) (doc : ChatHistory) (ms : List Message) (now : Nat)
    (h : doc.isNew = false) :
    (preSave (ms.foldl push doc) now).title = doc.title ∧
    (∀ st1 d, save st (ms.foldl push doc) now = (st1, Except.ok d) →
      d.title = doc.title ∧
      st1.docs = st.docs.map (fun x => if x._id = doc._id then d else x)) ∧
    (∀ st1 e, save st (ms.foldl push doc) now = (st1, Except.error e) → st1 = st) := by
  obtain ⟨hn, ht, hid⟩ := foldl_push_frame ms doc
  have hn2 : (ms.foldl push doc).isNew = false := hn.trans h
  have hpre : (preSave (ms.foldl push doc) now).title = doc.title :=
    (preSave_title_of_not_new _ now hn2).trans ht
  have hcid : (committed (ms.foldl push doc) now)._id = doc._id :=
    (committed_fields _ now).2.2.1.trans hid
  refine ⟨hpre, ?_, ?_⟩
  · intro st1 d e
    cases hv : validate (ms.foldl push doc) with
    | nil =>
      rw [save_of_valid st _ now hv, if_neg (by rw [hn2]; exact Bool.false_ne_true)] at e
      obtain ⟨e2, e3⟩ := Prod.mk.inj e
      have e1 : committed (ms.foldl push doc) now = d := Except.ok.inj e3
      subst e2
      subst e1
      refine ⟨hpre, ?_⟩
      show st.docs.map (fun r =>
        if r._id = (committed (ms.foldl push doc) now)._id then
          committed (ms.foldl push doc) now else r) = _
      rw [hcid]
    | cons a as =>
      rw [save_of_invalid st _ now a (by rw [hv]; exact List.mem_cons_self a as)] at e
      cases congrArg Prod.snd e
  · intro st1 e he
    cases hv : validate (ms.foldl push doc) with
    | nil =>
      rw [save_of_valid st _ now hv] at he
      cases congrArg Prod.snd he
    | cons a as =>
      rw [save_of_invalid st _ now a (by rw [hv]; exact List.mem_cons_self a as)] at he
      exact (congrArg Prod.fst he).symm

theorem save_keeps_title_witness :
    (preSave
      ([{ content := lit "React hooks", sender := userSender, timestamp := 5,
          metadata := { isOutOfScope := false, isError := false,
                        topic := Topic.frontend } }].foldl push
        (committed
          (newChatHistory 0 0
            { user := Option.none, sessionId := lit "s1", title := Option.some (lit "My chat"),
              isPremium := Option.none, messages := [], isAuthenticated := Option.none }) 1))
      6).title = lit "My chat" :=
  (save_keeps_title Store.empty
    (committed
      (newChatHistory 0 0
        { user := Option.none, sessionId := lit "s1", title := Option.some (lit "My chat"),
          isPremium := Option.none, messages := [], isAuthenticated := Option.none }) 1)
    [{ content := lit "React hooks", sender := userSender, timestamp := 5,
       metadata := { isOutOfScope := false, isError := false, topic := Topic.frontend } }]
    6 rfl).1

/-- C9: the topic is recomputed from the whole history. When some stored message of a valid
session matches a narrow Chelsea keyword, appending a message the schema accepts whose
content matches a narrow frontend keyword succeeds and the saved session has topic `mixed`
(whatever the earlier history matched on the frontend side), although the new message on its
own is classified `frontend` when it matches no Chelsea keyword. -/
theorem addMessage_topic_mixed (st : Store) (doc : ChatHistory) (r : AppendRequest)
    (hd : validate doc = []) (hr : validateMessage r.stored = [])
    (hC : ∃ m ∈ doc.messages, ∃ k ∈ chelseaTerms, includes (toLowerCase m.content) k = true)
    (hF : ∃ k ∈ frontendTerms, includes (toLowerCase r.content) k = true) :
    (∃ st1 d, addMessage st doc r.content r.sender r.metadata r.now = (st1, Except.ok d) ∧
      d.topic = Topic.mixed ∧ d.messages = doc.messages ++ [r.stored] ∧
      (doc.isNew = true → st1.docs = st.docs ++ [d]) ∧
      (doc.isNew = false →
        st1.docs = st.docs.map (fun x => if x._id = d._id then d else x))) ∧
    ((∀ k ∈ chelseaTerms, includes (toLowerCase r.content) k = false) →
      getMessageTopic r.content userSender = Topic.frontend) := by
  refine ⟨?_, fun hc => topic_frontend_of r.content hF hc⟩
  obtain ⟨st1, d, e, hm, _, _, _, _, _, htopic, hins, hupd⟩ := addMessage_stored st doc r hd hr
  refine ⟨st1, d, e, ?_, hm, hins, hupd⟩
  have hne : doc.messages ++ [r.stored] ≠ [] := by simp
  have hch : hasChelsea (allContent (doc.messages ++ [r.stored])) = true := by
    obtain ⟨m, hm1, k, hk, hin⟩ := hC
    exact (hasChelsea_iff _).2 ⟨k, hk, (includes_iff _ _).2
      (infix_allContent _ m k (List.mem_append_left _ hm1) ((includes_iff _ _).1 hin))⟩
  have hfr : hasFrontend (allContent (doc.messages ++ [r.stored])) = true := by
    obtain ⟨k, hk, hin⟩ := hF
    obtain ⟨k0, k1, k2⟩ := frontendTerms_shape k hk
    have h1 : k <:+: toLowerCase r.stored.content :=
      infix_lower_trim r.content k k0 k1 k2 ((includes_iff _ _).1 hin)
    exact (hasFrontend_iff _).2 ⟨k, hk, (includes_iff _ _).2
      (infix_allContent _ r.stored k (List.mem_append_right _ (List.mem_singleton_self _)) h1)⟩
  rw [htopic, preSave_topic _ _ hne]
  show (if hasChelsea (allContent (doc.messages ++ [r.stored])) &&
      hasFrontend (allContent (doc.messages ++ [r.stored])) then Topic.mixed
    else if hasChelsea (allContent (doc.messages ++ [r.stored])) then Topic.chelsea
    else if hasFrontend (allContent (doc.messages ++ [r.stored])) then Topic.frontend
    else Topic.general) = Topic.mixed
  rw [hch, hfr]
  rfl

theorem addMessage_topic_mixed_witness :
    ∃ st1 d, addMessage Store.empty
        (push
          (newChatHistory 0 0
            { user := Option.none, sessionId := lit "s1", title := Option.none,
              isPremium := Option.none, messages := [], isAuthenticated := Option.none })
          { content := lit "Chelsea won", sender := userSender, timestamp := 1,
            metadata := { isOutOfScope := false, isError := false, topic := Topic.chelsea } })
        (lit "Now some React") userSender
        { isOutOfScope := Option.none, isError := Option.none,
          topic := Option.some Topic.frontend } 2 = (st1, Except.ok d) ∧
      d.topic = Topic.mixed :=
  match (addMessage_topic_mixed Store.empty
    (push
      (newChatHistory 0 0
        { user := Option.none, sessionId := lit "s1", title := Option.none,
          isPremium := Option.none, messages := [], isAuthenticated := Option.none })
      { content := lit "Chelsea won", sender := userSender, timestamp := 1,
        metadata := { isOutOfScope := false, isError := false, topic := Topic.chelsea } })
    { content := lit "Now some React", sender := userSender,
      metadata := { isOutOfScope := Option.none, isError := Option.none,
                    topic := Option.some Topic.frontend }, now := 2 }
    (by decide) (by decide) (by decide) (by decide)).1 with
  | ⟨st1, d, e, ht, _⟩ => ⟨st1, d, e, ht⟩

/-- C10 as stated fails: after the first message of the scenario the stored topic is
`general`, not `chelsea` (`enzo` is not a narrow Chelsea keyword), and after the second
message it is `frontend`, not `mixed`. -/
theorem scenario_topics_differ :
    ((saveMessage Store.empty (lit "S1") (lit "Tell me about Enzo Fernández") userSender
        false false 1).docs.map (fun d => d.topic)) = [Topic.general] ∧
    ((saveMessage
        (saveMessage Store.empty (lit "S1") (lit "Tell me about Enzo Fernández") userSender
          false false 1)
        (lit "S1") (lit "How do I animate with GSAP?") userSender false false 2).docs.map
      (fun d => d.topic)) = [Topic.frontend] := by
  decide

/-- C10, amended: on a newly created session, saving the user message
`Tell me about Enzo Fernández` gives one stored session with topic `general` and
`messageCount = 1`; saving the user message `How do I animate with GSAP?` next gives topic
`frontend` and `messageCount = 2`, with both messages stored in that order. -/
theorem scenario_enzo_gsap :
    ((saveMessage Store.empty (lit "S1") (lit "Tell me about Enzo Fernández") userSender
        false false 1).docs.map (fun d => d.sessionId)) = [lit "S1"] ∧
    ((saveMessage Store.empty (lit "S1") (lit "Tell me about Enzo Fernández") userSender
        false false 1).docs.map (fun d => d.topic)) = [Topic.general] ∧
    ((saveMessage Store.empty (lit "S1") (lit "Tell me about Enzo Fernández") userSender
        false false 1).docs.map (fun d => d.messageCount)) = [1] ∧
    ((saveMessage
        (saveMessage Store.empty (lit "S1") (lit "Tell me about Enzo Fernández") userSender
          false false 1)
        (lit "S1") (lit "How do I animate with GSAP?") userSender false false 2).docs.map
      (fun d => d.topic)) = [Topic.frontend] ∧
    ((saveMessage
        (saveMessage Store.empty (lit "S1") (lit "Tell me about Enzo Fernández") userSender
          false false 1)
        (lit "S1") (lit "How do I animate with GSAP?") userSender false false 2).docs.map
      (fun d => d.messageCount)) = [2] ∧
    ((saveMessage
        (saveMessage Store.empty (lit "S1") (lit "Tell me about Enzo Fernández") userSender
          false false 1)
        (lit "S1") (lit "How do I animate with GSAP?") userSender false false 2).docs.map
      (fun d => d.messages.map (fun m => m.content))) =
      [[lit "Tell me about Enzo Fernández", lit "How do I animate with GSAP?"]] := by
  decide

/-! ## Sessions, owners and the two routes -/

/-- C11: when no session with the given `sessionId` exists yet, saving an accepted message
through the anonymous `saveMessage` creates a record without user and with
`isAuthenticated = false`; using the same `sessionId` afterwards through the authenticated
`saveMessage` with a present user, the lookup by user and `sessionId` finds nothing and a
second record with another `_id`, owned by that user and with `isAuthenticated = true`, is
added after the anonymous record, which stays as it was. -/
theorem anonymous_then_authenticated (st : Store) (sid c1 c2 : JSString) (userId t1 t2 : Nat)
    (hsid : sid.length ≠ 0) (hfresh : ∀ d ∈ st.docs, d.sessionId ≠ sid)
    (h1 : (trim c1).length ≠ 0 ∧ (trim c1).length ≤ 5000)
    (h2 : (trim c2).length ≠ 0 ∧ (trim c2).length ≤ 5000) :
    ∃ anon owned : ChatHistory,
      saveMessage st sid c1 userSender false false t1 =
        { docs := st.docs ++ [anon], nextId := st.nextId + 1 } ∧
      anon.user = Option.none ∧ anon.isAuthenticated = false ∧ anon.sessionId = sid ∧
      findOne (saveMessage st sid c1 userSender false false t1)
        (fun d => decide (d.user = Option.some userId) && decide (d.sessionId = sid)) =
        Option.none ∧
      saveMessageUser (saveMessage st sid c1 userSender false false t1) userId sid c2
        userSender false false t2 =
        { docs := st.docs ++ [anon, owned], nextId := st.nextId + 2 } ∧
      owned.user = Option.some userId ∧ owned.isAuthenticated = true ∧
      owned.sessionId = sid ∧ owned._id ≠ anon._id := by
  have hn1 : findOne st (fun d => decide (d.sessionId = sid)) = Option.none := by
    unfold findOne
    rw [List.find?_eq_none]
    intro x hx
    simpa using hfresh x hx
  have e1 := saveMessage_inserts st sid c1 userSender false false t1 hn1 hsid h1.1 h1.2
    (Or.inl rfl)
  obtain ⟨anon, ha⟩ : ∃ anon, anon = committed (push
      (newChatHistory st.nextId t1
        { user := Option.none, sessionId := sid, title := Option.none,
          isPremium := Option.some false, messages := [],
          isAuthenticated := Option.some false })
      { content := c1, sender := userSender, timestamp := t1,
        metadata := { isOutOfScope := false, isError := false,
                      topic := getMessageTopic c1 userSender } }) t1 := ⟨_, rfl⟩
  rw [← ha] at e1
  have hau : anon.user = Option.none := by rw [ha]; exact (committed_auth _ _).2
  have hai : anon.isAuthenticated = false := by rw [ha]; exact (committed_auth _ _).1
  have has : anon.sessionId = sid := by rw [ha]; exact (committed_fields _ _).2.2.2.1
  have haid : anon._id = st.nextId := by rw [ha]; exact (committed_fields _ _).2.2.1
  have hn2 : findOne { docs := st.docs ++ [anon], nextId := st.nextId + 1 }
      (fun d => decide (d.user = Option.some userId) && decide (d.sessionId = sid)) =
      Option.none := by
    unfold findOne
    rw [List.find?_eq_none]
    intro x hx
    rcases List.mem_append.1 hx with hx | hx
    · have := hfresh x hx
      simp [this]
    · rw [List.mem_singleton.1 hx]
      simp [hau]
  have e2 := saveMessageUser_inserts { docs := st.docs ++ [anon], nextId := st.nextId + 1 }
    userId sid c2 userSender false false t2 hn2 hsid h2.1 h2.2 (Or.inl rfl)
  obtain ⟨owned, ho⟩ : ∃ owned, owned = committed (push
      (newChatHistory (st.nextId + 1) t2
        { user := Option.some userId, sessionId := sid, title := Option.none,
          isPremium := Option.some false, messages := [],
          isAuthenticated := Option.some true })
      { content := c2, sender := userSender, timestamp := t2,
        metadata := { isOutOfScope := false, isError := false,
                      topic := getMessageTopic c2 userSender } }) t2 := ⟨_, rfl⟩
  have e3 : saveMessageUser { docs := st.docs ++ [anon], nextId := st.nextId + 1 }
      userId sid c2 userSender false false t2 =
      { docs := st.docs ++ [anon, owned], nextId := st.nextId + 2 } := by
    rw [e2, ho]
    show ({ docs := (st.docs ++ [anon]) ++ _, nextId := st.nextId + 1 + 1 } : Store) = _
    rw [List.append_assoc]
    rfl
  have hou : owned.user = Option.some userId := by rw [ho]; exact (committed_auth _ _).2
  have hoi : owned.isAuthenticated = true := by rw [ho]; exact (committed_auth _ _).1
  have hos : owned.sessionId = sid := by rw [ho]; exact (committed_fields _ _).2.2.2.1
  have hoid : owned._id = st.nextId + 1 := by rw [ho]; exact (committed_fields _ _).2.2.1
  refine ⟨anon, owned, e1, hau, hai, has, ?_, ?_, hou, hoi, hos, ?_⟩
  · rw [e1]; exact hn2
  · rw [e1]; exact e3
  · rw [hoid, haid]; exact Nat.succ_ne_self _

theorem anonymous_then_authenticated_witness :
    ∃ anon owned : ChatHistory,
      saveMessageUser
        (saveMessage Store.empty (lit "s1") (lit "hello") userSender false false 1) 7
        (lit "s1") (lit "hello again") userSender false false 2 =
        { docs := [anon, owned], nextId := 2 } ∧
      anon.user = Option.none ∧ owned.user = Option.some 7 :=
  match anonymous_then_authenticated Store.empty (lit "s1") (lit "hello") (lit "hello again")
    7 1 2 (by decide) (fun d hd => nomatch hd) (by decide) (by decide) with
  | ⟨anon, owned, _, h1, _, _, _, h2, h3, _⟩ => ⟨anon, owned, h2, h1, h3⟩

/-- C12, the code at a failing input: user 7 saves a message under `sessionId` `s1` through
the authenticated route, then a message arrives under `s1` on the anonymous route. The
anonymous lookup `findOne({ sessionId })` returns the record owned by user 7, and the
anonymous message is appended to it; no anonymous record is created. -/
theorem anonymous_message_joins_owned_session :
    ((saveMessage
        (saveMessageUser Store.empty 7 (lit "s1") (lit "my question") userSender false false 1)
        (lit "s1") (lit "anonymous text") userSender false false 2).docs.map
      (fun d => d.user)) = [Option.some 7] ∧
    ((saveMessage
        (saveMessageUser Store.empty 7 (lit "s1") (lit "my question") userSender false false 1)
        (lit "s1") (lit "anonymous text") userSender false false 2).docs.map
      (fun d => d.messages.map (fun m => m.content))) =
      [[lit "my question", lit "anonymous text"]] := by
  decide

/-- C14: a successful save writes a document whose `isAuthenticated` is true exactly when
its `user` reference is present, whatever the flag was before; the user reference is the
one the document had, and the written document is the one inserted or put in place of the
stored one. -/
theorem save_sets_isAuthenticated (st st1 : Store) (doc d : ChatHistory) (now : Nat)
    (h : save st doc now = (st1, Except.ok d)) :
    (d.isAuthenticated = true ↔ d.user ≠ Option.none) ∧ d.user = doc.user ∧
    (doc.isNew = true → st1.docs = st.docs ++ [d]) ∧
    (doc.isNew = false →
      st1.docs = st.docs.map (fun x => if x._id = d._id then d else x)) := by
  cases hv : validate doc with
  | cons a as =>
    rw [save_of_invalid st doc now a (by rw [hv]; exact List.mem_cons_self a as)] at h
    cases (Prod.mk.inj h).2
  | nil =>
    rw [save_of_valid st doc now hv] at h
    obtain ⟨e1, e2⟩ := Prod.mk.inj h
    have e3 : committed doc now = d := Except.ok.inj e2
    subst e3
    subst e1
    have ha := committed_auth doc now
    refine ⟨?_, ha.2, ?_, ?_⟩
    · rw [ha.1, ha.2]
      cases doc.user <;> simp
    · intro hn
      rw [if_pos hn]
    · intro hn
      rw [if_neg (by rw [hn]; exact Bool.false_ne_true)]

theorem save_sets_isAuthenticated_witness :
    ((committed
        (newChatHistory 0 0
          { user := Option.none, sessionId := lit "s1", title := Option.none,
            isPremium := Option.none, messages := [],
            isAuthenticated := Option.some true }) 1).isAuthenticated = true ↔
      (committed
        (newChatHistory 0 0
          { user := Option.none, sessionId := lit "s1", title := Option.none,
            isPremium := Option.none, messages := [],
            isAuthenticated := Option.some true }) 1).user ≠ Option.none) :=
  (save_sets_isAuthenticated Store.empty _
    (newChatHistory 0 0
      { user := Option.none, sessionId := lit "s1", title := Option.none,
        isPremium := Option.none, messages := [], isAuthenticated := Option.some true })
    _ 1 (save_of_valid Store.empty _ 1 (by decide))).1

/-- C15: for a session with at least one message, the topic a successful save stores equals
`getMessageTopic` applied, with sender `'user'`, to the message contents joined by single
spaces. -/
theorem save_topic_is_classifier (st st1 : Store) (doc d : ChatHistory) (now : Nat)
    (hne : doc.messages ≠ []) (h : save st doc now = (st1, Except.ok d)) :
    d.topic =
      getMessageTopic (join (d.messages.map (fun msg => msg.content)) (lit " ")) userSender := by
  cases hv : validate doc with
  | cons a as =>
    rw [save_of_invalid st doc now a (by rw [hv]; exact List.mem_cons_self a as)] at h
    cases (Prod.mk.inj h).2
  | nil =>
    rw [save_of_valid st doc now hv] at h
    have e3 : committed doc now = d := Except.ok.inj (Prod.mk.inj h).2
    subst e3
    have hc := committed_fields doc now
    rw [hc.2.2.2.2.2.2, hc.1, preSave_topic doc now hne, getMessageTopic_user]
    rfl

theorem save_topic_is_classifier_witness :
    (committed
      (push
        (newChatHistory 0 0
          { user := Option.none, sessionId := lit "s1", title := Option.none,
            isPremium := Option.none, messages := [], isAuthenticated := Option.none })
        { content := lit "Chelsea and React", sender := userSender, timestamp := 1,
          metadata := { isOutOfScope := false, isError := false, topic := Topic.mixed } })
      1).topic =
    getMessageTopic
      (join
        ((committed
          (push
            (newChatHistory 0 0
              { user := Option.none, sessionId := lit "s1", title := Option.none,
                isPremium := Option.none, messages := [], isAuthenticated := Option.none })
            { content := lit "Chelsea and React", sender := userSender, timestamp := 1,
              metadata := { isOutOfScope := false, isError := false, topic := Topic.mixed } })
          1).messages.map (fun msg => msg.content)) (lit " ")) userSender :=
  save_topic_is_classifier Store.empty _
    (push
      (newChatHistory 0 0
        { user := Option.none, sessionId := lit "s1", title := Option.none,
          isPremium := Option.none, messages := [], isAuthenticated := Option.none })
      { content := lit "Chelsea and React", sender := userSender, timestamp := 1,
        metadata := { isOutOfScope := false, isError := false, topic := Topic.mixed } })
    _ 1 (by decide) (save_of_valid Store.empty _ 1 (by decide))

/-! ## The chat route -/

set_option maxRecDepth 100000 in
/-- C13 as stated fails: for the in-scope message `chelsea` and a failing answer generator
the route answers with status 500 and `success: false`, not with success. -/
theorem generator_failure_reported :
    (postMessage
      { answerChelseaQuestion := fun _ => Except.error (lit "Rate limit exceeded."),
        answerFrontendQuestion := fun _ => Except.error (lit "Rate limit exceeded."),
        generateResponse := fun _ => Except.error (lit "Rate limit exceeded.") }
      DbFault.ok DbFault.ok Store.empty
      { message := Option.some (lit "chelsea"), sessionId := Option.some (lit "s1") }
      1).response =
    { status := 500, success := false, response := Option.none, isOutOfScope := Option.none,
      sessionId := Option.none, timestamp := Option.none,
      error := Option.some errorResponse } := by
  decide

/-- C13, amended: for every non-blank in-scope message for which the chosen method of the
answer generator throws, both routes answer with status 500, `success: false` and the fixed
apology text as `error`; and when the collection is well formed, the session id is not empty
and the second `saveMessage` meets no database fault, the session of that id ends with an
assistant message holding the apology text with `isError = true` and
`isOutOfScope = false`. -/
theorem generator_failure_handled (userId : Nat) (service : OpenAIService) (f1 f2 : DbFault)
    (st : Store) (req : Request) (now : Nat) (m e : JSString)
    (hm : req.message = Option.some m) (hb : (trim m).length ≠ 0)
    (hs : (isChelseaRelated m || isFrontendRelated m) = true)
    (ha : service.call (selectAnswerer m) m = Except.error e) :
    (postMessage service f1 f2 st req now).response =
      { status := 500, success := false, response := Option.none,
        isOutOfScope := Option.none, sessionId := Option.none, timestamp := Option.none,
        error := Option.some errorResponse } ∧
    (postMessageUser userId service f1 f2 st req now).response =
      { status := 500, success := false, response := Option.none,
        isOutOfScope := Option.none, sessionId := Option.none, timestamp := Option.none,
        error := Option.some errorResponse } ∧
    (st.wellFormed → (req.sessionId.getD (defaultSessionId now)).length ≠ 0 →
      ∃ d ∈ (postMessage service f1 DbFault.ok st req now).store.docs,
        d.sessionId = req.sessionId.getD (defaultSessionId now) ∧
        d.messages.getLast? = Option.some
          { content := errorResponse, sender := assistantSender, timestamp := now,
            metadata := { isOutOfScope := false, isError := true,
                          topic := Topic.assistant } }) ∧
    (st.wellFormed → (req.sessionId.getD (defaultSessionId now)).length ≠ 0 →
      ∃ d ∈ (postMessageUser userId service f1 DbFault.ok st req now).store.docs,
        d.sessionId = req.sessionId.getD (defaultSessionId now) ∧
        d.user = Option.some userId ∧
        d.messages.getLast? = Option.some
          { content := errorResponse, sender := assistantSender, timestamp := now,
            metadata := { isOutOfScope := false, isError := true,
                          topic := Topic.assistant } }) := by
  have hnb := not_blank_of_trim m hb
  refine ⟨?_, ?_, fun hst hsid => ?_, fun hst hsid => ?_⟩
  · unfold postMessage
    rw [chatRoute_failed _ service f1 f2 st req now m e hm hnb hs ha]
  · unfold postMessageUser
    rw [chatRoute_failed _ service f1 f2 st req now m e hm hnb hs ha]
  · unfold postMessage
    rw [chatRoute_failed _ service f1 DbFault.ok st req now m e hm hnb hs ha]
    exact reply_appended f1 st _ m errorResponse false true now hst hsid errorResponse_valid
  · unfold postMessageUser
    rw [chatRoute_failed _ service f1 DbFault.ok st req now m e hm hnb hs ha]
    exact reply_appended_user userId f1 st _ m errorResponse false true now hst hsid
      errorResponse_valid

theorem generator_failure_handled_witness :
    ∃ d ∈ (postMessage
        { answerChelseaQuestion := fun _ => Except.error (lit "Rate limit exceeded."),
          answerFrontendQuestion := fun _ => Except.error (lit "Rate limit exceeded."),
          generateResponse := fun _ => Except.error (lit "Rate limit exceeded.") }
        DbFault.ok DbFault.ok Store.empty
        { message := Option.some (lit "chelsea"), sessionId := Option.some (lit "s1") }
        1).store.docs,
      d.sessionId = lit "s1" ∧
      d.messages.getLast? = Option.some
        { content := errorResponse, sender := assistantSender, timestamp := 1,
          metadata := { isOutOfScope := false, isError := true, topic := Topic.assistant } } :=
  (generator_failure_handled 7
    { answerChelseaQuestion := fun _ => Except.error (lit "Rate limit exceeded."),
      answerFrontendQuestion := fun _ => Except.error (lit "Rate limit exceeded."),
      generateResponse := fun _ => Except.error (lit "Rate limit exceeded.") }
    DbFault.ok DbFault.ok Store.empty
    { message := Option.some (lit "chelsea"), sessionId := Option.some (lit "s1") }
    1 (lit "chelsea") (lit "Rate limit exceeded.") rfl (by decide) (by decide)
    (by generalize selectAnswerer (lit "chelsea") = a; cases a <;> rfl)).2.2.1
    (fun d hd => nomatch hd) (by decide)

/-- C16: the gate uses the broad lists of 17 Chelsea terms and 16 frontend terms. For every
non-blank message both routes answer `isOutOfScope: true` exactly when the lower-cased
message contains no term of either list; the decision does not consult the 4-way tag:
`player` and `code` are accepted as in scope while `getMessageTopic` tags them
`general`. -/
theorem gate_is_binary_and_broad (userId : Nat) (service : OpenAIService) (f1 f2 : DbFault)
    (st : Store) (req : Request) (now : Nat) (m : JSString)
    (hm : req.message = Option.some m) (hb : (trim m).length ≠ 0) :
    routeChelseaTerms.length = 17 ∧ routeFrontendTerms.length = 16 ∧
    ((postMessage service f1 f2 st req now).response.isOutOfScope = Option.some true ↔
      (∀ k ∈ routeChelseaTerms, includes (toLowerCase m) k = false) ∧
      (∀ k ∈ routeFrontendTerms, includes (toLowerCase m) k = false)) ∧
    ((postMessageUser userId service f1 f2 st req now).response.isOutOfScope =
        Option.some true ↔
      (∀ k ∈ routeChelseaTerms, includes (toLowerCase m) k = false) ∧
      (∀ k ∈ routeFrontendTerms, includes (toLowerCase m) k = false)) ∧
    (isChelseaRelated (lit "player") = true ∧
      getMessageTopic (lit "player") userSender = Topic.general) ∧
    (isFrontendRelated (lit "code") = true ∧
      getMessageTopic (lit "code") userSender = Topic.general) := by
  have hnb := not_blank_of_trim m hb
  have key : ∀ saveMsg : DbFault → Store → JSString → JSString → JSString → Bool → Bool →
      Nat → Store,
      ((chatRoute saveMsg service f1 f2 st req now).response.isOutOfScope = Option.some true ↔
        (∀ k ∈ routeChelseaTerms, includes (toLowerCase m) k = false) ∧
        (∀ k ∈ routeFrontendTerms, includes (toLowerCase m) k = false)) := by
    intro saveMsg
    rw [← isChelseaRelated_eq_false_iff, ← isFrontendRelated_eq_false_iff]
    rcases gate_cases m with ⟨hc, hf⟩ | hs
    · rw [chatRoute_declined saveMsg service f1 f2 st req now m hm hnb hc hf]
      exact ⟨fun _ => ⟨hc, hf⟩, fun _ => rfl⟩
    · have hno : ¬ (isChelseaRelated m = false ∧ isFrontendRelated m = false) := by
        intro h
        rw [h.1, h.2] at hs
        cases hs
      cases ha : service.call (selectAnswerer m) m with
      | ok answer =>
        rw [chatRoute_answered saveMsg service f1 f2 st req now m answer hm hnb hs ha]
        exact ⟨fun h => Option.noConfusion h (fun h2 => Bool.noConfusion h2), fun h => absurd h hno⟩
      | error er =>
        rw [chatRoute_failed saveMsg service f1 f2 st req now m er hm hnb hs ha]
        exact ⟨fun h => Option.noConfusion h, fun h => absurd h hno⟩
  exact ⟨by decide, by decide, key _, key _, by decide, by decide⟩

theorem gate_is_binary_and_broad_witness :
    (postMessage
      { answerChelseaQuestion := fun _ => Except.ok (lit "He is a midfielder."),
        answerFrontendQuestion := fun _ => Except.ok (lit "Use a hook."),
        generateResponse := fun _ => Except.ok (lit "Hello.") }
      DbFault.ok DbFault.ok Store.empty
      { message := Option.some (lit "What is the weather?"),
        sessionId := Option.some (lit "s1") } 1).response.isOutOfScope = Option.some true :=
  (gate_is_binary_and_broad 7
    { answerChelseaQuestion := fun _ => Except.ok (lit "He is a midfielder."),
      answerFrontendQuestion := fun _ => Except.ok (lit "Use a hook."),
      generateResponse := fun _ => Except.ok (lit "Hello.") }
    DbFault.ok DbFault.ok Store.empty
    { message := Option.some (lit "What is the weather?"),
      sessionId := Option.some (lit "s1") } 1 (lit "What is the weather?") rfl
    (by decide)).2.2.1.2 ⟨by decide, by decide⟩

set_option maxRecDepth 100000 in
/-- C17 as stated fails: for the out-of-scope message `What is the weather?` sent with the
empty string as `sessionId`, both routes answer `success: true` with the decline text, while
each `saveMessage` is rejected by the `required` validator of `sessionId` and the rejection
is swallowed: no assistant message is appended, the collection stays empty. -/
theorem out_of_scope_reply_not_stored :
    (postMessage
      { answerChelseaQuestion := fun _ => Except.ok (lit "He is a midfielder."),
        answerFrontendQuestion := fun _ => Except.ok (lit "Use a hook."),
        generateResponse := fun _ => Except.ok (lit "Hello.") }
      DbFault.ok DbFault.ok Store.empty
      { message := Option.some (lit "What is the weather?"),
        sessionId := Option.some (lit "") } 1).response =
      { status := 200, success := true, response := Option.some outOfScopeResponse,
        isOutOfScope := Option.some true, sessionId := Option.some (lit ""),
        timestamp := Option.none, error := Option.none } ∧
    (postMessage
      { answerChelseaQuestion := fun _ => Except.ok (lit "He is a midfielder."),
        answerFrontendQuestion := fun _ => Except.ok (lit "Use a hook."),
        generateResponse := fun _ => Except.ok (lit "Hello.") }
      DbFault.ok DbFault.ok Store.empty
      { message := Option.some (lit "What is the weather?"),
        sessionId := Option.some (lit "") } 1).store = Store.empty ∧
    (postMessageUser 7
      { answerChelseaQuestion := fun _ => Except.ok (lit "He is a midfielder."),
        answerFrontendQuestion := fun _ => Except.ok (lit "Use a hook."),
        generateResponse := fun _ => Except.ok (lit "Hello.") }
      DbFault.ok DbFault.ok Store.empty
      { message := Option.some (lit "What is the weather?"),
        sessionId := Option.some (lit "") } 1).response.success = true ∧
    (postMessageUser 7
      { answerChelseaQuestion := fun _ => Except.ok (lit "He is a midfielder."),
        answerFrontendQuestion := fun _ => Except.ok (lit "Use a hook."),
        generateResponse := fun _ => Except.ok (lit "Hello.") }
      DbFault.ok DbFault.ok Store.empty
      { message := Option.some (lit "What is the weather?"),
        sessionId := Option.some (lit "") } 1).store = Store.empty := by
  refine ⟨?_, ?_, ?_, ?_⟩ <;> decide

/-- C17, amended: for every non-blank message the gate classifies as out of scope, both
routes make no call to the answer generator and answer with `success: true`,
`isOutOfScope: true`, the fixed decline text as `response` and the session id of the
request, whatever the saves do; the decline message is appended best effort, through
`saveMessage`: when the collection is well formed, the session id is not empty and the second
`saveMessage` meets no database fault, the session of that id ends with an assistant message
holding the decline text with `isOutOfScope = true` and `isError = false`. -/
theorem out_of_scope_declined (userId : Nat) (service : OpenAIService) (f1 f2 : DbFault)
    (st : Store) (req : Request) (now : Nat) (m : JSString)
    (hm : req.message = Option.some m) (hb : (trim m).length ≠ 0)
    (hc : isChelseaRelated m = false) (hf : isFrontendRelated m = false) :
    (postMessage service f1 f2 st req now).calls = [] ∧
    (postMessage service f1 f2 st req now).response =
      { status := 200, success := true, response := Option.some outOfScopeResponse,
        isOutOfScope := Option.some true,
        sessionId := Option.some (req.sessionId.getD (defaultSessionId now)),
        timestamp := Option.none, error := Option.none } ∧
    (postMessageUser userId service f1 f2 st req now).calls = [] ∧
    (postMessageUser userId service f1 f2 st req now).response =
      { status := 200, success := true, response := Option.some outOfScopeResponse,
        isOutOfScope := Option.some true,
        sessionId := Option.some (req.sessionId.getD (defaultSessionId now)),
        timestamp := Option.none, error := Option.none } ∧
    (st.wellFormed → (req.sessionId.getD (defaultSessionId now)).length ≠ 0 →
      ∃ d ∈ (postMessage service f1 DbFault.ok st req now).store.docs,
        d.sessionId = req.sessionId.getD (defaultSessionId now) ∧
        d.messages.getLast? = Option.some
          { content := outOfScopeResponse, sender := assistantSender, timestamp := now,
            metadata := { isOutOfScope := true, isError := false,
                          topic := Topic.assistant } }) ∧
    (st.wellFormed → (req.sessionId.getD (defaultSessionId now)).length ≠ 0 →
      ∃ d ∈ (postMessageUser userId service f1 DbFault.ok st req now).store.docs,
        d.sessionId = req.sessionId.getD (defaultSessionId now) ∧
        d.user = Option.some userId ∧
        d.messages.getLast? = Option.some
          { content := outOfScopeResponse, sender := assistantSender, timestamp := now,
            metadata := { isOutOfScope := true, isError := false,
                          topic := Topic.assistant } }) := by
  have hnb := not_blank_of_trim m hb
  refine ⟨?_, ?_, ?_, ?_, fun hst hsid => ?_, fun hst hsid => ?_⟩
  · unfold postMessage
    rw [chatRoute_declined _ service f1 f2 st req now m hm hnb hc hf]
  · unfold postMessage
    rw [chatRoute_declined _ service f1 f2 st req now m hm hnb hc hf]
  · unfold postMessageUser
    rw [chatRoute_declined _ service f1 f2 st req now m hm hnb hc hf]
  · unfold postMessageUser
    rw [chatRoute_declined _ service f1 f2 st req now m hm hnb hc hf]
  · unfold postMessage
    rw [chatRoute_declined _ service f1 DbFault.ok st req now m hm hnb hc hf]
    exact reply_appended f1 st _ m outOfScopeResponse true false now hst hsid
      outOfScopeResponse_valid
  · unfold postMessageUser
    rw [chatRoute_declined _ service f1 DbFault.ok st req now m hm hnb hc hf]
    exact reply_appended_user userId f1 st _ m outOfScopeResponse true false now hst hsid
      outOfScopeResponse_valid

theorem out_of_scope_declined_witness :
    (postMessage
      { answerChelseaQuestion := fun _ => Except.ok (lit "He is a midfielder."),
        answerFrontendQuestion := fun _ => Except.ok (lit "Use a hook."),
        generateResponse := fun _ => Except.ok (lit "Hello.") }
      DbFault.ok DbFault.ok Store.empty
      { message := Option.some (lit "What is the weather?"),
        sessionId := Option.some (lit "s1") } 1).calls = [] ∧
    ∃ d ∈ (postMessage
        { answerChelseaQuestion := fun _ => Except.ok (lit "He is a midfielder."),
          answerFrontendQuestion := fun _ => Except.ok (lit "Use a hook."),
          generateResponse := fun _ => Except.ok (lit "Hello.") }
        DbFault.ok DbFault.ok Store.empty
        { message := Option.some (lit "What is the weather?"),
          sessionId := Option.some (lit "s1") } 1).store.docs,
      d.sessionId = lit "s1" ∧
      d.messages.getLast? = Option.some
        { content := outOfScopeResponse, sender := assistantSender, timestamp := 1,
          metadata := { isOutOfScope := true, isError := false, topic := Topic.assistant } } :=
  match out_of_scope_declined 7
    { answerChelseaQuestion := fun _ => Except.ok (lit "He is a midfielder."),
      answerFrontendQuestion := fun _ => Except.ok (lit "Use a hook."),
      generateResponse := fun _ => Except.ok (lit "Hello.") }
    DbFault.ok DbFault.ok Store.empty
    { message := Option.some (lit "What is the weather?"),
      sessionId := Option.some (lit "s1") } 1 (lit "What is the weather?") rfl
    (by decide) (by decide) (by decide) with
  | ⟨h1, _, _, _, h5, _⟩ => ⟨h1, h5 (fun d hd => nomatch hd) (by decide)⟩

/-- C18: `saveMessage` ends normally whatever fails inside it. When the lookup throws or the
write is refused it leaves the collection as it was, and so it does when validation rejects
the content; and for both routes the response sent and the calls made to the answer
generator are the same whatever the database outcomes `f1`, `f2` and whatever the
collection, in particular the same as when every write succeeds. -/
theorem saveMessage_failures_swallowed (userId : Nat) (service : OpenAIService)
    (f1 f2 : DbFault) (st st2 : Store) (req : Request) (now : Nat)
    (sid c sender : JSString) (oos err : Bool) :
    saveMessageWith DbFault.lookupFails st sid c sender oos err now = st ∧
    saveMessageWith DbFault.writeFails st sid c sender oos err now = st ∧
    saveMessageUserWith userId DbFault.lookupFails st sid c sender oos err now = st ∧
    saveMessageUserWith userId DbFault.writeFails st sid c sender oos err now = st ∧
    (((trim c).length = 0 ∨ (trim c).length > 5000) →
      saveMessageWith DbFault.ok st sid c sender oos err now = st ∧
      saveMessageUserWith userId DbFault.ok st sid c sender oos err now = st) ∧
    (postMessage service f1 f2 st req now).response =
      (postMessage service DbFault.ok DbFault.ok st2 req now).response ∧
    (postMessage service f1 f2 st req now).calls =
      (postMessage service DbFault.ok DbFault.ok st2 req now).calls ∧
    (postMessageUser userId service f1 f2 st req now).response =
      (postMessageUser userId service DbFault.ok DbFault.ok st2 req now).response ∧
    (postMessageUser userId service f1 f2 st req now).calls =
      (postMessageUser userId service DbFault.ok DbFault.ok st2 req now).calls := by
  have h1 := chatRoute_response_calls saveMessageWith saveMessageWith service f1 f2
    DbFault.ok DbFault.ok st st2 req now
  have h2 := chatRoute_response_calls (saveMessageUserWith userId)
    (saveMessageUserWith userId) service f1 f2 DbFault.ok DbFault.ok st st2 req now
  exact ⟨rfl, rfl, rfl, rfl,
    fun h => ⟨saveMessageWith_rejects DbFault.ok st sid c sender oos err now h,
      saveMessageUserWith_rejects userId DbFault.ok st sid c sender oos err now h⟩,
    h1.1, h1.2, h2.1, h2.2⟩

theorem saveMessage_failures_swallowed_witness :
    saveMessageWith DbFault.ok Store.empty (lit "s1") (lit "   ") userSender false false 1 =
      Store.empty :=
  ((saveMessage_failures_swallowed 7
    { answerChelseaQuestion := fun _ => Except.ok (lit "He is a midfielder."),
      answerFrontendQuestion := fun _ => Except.ok (lit "Use a hook."),
      generateResponse := fun _ => Except.ok (lit "Hello.") }
    DbFault.ok DbFault.ok Store.empty Store.empty
    { message := Option.some (lit "hello"), sessionId := Option.none } 1
    (lit "s1") (lit "   ") userSender false false).2.2.2.2.1 (Or.inl (by decide))).1

/-- C19: when the message is missing, empty or made of white space only, both routes answer
with status 400 and the error `Message cannot be empty`, leave the collection untouched and
make no call to the answer generator. -/
theorem blank_message_rejected (userId : Nat) (service : OpenAIService) (f1 f2 : DbFault)
    (st : Store) (req : Request) (now : Nat)
    (h : req.message = Option.none ∨
      ∃ m, req.message = Option.some m ∧ ∀ c ∈ m, isWhiteSpace c = true) :
    postMessage service f1 f2 st req now =
      { store := st,
        response :=
          { status := 400, success := false, response := Option.none,
            isOutOfScope := Option.none, sessionId := Option.none, timestamp := Option.none,
            error := Option.some (lit "Message cannot be empty") },
        calls := [] } ∧
    postMessageUser userId service f1 f2 st req now =
      { store := st,
        response :=
          { status := 400, success := false, response := Option.none,
            isOutOfScope := Option.none, sessionId := Option.none, timestamp := Option.none,
            error := Option.some (lit "Message cannot be empty") },
        calls := [] } := by
  have hb : req.message = Option.none ∨
      ∃ m, req.message = Option.some m ∧ (m.length = 0 ∨ (trim m).length = 0) := by
    rcases h with h | ⟨m, h, hw⟩
    · exact Or.inl h
    · exact Or.inr ⟨m, h, Or.inr (by rw [trim_whiteSpace m hw]; rfl)⟩
  exact ⟨chatRoute_blank _ service f1 f2 st req now hb,
    chatRoute_blank _ service f1 f2 st req now hb⟩

theorem blank_message_rejected_witness :
    (postMessage
      { answerChelseaQuestion := fun _ => Except.ok (lit "He is a midfielder."),
        answerFrontendQuestion := fun _ => Except.ok (lit "Use a hook."),
        generateResponse := fun _ => Except.ok (lit "Hello.") }
      DbFault.ok DbFault.ok Store.empty
      { message := Option.some (lit " \n\t "), sessionId := Option.some (lit "s1") }
      1).response.status = 400 :=
  congrArg (fun r => r.response.status)
    (blank_message_rejected 7
      { answerChelseaQuestion := fun _ => Except.ok (lit "He is a midfielder."),
        answerFrontendQuestion := fun _ => Except.ok (lit "Use a hook."),
        generateResponse := fun _ => Except.ok (lit "Hello.") }
      DbFault.ok DbFault.ok Store.empty
      { message := Option.some (lit " \n\t "), sessionId := Option.some (lit "s1") } 1
      (Or.inr ⟨lit " \n\t ", rfl, by decide⟩)).1

/-- C20 as stated fails: the message `css` followed by 5000 letters `a` (5003 characters) is
not rejected. The route answers with status 200 and `success: true`, calls the answer
generator once, and stores the assistant reply. -/
theorem long_message_answered :
    (lit "css" ++ List.replicate 5000 97).length = 5003 ∧
    (postMessage
      { answerChelseaQuestion := fun _ => Except.ok (lit "Use flexbox."),
        answerFrontendQuestion := fun _ => Except.ok (lit "Use flexbox."),
        generateResponse := fun _ => Except.ok (lit "Use flexbox.") }
      DbFault.ok DbFault.ok Store.empty
      { message := Option.some (lit "css" ++ List.replicate 5000 97),
        sessionId := Option.some (lit "s1") } 1).response.status = 200 ∧
    (postMessage
      { answerChelseaQuestion := fun _ => Except.ok (lit "Use flexbox."),
        answerFrontendQuestion := fun _ => Except.ok (lit "Use flexbox."),
        generateResponse := fun _ => Except.ok (lit "Use flexbox.") }
      DbFault.ok DbFault.ok Store.empty
      { message := Option.some (lit "css" ++ List.replicate 5000 97),
        sessionId := Option.some (lit "s1") } 1).response.success = true ∧
    (postMessage
      { answerChelseaQuestion := fun _ => Except.ok (lit "Use flexbox."),
        answerFrontendQuestion := fun _ => Except.ok (lit "Use flexbox."),
        generateResponse := fun _ => Except.ok (lit "Use flexbox.") }
      DbFault.ok DbFault.ok Store.empty
      { message := Option.some (lit "css" ++ List.replicate 5000 97),
        sessionId := Option.some (lit "s1") } 1).calls.length = 1 ∧
    ((postMessage
      { answerChelseaQuestion := fun _ => Except.ok (lit "Use flexbox."),
        answerFrontendQuestion := fun _ => Except.ok (lit "Use flexbox."),
        generateResponse := fun _ => Except.ok (lit "Use flexbox.") }
      DbFault.ok DbFault.ok Store.empty
      { message := Option.some (lit "css" ++ List.replicate 5000 97),
        sessionId := Option.some (lit "s1") } 1).store.docs.map
      (fun d => d.messages.map (fun x => x.content))) = [[lit "Use flexbox."]] := by
  have ht : trim (lit "css" ++ List.replicate 5000 97) = lit "css" ++ List.replicate 5000 97 :=
    trim_css_padded 4999
  have h3 : (lit "css").length = 3 := by decide
  have hl : (lit "css" ++ List.replicate 5000 97).length = 5003 := by
    rw [List.length_append, List.length_replicate, h3]
  have hlong : (trim (lit "css" ++ List.replicate 5000 97)).length > 5000 := by
    rw [ht, hl]
    exact Nat.lt_add_of_pos_right (by decide : 0 < 3)
  exact ⟨hl, long_request_answered _ hlong (isFrontendRelated_css _)⟩

/-- C20, amended: for every request whose message is longer than 5000 code units after
trimming, the first `saveMessage` leaves the collection as it was (the user message is not
stored), but neither route rejects the request: the status is 200 or 500, the answer
generator is called once when the message is in scope, and the collection afterwards is the
one the second `saveMessage` produces from the unchanged collection with the assistant
reply. -/
theorem long_message_not_rejected (userId : Nat) (service : OpenAIService) (f1 f2 : DbFault)
    (st : Store) (req : Request) (now : Nat) (m : JSString)
    (hm : req.message = Option.some m) (hlong : (trim m).length > 5000) :
    (saveMessageWith f1 st (req.sessionId.getD (defaultSessionId now)) m userSender false
        false now = st ∧
      (∃ reply oos err, (postMessage service f1 f2 st req now).store =
        saveMessageWith f2 st (req.sessionId.getD (defaultSessionId now)) reply
          assistantSender oos err now) ∧
      ((postMessage service f1 f2 st req now).response.status = 200 ∨
        (postMessage service f1 f2 st req now).response.status = 500) ∧
      ((isChelseaRelated m || isFrontendRelated m) = true →
        (postMessage service f1 f2 st req now).calls = [(selectAnswerer m, m)])) ∧
    (saveMessageUserWith userId f1 st (req.sessionId.getD (defaultSessionId now)) m
        userSender false false now = st ∧
      (∃ reply oos err, (postMessageUser userId service f1 f2 st req now).store =
        saveMessageUserWith userId f2 st (req.sessionId.getD (defaultSessionId now)) reply
          assistantSender oos err now) ∧
      ((postMessageUser userId service f1 f2 st req now).response.status = 200 ∨
        (postMessageUser userId service f1 f2 st req now).response.status = 500) ∧
      ((isChelseaRelated m || isFrontendRelated m) = true →
        (postMessageUser userId service f1 f2 st req now).calls =
          [(selectAnswerer m, m)])) := by
  have h1 := chatRoute_long saveMessageWith
    (fun f st sid c sender oos err now h =>
      saveMessageWith_rejects f st sid c sender oos err now (Or.inr h))
    service f1 f2 st req now m hm hlong
  have h2 := chatRoute_long (saveMessageUserWith userId)
    (fun f st sid c sender oos err now h =>
      saveMessageUserWith_rejects userId f st sid c sender oos err now (Or.inr h))
    service f1 f2 st req now m hm hlong
  exact ⟨⟨h1.1, h1.2.1, h1.2.2.1, h1.2.2.2.1⟩, ⟨h2.1, h2.2.1, h2.2.2.1, h2.2.2.2.1⟩⟩

theorem long_message_not_rejected_witness :
    (postMessage
      { answerChelseaQuestion := fun _ => Except.ok (lit "Use flexbox."),
        answerFrontendQuestion := fun _ => Except.ok (lit "Use flexbox."),
        generateResponse := fun _ => Except.ok (lit "Use flexbox.") }
      DbFault.ok DbFault.ok Store.empty
      { message := Option.some (lit "css" ++ List.replicate 5000 97),
        sessionId := Option.some (lit "s1") } 1).calls =
      [(selectAnswerer (lit "css" ++ List.replicate 5000 97),
        lit "css" ++ List.replicate 5000 97)] :=
  (long_message_not_rejected 7
    { answerChelseaQuestion := fun _ => Except.ok (lit "Use flexbox."),
      answerFrontendQuestion := fun _ => Except.ok (lit "Use flexbox."),
      generateResponse := fun _ => Except.ok (lit "Use flexbox.") }
    DbFault.ok DbFault.ok Store.empty
    { message := Option.some (lit "css" ++ List.replicate 5000 97),
      sessionId := Option.some (lit "s1") } 1 (lit "css" ++ List.replicate 5000 97) rfl
    (by
      have ht : trim (lit "css" ++ List.replicate 5000 97) =
          lit "css" ++ List.replicate 5000 97 := trim_css_padded 4999
      have h3 : (lit "css").length = 3 := by decide
      rw [ht, List.length_append, List.length_replicate, h3]
      exact Nat.lt_add_of_pos_right (by decide : 0 < 3))).1.2.2.2
    (by rw [isFrontendRelated_css, Bool.or_true])

/-! ## Message topics, answerer selection, e-mail choice and previews -/

/-- C21: the message `saveMessage` stores (on either route, when the collection is well
formed, the session id is not empty and the schema accepts content and sender) carries
`metadata.topic = getMessageTopic(content, sender)`: that is `assistant` whenever the sender
is not `'user'`, whatever the content, and for sender `'user'` it is the 4-way
classification of the content, the same for the content as passed and as stored (trimmed),
and never `assistant`. -/
theorem stored_message_topic (st : Store) (userId : Nat) (sid c sender : JSString)
    (oos err : Bool) (now : Nat) (hst : st.wellFormed) (hsid : sid.length ≠ 0)
    (h0 : (trim c).length ≠ 0) (h1 : (trim c).length ≤ 5000)
    (hs : sender = userSender ∨ sender = assistantSender) :
    (∃ d ∈ (saveMessage st sid c sender oos err now).docs, ∃ msg : Message,
      d.messages.getLast? = Option.some msg ∧ msg.content = trim c ∧ msg.sender = sender ∧
      msg.metadata.topic = getMessageTopic c sender) ∧
    (∃ d ∈ (saveMessageUser st userId sid c sender oos err now).docs, ∃ msg : Message,
      d.messages.getLast? = Option.some msg ∧ msg.content = trim c ∧ msg.sender = sender ∧
      msg.metadata.topic = getMessageTopic c sender) ∧
    (sender ≠ userSender → getMessageTopic c sender = Topic.assistant) ∧
    (sender = userSender →
      getMessageTopic c sender = getMessageTopic (trim c) userSender ∧
      getMessageTopic c sender ≠ Topic.assistant ∧
      (getMessageTopic c sender = Topic.chelsea ∨ getMessageTopic c sender = Topic.frontend ∨
        getMessageTopic c sender = Topic.general ∨ getMessageTopic c sender = Topic.mixed)) := by
  refine ⟨?_, ?_, getMessageTopic_not_user c sender, fun hu => ?_⟩
  · obtain ⟨d, hd, _, hl⟩ := saveMessage_appends st sid c sender oos err now hst hsid h0 h1 hs
    exact ⟨d, hd, _, hl, rfl, rfl, rfl⟩
  · obtain ⟨d, hd, _, _, hl⟩ :=
      saveMessageUser_appends st userId sid c sender oos err now hst hsid h0 h1 hs
    exact ⟨d, hd, _, hl, rfl, rfl, rfl⟩
  · rw [hu]
    refine ⟨(getMessageTopic_trim c userSender).symm, getMessageTopic_user_ne_assistant c, ?_⟩
    rw [getMessageTopic_user]
    cases hasChelsea (toLowerCase c) <;> cases hasFrontend (toLowerCase c) <;> decide

theorem stored_message_topic_witness :
    ∃ d ∈ (saveMessage Store.empty (lit "s1") (lit "Chelsea won") assistantSender false false
        1).docs, ∃ msg : Message,
      d.messages.getLast? = Option.some msg ∧ msg.content = trim (lit "Chelsea won") ∧
      msg.sender = assistantSender ∧
      msg.metadata.topic = getMessageTopic (lit "Chelsea won") assistantSender :=
  (stored_message_topic Store.empty 7 (lit "s1") (lit "Chelsea won") assistantSender false
    false 1 (fun d hd => nomatch hd) (by decide) (by decide) (by decide) (Or.inr rfl)).1

/-- C25: for a non-empty list `getBestEmail` returns the address of the first entry that is
primary and verified if there is one, else of the first verified entry, else of the first
primary entry, else of the first entry; so the result is an address of the list, and of a
verified entry whenever the list has one. For a missing or empty list it returns the
username followed by `@users.noreply.github.com`. -/
theorem getBestEmail_priority (emails : List EmailEntry) (profile : GithubProfile) :
    getBestEmail Option.none profile = profile.username ++ lit "@users.noreply.github.com" ∧
    getBestEmail (Option.some []) profile =
      profile.username ++ lit "@users.noreply.github.com" ∧
    (∀ e, emails.find? (fun e => e.primary && e.verified) = Option.some e →
      getBestEmail (Option.some emails) profile = e.email) ∧
    (∀ e, emails.find? (fun e => e.primary && e.verified) = Option.none →
      emails.find? (fun e => e.verified) = Option.some e →
      getBestEmail (Option.some emails) profile = e.email) ∧
    (∀ e, emails.find? (fun e => e.primary && e.verified) = Option.none →
      emails.find? (fun e => e.verified) = Option.none →
      emails.find? (fun e => e.primary) = Option.some e →
      getBestEmail (Option.some emails) profile = e.email) ∧
    (∀ e, emails.find? (fun e => e.primary && e.verified) = Option.none →
      emails.find? (fun e => e.verified) = Option.none →
      emails.find? (fun e => e.primary) = Option.none →
      emails.head? = Option.some e →
      getBestEmail (Option.some emails) profile = e.email) ∧
    (emails ≠ [] → ∃ e ∈ emails, getBestEmail (Option.some emails) profile = e.email) ∧
    ((∃ e ∈ emails, e.verified = true) →
      ∃ e ∈ emails, e.verified = true ∧
        getBestEmail (Option.some emails) profile = e.email) := by
  cases emails with
  | nil =>
    refine ⟨rfl, rfl, ?_, ?_, ?_, ?_, fun h => absurd rfl h, ?_⟩
    · intro e h; cases h
    · intro e _ h; cases h
    · intro e _ _ h; cases h
    · intro e _ _ _ h; cases h
    · rintro ⟨e, he, _⟩; cases he
  | cons first rest =>
    have c1 : ∀ e, (first :: rest).find? (fun e => e.primary && e.verified) = Option.some e →
        getBestEmail (Option.some (first :: rest)) profile = e.email := by
      intro e h
      unfold getBestEmail
      simp only [h]
    have c2 : ∀ e, (first :: rest).find? (fun e => e.primary && e.verified) = Option.none →
        (first :: rest).find? (fun e => e.verified) = Option.some e →
        getBestEmail (Option.some (first :: rest)) profile = e.email := by
      intro e h1 h2
      unfold getBestEmail
      simp only [h1, h2]
    have c3 : ∀ e, (first :: rest).find? (fun e => e.primary && e.verified) = Option.none →
        (first :: rest).find? (fun e => e.verified) = Option.none →
        (first :: rest).find? (fun e => e.primary) = Option.some e →
        getBestEmail (Option.some (first :: rest)) profile = e.email := by
      intro e h1 h2 h3
      unfold getBestEmail
      simp only [h1, h2, h3]
    have c4 : (first :: rest).find? (fun e => e.primary && e.verified) = Option.none →
        (first :: rest).find? (fun e => e.verified) = Option.none →
        (first :: rest).find? (fun e => e.primary) = Option.none →
        getBestEmail (Option.some (first :: rest)) profile = first.email := by
      intro h1 h2 h3
      unfold getBestEmail
      simp only [h1, h2, h3]
    refine ⟨rfl, rfl, c1, c2, c3, ?_, fun _ => ?_, ?_⟩
    · intro e h1 h2 h3 h4
      have : first = e := Option.some.inj h4
      rw [← this]
      exact c4 h1 h2 h3
    · cases h1 : (first :: rest).find? (fun e => e.primary && e.verified) with
      | some e => exact ⟨e, List.mem_of_find?_eq_some h1, c1 e h1⟩
      | none =>
        cases h2 : (first :: rest).find? (fun e => e.verified) with
        | some e => exact ⟨e, List.mem_of_find?_eq_some h2, c2 e h1 h2⟩
        | none =>
          cases h3 : (first :: rest).find? (fun e => e.primary) with
          | some e => exact ⟨e, List.mem_of_find?_eq_some h3, c3 e h1 h2 h3⟩
          | none => exact ⟨first, List.mem_cons_self first rest, c4 h1 h2 h3⟩
    · rintro ⟨v, hv, hvv⟩
      cases h1 : (first :: rest).find? (fun e => e.primary && e.verified) with
      | some e =>
        have hp := List.find?_some h1
        simp only [Bool.and_eq_true] at hp
        exact ⟨e, List.mem_of_find?_eq_some h1, hp.2, c1 e h1⟩
      | none =>
        cases h2 : (first :: rest).find? (fun e => e.verified) with
        | some e =>
          exact ⟨e, List.mem_of_find?_eq_some h2, List.find?_some h2, c2 e h1 h2⟩
        | none =>
          exfalso
          rw [List.find?_eq_none] at h2
          exact h2 v hv hvv

theorem getBestEmail_priority_witness :
    getBestEmail
      (Option.some
        [{ email := lit "a@x.io", primary := true, verified := false },
         { email := lit "b@x.io", primary := false, verified := true }])
      { username := lit "octo" } = lit "b@x.io" :=
  (getBestEmail_priority
    [{ email := lit "a@x.io", primary := true, verified := false },
     { email := lit "b@x.io", primary := false, verified := true }]
    { username := lit "octo" }).2.2.2.1
    { email := lit "b@x.io", primary := false, verified := true } (by decide) (by decide)

/-- C26: the narrow keyword lists are contained in the broad ones, so for every message a
4-way tag `chelsea`, `frontend` or `mixed` implies that the gate accepts the message as in
scope, and every message the gate declines is tagged `general`. -/
theorem narrow_tag_implies_in_scope (m : JSString) :
    (∀ k ∈ chelseaTerms, k ∈ routeChelseaTerms) ∧
    (∀ k ∈ frontendTerms, k ∈ routeFrontendTerms) ∧
    ((getMessageTopic m userSender = Topic.chelsea ∨
        getMessageTopic m userSender = Topic.frontend ∨
        getMessageTopic m userSender = Topic.mixed) →
      (isChelseaRelated m || isFrontendRelated m) = true) ∧
    ((isChelseaRelated m = false ∧ isFrontendRelated m = false) →
      getMessageTopic m userSender = Topic.general) := by
  have hgen : (isChelseaRelated m = false ∧ isFrontendRelated m = false) →
      getMessageTopic m userSender = Topic.general := by
    rintro ⟨hc, hf⟩
    have h1 : hasChelsea (toLowerCase m) = false := by
      cases h : hasChelsea (toLowerCase m) with
      | false => rfl
      | true => rw [isChelseaRelated_of_hasChelsea m h] at hc; cases hc
    have h2 : hasFrontend (toLowerCase m) = false := by
      cases h : hasFrontend (toLowerCase m) with
      | false => rfl
      | true => rw [isFrontendRelated_of_hasFrontend m h] at hf; cases hf
    rw [getMessageTopic_user, h1, h2]
    rfl
  refine ⟨narrow_sublist_broad.1, narrow_sublist_broad.2, fun h => ?_, hgen⟩
  rcases gate_cases m with hno | hs
  · rw [hgen hno] at h
    rcases h with h | h | h <;> cases h
  · exact hs

theorem narrow_tag_implies_in_scope_witness :
    (isChelseaRelated (lit "React at Stamford Bridge") ||
      isFrontendRelated (lit "React at Stamford Bridge")) = true :=
  (narrow_tag_implies_in_scope (lit "React at Stamford Bridge")).2.2.1
    (Or.inr (Or.inr (by decide)))

/-- C28: the session topic is not determined by the per-message topics. The user messages
`premier` and `league` are each classified `general`, yet the session that stores them in
that order has topic `chelsea`, since the contents are joined by a space before matching.
Conversely a keyword that occurs in the lower-cased content of any stored message occurs in
the lower-cased joined content of the session. -/
theorem session_topic_not_per_message (msgs : List Message) (m : Message) (k : JSString) :
    getMessageTopic (lit "premier") userSender = Topic.general ∧
    getMessageTopic (lit "league") userSender = Topic.general ∧
    ((saveMessage
        (saveMessage Store.empty (lit "s1") (lit "premier") userSender false false 1)
        (lit "s1") (lit "league") userSender false false 2).docs.map (fun d => d.topic)) =
      [Topic.chelsea] ∧
    ((saveMessage
        (saveMessage Store.empty (lit "s1") (lit "premier") userSender false false 1)
        (lit "s1") (lit "league") userSender false false 2).docs.map
      (fun d => d.messages.map (fun x => x.metadata.topic))) =
      [[Topic.general, Topic.general]] ∧
    (m ∈ msgs → includes (toLowerCase m.content) k = true →
      includes (allContent msgs) k = true) := by
  refine ⟨by decide, by decide, by decide, by decide, fun hm h => ?_⟩
  exact (includes_iff _ _).2 (infix_allContent msgs m k hm ((includes_iff _ _).1 h))

theorem session_topic_not_per_message_witness :
    includes
      (allContent
        [{ content := lit "hello", sender := userSender, timestamp := 1,
           metadata := { isOutOfScope := false, isError := false, topic := Topic.general } },
         { content := lit "Chelsea won", sender := userSender, timestamp := 2,
           metadata := { isOutOfScope := false, isError := false, topic := Topic.chelsea } }])
      (lit "chelsea") = true :=
  (session_topic_not_per_message
    [{ content := lit "hello", sender := userSender, timestamp := 1,
       metadata := { isOutOfScope := false, isError := false, topic := Topic.general } },
     { content := lit "Chelsea won", sender := userSender, timestamp := 2,
       metadata := { isOutOfScope := false, isError := false, topic := Topic.chelsea } }]
    { content := lit "Chelsea won", sender := userSender, timestamp := 2,
      metadata := { isOutOfScope := false, isError := false, topic := Topic.chelsea } }
    (lit "chelsea")).2.2.2.2 (by decide) (by decide)

/-- C29: for every non-blank in-scope message both routes make exactly one call to the
answer generator, with the message as argument: to `answerChelseaQuestion` whenever a broad
Chelsea term matches (also when a broad frontend term matches too), to
`answerFrontendQuestion` exactly when only a broad frontend term matches, and never to
`generateResponse`. -/
theorem answerer_selection (userId : Nat) (service : OpenAIService) (f1 f2 : DbFault)
    (st : Store) (req : Request) (now : Nat) (m : JSString)
    (hm : req.message = Option.some m) (hb : (trim m).length ≠ 0)
    (hs : (isChelseaRelated m || isFrontendRelated m) = true) :
    (postMessage service f1 f2 st req now).calls = [(selectAnswerer m, m)] ∧
    (postMessageUser userId service f1 f2 st req now).calls = [(selectAnswerer m, m)] ∧
    (isChelseaRelated m = true → selectAnswerer m = Answerer.answerChelseaQuestion) ∧
    (selectAnswerer m = Answerer.answerFrontendQuestion ↔
      isChelseaRelated m = false ∧ isFrontendRelated m = true) ∧
    selectAnswerer m ≠ Answerer.generateResponse := by
  have hnb := not_blank_of_trim m hb
  have hc := selectAnswerer_cases m
  refine ⟨chatRoute_calls_inScope _ service f1 f2 st req now m hm hnb hs,
    chatRoute_calls_inScope _ service f1 f2 st req now m hm hnb hs, hc.1, hc.2.1, fun h => ?_⟩
  obtain ⟨h1, h2⟩ := hc.2.2.1 h
  rw [h1, h2] at hs
  cases hs

theorem answerer_selection_witness :
    (postMessage
      { answerChelseaQuestion := fun _ => Except.ok (lit "He is a midfielder."),
        answerFrontendQuestion := fun _ => Except.ok (lit "Use a hook."),
        generateResponse := fun _ => Except.ok (lit "Hello.") }
      DbFault.ok DbFault.ok Store.empty
      { message := Option.some (lit "football and react"),
        sessionId := Option.some (lit "s1") } 1).calls =
      [(selectAnswerer (lit "football and react"), lit "football and react")] :=
  (answerer_selection 7
    { answerChelseaQuestion := fun _ => Except.ok (lit "He is a midfielder."),
      answerFrontendQuestion := fun _ => Except.ok (lit "Use a hook."),
      generateResponse := fun _ => Except.ok (lit "Hello.") }
    DbFault.ok DbFault.ok Store.empty
    { message := Option.some (lit "football and react"),
      sessionId := Option.some (lit "s1") } 1 (lit "football and react") rfl (by decide)
    (by decide)).1

/-- C30: for a session without messages both previews are `No messages yet`; for a session
whose last message has non-empty content the preview of `GET /history` equals the virtual
`preview`: the first 100 code units of that content, followed by `...` exactly when the
content is longer than 100, hence at most 103 code units. -/
theorem previews_agree (doc : ChatHistory) :
    (doc.messages = [] →
      preview doc = lit "No messages yet" ∧ historyPreview doc = lit "No messages yet") ∧
    (∀ last, doc.messages.getLast? = Option.some last → last.content.length ≠ 0 →
      historyPreview doc = preview doc ∧
      preview doc = substring0 last.content 100 ++
        (if last.content.length > 100 then lit "..." else lit "") ∧
      (last.content.length > 100 → preview doc = last.content.take 100 ++ lit "...") ∧
      (last.content.length ≤ 100 → preview doc = last.content) ∧
      (preview doc).length ≤ 103) := by
  constructor
  · intro h
    unfold preview historyPreview
    rw [h]
    exact ⟨rfl, rfl⟩
  · intro last hl hc
    have hne : doc.messages ≠ [] := by
      intro e
      rw [e] at hl
      cases hl
    have hpos : doc.messages.length > 0 := List.length_pos.2 hne
    have hidx : doc.messages[doc.messages.length - 1]? = Option.some last := by
      rw [← List.getLast?_eq_getElem?]; exact hl
    have hp : preview doc = substring0 last.content 100 ++
        (if last.content.length > 100 then lit "..." else lit "") := by
      unfold preview
      rw [if_neg (by omega)]
      simp only [hidx]
      rw [if_neg hc]
    have hh : historyPreview doc = substring0 last.content 100 ++
        (if last.content.length > 100 then lit "..." else lit "") := by
      unfold historyPreview
      rw [if_pos hpos]
      simp only [hidx]
    refine ⟨by rw [hh, hp], hp, fun hgt => ?_, fun hle => ?_, ?_⟩
    · rw [hp, if_pos hgt]; rfl
    · rw [hp, if_neg (by omega)]
      unfold substring0
      rw [List.take_of_length_le hle]
      exact List.append_nil _
    · rw [hp, List.length_append]
      have h1 : (substring0 last.content 100).length ≤ 100 := List.length_take_le 100 _
      have h2 : (if last.content.length > 100 then lit "..." else lit "").length ≤ 3 := by
        split <;> decide
      omega

theorem previews_agree_witness :
    historyPreview
      (push
        (newChatHistory 0 0
          { user := Option.none, sessionId := lit "s1", title := Option.none,
            isPremium := Option.none, messages := [], isAuthenticated := Option.none })
        { content := lit "Chelsea won", sender := userSender, timestamp := 1,
          metadata := { isOutOfScope := false, isError := false, topic := Topic.chelsea } }) =
    preview
      (push
        (newChatHistory 0 0
          { user := Option.none, sessionId := lit "s1", title := Option.none,
            isPremium := Option.none, messages := [], isAuthenticated := Option.none })
        { content := lit "Chelsea won", sender := userSender, timestamp := 1,
          metadata := { isOutOfScope := false, isError := false, topic := Topic.chelsea } }) :=
  ((previews_agree _).2
    { content := lit "Chelsea won", sender := userSender, timestamp := 1,
      metadata := { isOutOfScope := false, isError := false, topic := Topic.chelsea } }
    (by decide) (by decide)).1

/-! ## Deleting sessions and users; monotone session topics -/

/-- C23: when the database call goes through, `DELETE /history/:sessionId` answers 404
`Chat session not found` exactly when no stored session has that user and `sessionId`, and
then changes nothing. Otherwise it answers success and removes the first such session:
every session with another user or another `sessionId` stays, in the same order, and when
the key identified a single session, a lookup by that key finds nothing afterwards. -/
theorem deleteHistory_reports (userId : Nat) (st : Store) (sid : JSString) :
    ((deleteHistory userId DbFault.ok st sid).2.status = 404 ↔
      ∀ d ∈ st.docs, ¬ (d.user = Option.some userId ∧ d.sessionId = sid)) ∧
    ((∀ d ∈ st.docs, ¬ (d.user = Option.some userId ∧ d.sessionId = sid)) →
      deleteHistory userId DbFault.ok st sid =
        (st, { status := 404, success := false, message := Option.none,
               error := Option.some (lit "Chat session not found") })) ∧
    ((∃ d ∈ st.docs, d.user = Option.some userId ∧ d.sessionId = sid) →
      (deleteHistory userId DbFault.ok st sid).2 =
        { status := 200, success := true,
          message := Option.some (lit "Chat session deleted successfully"),
          error := Option.none } ∧
      (deleteHistory userId DbFault.ok st sid).1.docs =
        st.docs.eraseP
          (fun d => decide (d.user = Option.some userId) && decide (d.sessionId = sid)) ∧
      (deleteHistory userId DbFault.ok st sid).1.docs.length + 1 = st.docs.length ∧
      (deleteHistory userId DbFault.ok st sid).1.docs.filter
          (fun d => !(decide (d.user = Option.some userId) && decide (d.sessionId = sid))) =
        st.docs.filter
          (fun d => !(decide (d.user = Option.some userId) && decide (d.sessionId = sid))) ∧
      ((st.docs.filter
          (fun d => decide (d.user = Option.some userId) &&
            decide (d.sessionId = sid))).length ≤ 1 →
        findOne (deleteHistory userId DbFault.ok st sid).1
          (fun d => decide (d.user = Option.some userId) && decide (d.sessionId = sid)) =
          Option.none)) := by
  have hnone : (∀ d ∈ st.docs, ¬ (d.user = Option.some userId ∧ d.sessionId = sid)) →
      deleteHistory userId DbFault.ok st sid =
        (st, { status := 404, success := false, message := Option.none,
               error := Option.some (lit "Chat session not found") }) := by
    intro h
    have hf : st.docs.find? (fun d => decide (d.user = Option.some userId) &&
        decide (d.sessionId = sid)) = Option.none := by
      rw [List.find?_eq_none]
      intro x hx
      simpa using h x hx
    unfold deleteHistory findOneAndDelete
    simp only [hf]
  have hsome : (∃ d ∈ st.docs, d.user = Option.some userId ∧ d.sessionId = sid) →
      deleteHistory userId DbFault.ok st sid =
        ({ docs := st.docs.eraseP (fun d =>
              decide (d.user = Option.some userId) && decide (d.sessionId = sid)),
            nextId := st.nextId },
          { status := 200, success := true,
            message := Option.some (lit "Chat session deleted successfully"),
            error := Option.none }) := by
    rintro ⟨d, hd, hk⟩
    have hs : (st.docs.find? (fun d => decide (d.user = Option.some userId) &&
        decide (d.sessionId = sid))).isSome = true :=
      List.find?_isSome.2 ⟨d, hd, by simpa using hk⟩
    obtain ⟨v, hv⟩ := Option.isSome_iff_exists.1 hs
    unfold deleteHistory findOneAndDelete
    simp only [hv]
  refine ⟨?_, hnone, fun hex => ?_⟩
  · constructor
    · intro h404 d hd hk
      rw [hsome ⟨d, hd, hk⟩] at h404
      have h200 : (200 : Nat) = 404 := h404
      exact absurd h200 (by decide)
    · intro h
      rw [hnone h]
  · rw [hsome hex]
    obtain ⟨d, hd, hk⟩ := hex
    refine ⟨rfl, rfl, ?_, eraseP_filter_not _ _, fun hu => ?_⟩
    · show (st.docs.eraseP _).length + 1 = st.docs.length
      rw [List.length_eraseP_of_mem hd (by simpa using hk)]
      have : 0 < st.docs.length := List.length_pos_of_mem hd
      omega
    · unfold findOne
      exact eraseP_find_none _ _ hu

theorem deleteHistory_reports_witness :
    (deleteHistory 7 DbFault.ok
      (saveMessageUser Store.empty 7 (lit "s1") (lit "hello") userSender false false 1)
      (lit "s1")).1.docs = [] :=
  ((deleteHistory_reports 7
    (saveMessageUser Store.empty 7 (lit "s1") (lit "hello") userSender false false 1)
    (lit "s1")).2.2 (by decide)).2.1.trans (by decide)

/-- C24: the admin operation `DELETE /users/:userId` succeeds for every existing user other
than the admin when no database call fails; and whenever it succeeds, the user existed, no
stored session with that user remains, the sessions of every other user and the anonymous
sessions are exactly those stored before, in the same order, the user record is removed
(none with that `_id` remains, ids being unique), and the other user records stay. -/
theorem adminDeleteUser_cascades (adminId : Nat) (failAt : Option Nat) (db : Database)
    (userId : Nat) :
    (userId ≠ adminId → (∃ u ∈ db.users, u._id = userId) →
      (adminDeleteUser adminId Option.none db userId).2.success = true) ∧
    ((adminDeleteUser adminId failAt db userId).2.success = true →
      (∃ u ∈ db.users, u._id = userId) ∧
      (∀ d ∈ (adminDeleteUser adminId failAt db userId).1.chats.docs,
        d.user ≠ Option.some userId) ∧
      (adminDeleteUser adminId failAt db userId).1.chats.docs =
        db.chats.docs.filter (fun d => !decide (d.user = Option.some userId)) ∧
      (∀ d ∈ db.chats.docs, d.user ≠ Option.some userId →
        d ∈ (adminDeleteUser adminId failAt db userId).1.chats.docs) ∧
      ((db.users.map (fun u => u._id)).Nodup →
        ∀ u ∈ (adminDeleteUser adminId failAt db userId).1.users, u._id ≠ userId) ∧
      (adminDeleteUser adminId failAt db userId).1.users.length + 1 = db.users.length ∧
      (∀ u ∈ db.users, u._id ≠ userId →
        u ∈ (adminDeleteUser adminId failAt db userId).1.users)) := by
  refine ⟨adminDeleteUser_ok adminId db userId, fun hs => ?_⟩
  obtain ⟨_, ⟨u, hu⟩, hdb, _⟩ := adminDeleteUser_success adminId failAt db userId hs
  have humem : u ∈ db.users := List.mem_of_find?_eq_some hu
  have huid : u._id = userId := by simpa using List.find?_some hu
  rw [hdb]
  refine ⟨⟨u, humem, huid⟩, ?_, rfl, ?_, fun hnd => eraseP_id_gone db.users userId hnd, ?_, ?_⟩
  · intro d hd
    have := (List.mem_filter.1 hd).2
    simpa using this
  · intro d hd hne
    exact List.mem_filter.2 ⟨hd, by simpa using hne⟩
  · show (db.users.eraseP _).length + 1 = db.users.length
    rw [List.length_eraseP_of_mem humem (by simpa using huid)]
    have : 0 < db.users.length := List.length_pos_of_mem humem
    omega
  · intro v hv hne
    exact (List.mem_eraseP_of_neg (by simpa using hne)).2 hv

theorem adminDeleteUser_cascades_witness :
    (adminDeleteUser 1 Option.none
      { users := [{ _id := 1, email := lit "admin@x.io" }, { _id := 7, email := lit "u@x.io" }],
        chats := saveMessage
          (saveMessageUser Store.empty 7 (lit "s1") (lit "hello") userSender false false 1)
          (lit "s2") (lit "hi") userSender false false 2 } 7).1.chats.docs =
      (saveMessage
        (saveMessageUser Store.empty 7 (lit "s1") (lit "hello") userSender false false 1)
        (lit "s2") (lit "hi") userSender false false 2).docs.filter
        (fun d => !decide (d.user = Option.some 7)) :=
  ((adminDeleteUser_cascades 1 Option.none
    { users := [{ _id := 1, email := lit "admin@x.io" }, { _id := 7, email := lit "u@x.io" }],
      chats := saveMessage
        (saveMessageUser Store.empty 7 (lit "s1") (lit "hello") userSender false false 1)
        (lit "s2") (lit "hi") userSender false false 2 } 7).2 (by decide)).2.2.1

/-- C27: start from a session as written by a save with at least one message and append any
number of messages with `addMessage`, each append saving. If the appends succeed, every
domain the history matched is still matched, so a topic `mixed` stays `mixed`, a topic
`chelsea` becomes `chelsea` or `mixed`, and a topic `frontend` becomes `frontend` or
`mixed`; in particular it never returns to `general` nor moves to the other single
domain. -/
theorem topic_only_moves_up (st st1 : Store) (d0 d1 : ChatHistory) (t0 : Nat)
    (reqs : List AppendRequest) (h0 : d0.messages ≠ [])
    (h : appendAll st (committed d0 t0) reqs = (st1, Except.ok d1)) :
    (hasChelsea (allContent (committed d0 t0).messages) = true →
      hasChelsea (allContent d1.messages) = true) ∧
    (hasFrontend (allContent (committed d0 t0).messages) = true →
      hasFrontend (allContent d1.messages) = true) ∧
    ((committed d0 t0).topic = Topic.mixed → d1.topic = Topic.mixed) ∧
    ((committed d0 t0).topic = Topic.chelsea →
      d1.topic = Topic.chelsea ∨ d1.topic = Topic.mixed) ∧
    ((committed d0 t0).topic = Topic.frontend →
      d1.topic = Topic.frontend ∨ d1.topic = Topic.mixed) := by
  have hcur := committed_topic_current d0 t0 h0
  obtain ⟨g1, g2, g3, g4⟩ :=
    appendAll_topic_invariant reqs st st1 (committed d0 t0) d1 hcur.1 hcur.2 h
  have e0 := hcur.2
  rw [preSave_topic _ 0 hcur.1] at e0
  have e1 := g2
  rw [preSave_topic _ 0 g1] at e1
  have c0 := topic_chain (hasChelsea (allContent (committed d0 t0).messages))
    (hasFrontend (allContent (committed d0 t0).messages))
  have c1 := topic_chain (hasChelsea (allContent d1.messages))
    (hasFrontend (allContent d1.messages))
  rw [← e0] at c0
  rw [← e1] at c1
  refine ⟨g3, g4, fun hm => ?_, fun hc => ?_, fun hf => ?_⟩
  · obtain ⟨a, b⟩ := c0.1.1 hm
    exact c1.1.2 ⟨g3 a, g4 b⟩
  · obtain ⟨a, _⟩ := c0.2.1.1 hc
    cases hb : hasFrontend (allContent d1.messages) with
    | true => exact Or.inr (c1.1.2 ⟨g3 a, hb⟩)
    | false => exact Or.inl (c1.2.1.2 ⟨g3 a, hb⟩)
  · obtain ⟨_, b⟩ := c0.2.2.1.1 hf
    cases ha : hasChelsea (allContent d1.messages) with
    | true => exact Or.inr (c1.1.2 ⟨ha, g4 b⟩)
    | false => exact Or.inl (c1.2.2.1.2 ⟨ha, g4 b⟩)

theorem topic_only_moves_up_witness :
    (committed
      (push
        (committed
          (push
            (newChatHistory 0 0
              { user := Option.none, sessionId := lit "s1", title := Option.none,
                isPremium := Option.none, messages := [], isAuthenticated := Option.none })
            { content := lit "Chelsea won", sender := userSender, timestamp := 1,
              metadata := { isOutOfScope := false, isError := false,
                            topic := Topic.chelsea } }) 1)
        { content := lit "what about lunch", sender := userSender, timestamp := 2,
          metadata := { isOutOfScope := false, isError := false, topic := Topic.general } })
      2).topic = Topic.chelsea ∨
    (committed
      (push
        (committed
          (push
            (newChatHistory 0 0
              { user := Option.none, sessionId := lit "s1", title := Option.none,
                isPremium := Option.none, messages := [], isAuthenticated := Option.none })
            { content := lit "Chelsea won", sender := userSender, timestamp := 1,
              metadata := { isOutOfScope := false, isError := false,
                            topic := Topic.chelsea } }) 1)
        { content := lit "what about lunch", sender := userSender, timestamp := 2,
          metadata := { isOutOfScope := false, isError := false, topic := Topic.general } })
      2).topic = Topic.mixed :=
  (topic_only_moves_up Store.empty
    (appendAll Store.empty
      (committed
        (push
          (newChatHistory 0 0
            { user := Option.none, sessionId := lit "s1", title := Option.none,
              isPremium := Option.none, messages := [], isAuthenticated := Option.none })
          { content := lit "Chelsea won", sender := userSender, timestamp := 1,
            metadata := { isOutOfScope := false, isError := false,
                          topic := Topic.chelsea } }) 1)
      [{ content := lit "what about lunch", sender := userSender,
         metadata := { isOutOfScope := Option.none, isError := Option.none,
                       topic := Option.none }, now := 2 }]).1
    (push
      (newChatHistory 0 0
        { user := Option.none, sessionId := lit "s1", title := Option.none,
          isPremium := Option.none, messages := [], isAuthenticated := Option.none })
      { content := lit "Chelsea won", sender := userSender, timestamp := 1,
        metadata := { isOutOfScope := false, isError := false, topic := Topic.chelsea } })
    _ 1
    [{ content := lit "what about lunch", sender := userSender,
       metadata := { isOutOfScope := Option.none, isError := Option.none,
                     topic := Option.none }, now := 2 }]
    (by decide) (by rfl)).2.2.2.1 (by decide)

/-! ## One request, two messages -/

/-- C22: take a well-formed collection, a non-blank message of at most 5000 code units after
trimming, a non-empty session id, no database fault, and an answer generator whose answer,
if any, is a text the schema accepts. Then after one chat request the session found by the
route's lookup holds the messages it held before (none if it did not exist), followed by the
user's message and then by exactly one assistant message: the decline text when the message
is out of scope, the generated answer when the generator answers, the apology when it
fails. This holds for the public route and for the authenticated route. -/
theorem request_adds_two_messages (userId : Nat) (service : OpenAIService) (st : Store)
    (req : Request) (now : Nat) (m : JSString)
    (hst : st.wellFormed) (hm : req.message = Option.some m)
    (h0 : (trim m).length ≠ 0) (h1 : (trim m).length ≤ 5000)
    (hsid : (req.sessionId.getD (defaultSessionId now)).length ≠ 0)
    (hans : ∀ a, service.call (selectAnswerer m) m = Except.ok a →
      (trim a).length ≠ 0 ∧ (trim a).length ≤ 5000) :
    (∃ reply oos err,
      ((isChelseaRelated m = false ∧ isFrontendRelated m = false ∧
          reply = outOfScopeResponse ∧ oos = true ∧ err = false) ∨
        ((isChelseaRelated m || isFrontendRelated m) = true ∧
          service.call (selectAnswerer m) m = Except.ok reply ∧ oos = false ∧ err = false) ∨
        ((isChelseaRelated m || isFrontendRelated m) = true ∧
          (∃ e, service.call (selectAnswerer m) m = Except.error e) ∧
          reply = errorResponse ∧ oos = false ∧ err = true)) ∧
      (findOne (postMessage service DbFault.ok DbFault.ok st req now).store
          (fun d => decide (d.sessionId = req.sessionId.getD (defaultSessionId now)))).map
          (fun d => d.messages) =
        Option.some
          (((findOne st
              (fun d => decide (d.sessionId = req.sessionId.getD (defaultSessionId now)))).map
              (fun d => d.messages)).getD []
            ++ [{ content := trim m, sender := userSender, timestamp := now,
                  metadata := { isOutOfScope := false, isError := false,
                                topic := getMessageTopic m userSender } },
                { content := trim reply, sender := assistantSender, timestamp := now,
                  metadata := { isOutOfScope := oos, isError := err,
                                topic := Topic.assistant } }])) ∧
    (∃ reply oos err,
      ((isChelseaRelated m = false ∧ isFrontendRelated m = false ∧
          reply = outOfScopeResponse ∧ oos = true ∧ err = false) ∨
        ((isChelseaRelated m || isFrontendRelated m) = true ∧
          service.call (selectAnswerer m) m = Except.ok reply ∧ oos = false ∧ err = false) ∨
        ((isChelseaRelated m || isFrontendRelated m) = true ∧
          (∃ e, service.call (selectAnswerer m) m = Except.error e) ∧
          reply = errorResponse ∧ oos = false ∧ err = true)) ∧
      (findOne (postMessageUser userId service DbFault.ok DbFault.ok st req now).store
          (fun d => decide (d.user = Option.some userId) &&
            decide (d.sessionId = req.sessionId.getD (defaultSessionId now)))).map
          (fun d => d.messages) =
        Option.some
          (((findOne st
              (fun d => decide (d.user = Option.some userId) &&
                decide (d.sessionId = req.sessionId.getD (defaultSessionId now)))).map
              (fun d => d.messages)).getD []
            ++ [{ content := trim m, sender := userSender, timestamp := now,
                  metadata := { isOutOfScope := false, isError := false,
                                topic := getMessageTopic m userSender } },
                { content := trim reply, sender := assistantSender, timestamp := now,
                  metadata := { isOutOfScope := oos, isError := err,
                                topic := Topic.assistant } }])) := by
  constructor
  · exact chatRoute_two_messages saveMessageWith (fun sid d => decide (d.sessionId = sid))
      (fun st sid c sender oos err now hw hs h0 h1 hsd =>
        ⟨saveMessageWith_wellFormed DbFault.ok st sid c sender oos err now hw,
          saveMessage_lookup st sid c sender oos err now hw hs h0 h1 hsd⟩)
      service st req now m hst hm h0 h1 hsid hans
  · exact chatRoute_two_messages (saveMessageUserWith userId)
      (fun sid d => decide (d.user = Option.some userId) && decide (d.sessionId = sid))
      (fun st sid c sender oos err now hw hs h0 h1 hsd =>
        ⟨saveMessageUserWith_wellFormed userId DbFault.ok st sid c sender oos err now hw,
          saveMessageUser_lookup st userId sid c sender oos err now hw hs h0 h1 hsd⟩)
      service st req now m hst hm h0 h1 hsid hans

set_option maxRecDepth 100000 in
theorem request_adds_two_messages_witness :
    ∃ reply oos err,
      ((isChelseaRelated (lit "hello there") = false ∧
          isFrontendRelated (lit "hello there") = false ∧
          reply = outOfScopeResponse ∧ oos = true ∧ err = false) ∨
        ((isChelseaRelated (lit "hello there") || isFrontendRelated (lit "hello there")) =
            true ∧
          OpenAIService.call
            { answerChelseaQuestion := fun _ => Except.ok (lit "He is a midfielder."),
              answerFrontendQuestion := fun _ => Except.ok (lit "Use a hook."),
              generateResponse := fun _ => Except.ok (lit "Hello.") }
            (selectAnswerer (lit "hello there")) (lit "hello there") = Except.ok reply ∧
          oos = false ∧ err = false) ∨
        ((isChelseaRelated (lit "hello there") || isFrontendRelated (lit "hello there")) =
            true ∧
          (∃ e, OpenAIService.call
            { answerChelseaQuestion := fun _ => Except.ok (lit "He is a midfielder."),
              answerFrontendQuestion := fun _ => Except.ok (lit "Use a hook."),
              generateResponse := fun _ => Except.ok (lit "Hello.") }
            (selectAnswerer (lit "hello there")) (lit "hello there") = Except.error e) ∧
          reply = errorResponse ∧ oos = false ∧ err = true)) ∧
      (findOne (postMessage
          { answerChelseaQuestion := fun _ => Except.ok (lit "He is a midfielder."),
            answerFrontendQuestion := fun _ => Except.ok (lit "Use a hook."),
            generateResponse := fun _ => Except.ok (lit "Hello.") }
          DbFault.ok DbFault.ok Store.empty
          { message := Option.some (lit "hello there"), sessionId := Option.some (lit "s1") }
          1).store
          (fun d => decide (d.sessionId = lit "s1"))).map (fun d => d.messages) =
        Option.some
          (((findOne Store.empty (fun d => decide (d.sessionId = lit "s1"))).map
              (fun d => d.messages)).getD []
            ++ [{ content := trim (lit "hello there"), sender := userSender, timestamp := 1,
                  metadata := { isOutOfScope := false, isError := false,
                                topic := getMessageTopic (lit "hello there") userSender } },
                { content := trim reply, sender := assistantSender, timestamp := 1,
                  metadata := { isOutOfScope := oos, isError := err,
                                topic := Topic.assistant } }]) :=
  (request_adds_two_messages 7
    { answerChelseaQuestion := fun _ => Except.ok (lit "He is a midfielder."),
      answerFrontendQuestion := fun _ => Except.ok (lit "Use a hook."),
      generateResponse := fun _ => Except.ok (lit "Hello.") }
    Store.empty
    { message := Option.some (lit "hello there"), sessionId := Option.some (lit "s1") }
    1 (lit "hello there") (fun d hd => nomatch hd) rfl (by decide) (by decide) (by decide)
    (fun a h => by
      generalize selectAnswerer (lit "hello there") = s at h
      cases s <;> (cases h; decide))).1

end ChatBackend
